import Mathlib

/-!
# A verification model of the MoscowProm spreadsheet import/export engine

This file gives a shallow embedding, in Lean 4, of the spreadsheet
import/reconciliation engine of the MoscowProm repository and settles the
frozen claims about it.

The embedded code is:
* `app/services/excel_processor_v2.py` — the index-based import variant
  (the one wired to the `/upload` endpoint),
* `app/services/excel_processor.py` — the header-driven import variant,
* `app/services/excel_exporter.py` — the exporter,
* the record shapes of `app/db/models.py`.

Modelling conventions, used throughout:
* A raw spreadsheet cell (`Cell`) is absent (`none`), a string, a number,
  a boolean, or a date.  Numbers are modelled as `ℚ`; every numeric literal
  appearing in the claims is exactly representable, so no floating-point
  rounding is in play for any statement below.
* Python's `float(...)` builtin is modelled on plain decimal literals
  (optional sign, digits, optional fractional part, surrounding whitespace);
  exponent/`inf`/`nan` forms are treated as unconvertible.  `str(...)` of a
  non-integer number is not given a faithful decimal rendering (no claim
  consumes it); integers render exactly.
* The SQLAlchemy session is modelled as an in-memory store written through
  directly.  The source never rolls anything back and every staged write is
  committed by the periodic / final `db.commit()`, so the final committed
  state coincides with the state of this model; `db.flush()` is the point
  where a new organization's id is assigned, which the model performs at
  `db.add`.  Exceptions raised while processing a row (Python `IndexError`
  from an unguarded `row[i]`, `ValueError` from strict coercion) are
  modelled by explicit bounds/`Except` checks placed exactly at the source's
  unguarded accesses, and the per-row `except` handler keeps all writes
  staged before the failure point, as the source does.
* Error diagnostics that the source formats into Russian strings are kept
  as structured values carrying the same data (column name, offending
  value, limit); theorems about "naming the column / the limit" refer to
  those fields.
-/

set_option maxRecDepth 100000

namespace MoscowProm

/-- A raw spreadsheet cell as handed to the processors by openpyxl
(`values_only=True`): absent/empty, text, a number, a boolean, or a date. -/
inductive Cell where
  | none
  | str (s : String)
  | num (q : ℚ)
  | bool (b : Bool)
  | date (y m d : Nat)
deriving DecidableEq, Repr

/-- Python truthiness of a cell value (`bool(value)`), used by `if value:`
style tests in the source.  `datetime` objects are always truthy. -/
def Cell.truthy : Cell → Bool
  | .none => false
  | .str s => s ≠ ""
  | .num q => q ≠ 0
  | .bool b => b
  | .date _ _ _ => true

/-- Truncation of a rational toward zero: the value of Python `int(q)` for a
float `q`. -/
def ratTrunc (q : ℚ) : ℤ := q.num.tdiv (q.den : ℤ)

/-- The numeric value of a single decimal digit. -/
def digitVal (c : Char) : Option Nat :=
  if c.isDigit then some (c.toNat - 48) else Option.none

/-- Python `s.strip()` on a character list: drop leading and trailing
whitespace.  (Character-list based so that all definitions evaluate by
kernel reduction.) -/
def pyStrip (cs : List Char) : List Char :=
  ((cs.dropWhile Char.isWhitespace).reverse.dropWhile Char.isWhitespace).reverse

/-- Python `s.strip()` on a string. -/
def pyStripStr (s : String) : String := String.mk (pyStrip s.data)

/-- Parse a nonempty all-digit character run into a natural number. -/
def parseNatDigits (cs : List Char) : Option Nat :=
  match cs with
  | [] => Option.none
  | _ => cs.foldlM (fun acc c => (digitVal c).map (fun d => acc * 10 + d)) 0

/-- Parse an unsigned decimal literal (`123`, `123.45`, `123.`, `.45`) into a
rational. -/
def parseUnsigned (cs : List Char) : Option ℚ :=
  match cs.splitOn '.' with
  | [ip] => (parseNatDigits ip).map (fun n => (n : ℚ))
  | [ip, fp] =>
    if ip.isEmpty ∧ fp.isEmpty then Option.none
    else do
      let ipN ← if ip.isEmpty then some 0 else parseNatDigits ip
      let fpN ← if fp.isEmpty then some 0 else parseNatDigits fp
      pure (mkRat (ipN * 10 ^ fp.length + fpN) (10 ^ fp.length))
  | _ => Option.none

/-- Model of Python `float(s)` on a string: strip surrounding whitespace,
optional sign, decimal literal.  (Exponent, `inf`/`nan` and underscore forms
are treated as unconvertible; no claim exercises them.) -/
def strToRat? (s : String) : Option ℚ :=
  match pyStrip s.data with
  | '+' :: rest => parseUnsigned rest
  | '-' :: rest => (parseUnsigned rest).map Neg.neg
  | cs => parseUnsigned cs

/-- Model of the Python `float(value)` builtin on a cell value: `none` means
the call raises (`TypeError`/`ValueError`). -/
def pyFloat? : Cell → Option ℚ
  | .none => Option.none
  | .str s => strToRat? s
  | .num q => some q
  | .bool b => some (if b then 1 else 0)
  | .date _ _ _ => Option.none

/-- Model of Python `str(value)` restricted to what the claims consume:
strings render as themselves and integral numbers render exactly.  The
decimal rendering of a non-integer float is not modelled (no claim depends
on it). -/
def pyToString : Cell → String
  | .none => "None"
  | .str s => s
  | .num q => if q.den = 1 then toString q.num else toString q
  | .bool b => if b then "True" else "False"
  | .date y m d => toString y ++ "-" ++ toString m ++ "-" ++ toString d

/-- Python `value in (None, '')`, the emptiness test used by the strict
parsers of `excel_processor.py`. -/
def isNoneOrEmpty (v : Cell) : Bool :=
  v = Cell.none ∨ v = Cell.str ""

/-- `isinstance(value, str) and value.strip() == ""`, the whitespace-only
test of the `safe_*` coercions. -/
def isBlankStr : Cell → Bool
  | .str s => pyStrip s.data = []
  | _ => false

/-! ## Value coercion layer of `excel_processor_v2.py` (lenient) -/

/-- `safe_str` of `excel_processor_v2.py`: `None`/`""` give `None`, anything
else is `str(value).strip()`, optionally truncated to `max_len` characters,
with an empty result collapsed to `None`. -/
def safe_str (value : Cell) (maxLen : Option Nat) : Option String :=
  if value = Cell.none ∨ value = Cell.str "" then Option.none
  else
    let result := pyStrip (pyToString value).data
    let result :=
      match maxLen with
      | some n => if result.length > n then result.take n else result
      | Option.none => result
    if result ≠ [] then some (String.mk result) else Option.none

/-- `safe_float` of `excel_processor_v2.py`: empty and whitespace-only input
give `None`; an unconvertible value is swallowed to `None`, never an
error. -/
def safe_float (value : Cell) : Option ℚ :=
  if value = Cell.none ∨ value = Cell.str "" then Option.none
  else if isBlankStr value then Option.none
  else pyFloat? value

/-- `safe_int` of `excel_processor_v2.py`: `int(float(value))`, with empty
input and conversion failures both giving `None`. -/
def safe_int (value : Cell) : Option ℤ :=
  if value = Cell.none ∨ value = Cell.str "" then Option.none
  else if isBlankStr value then Option.none
  else (pyFloat? value).map ratTrunc

/-- `safe_bool` of `excel_processor_v2.py`: booleans pass through, strings
are matched (lowercased, stripped) against a fixed truthy vocabulary,
everything else is `False`.  (`String.toLower` lowercases ASCII only; the
Cyrillic token is matched as written, which no claim exercises.) -/
def safe_bool : Cell → Bool
  | .bool b => b
  | .str s =>
    String.mk (pyStrip (s.data.map Char.toLower)) ∈ ["да", "yes", "true", "1", "+"]
  | _ => false

/-- One parsed calendar date. -/
structure PyDate where
  year : Nat
  month : Nat
  day : Nat
deriving DecidableEq, Repr

/-- Parse three dot/dash/slash separated numeric components as a date in the
given component order, modelling `datetime.strptime` on its usual inputs. -/
def parseDate3 (sep : Char) (yearFirst : Bool) (s : String) : Option PyDate :=
  match (s.toList.splitOn sep).mapM parseNatDigits with
  | some [a, b, c] =>
    let (y, m, d) := if yearFirst then (a, b, c) else (c, b, a)
    if 1 ≤ m ∧ m ≤ 12 ∧ 1 ≤ d ∧ d ≤ 31 then some ⟨y, m, d⟩ else Option.none
  | _ => Option.none

/-- `safe_date` of `excel_processor_v2.py`: empty gives `None`, a native
date passes through, a string is tried against the formats `%d.%m.%Y`,
`%Y-%m-%d`, `%d/%m/%Y` in order; anything unparsable gives `None`. -/
def safe_date (value : Cell) : Option PyDate :=
  if value = Cell.none ∨ value = Cell.str "" then Option.none
  else match value with
    | .date y m d => some ⟨y, m, d⟩
    | v =>
      let s := pyStripStr (pyToString v)
      (parseDate3 '.' false s).orElse fun _ =>
        (parseDate3 '-' true s).orElse fun _ => parseDate3 '/' false s

/-! ## Value coercion layer of `excel_processor.py` (strict) -/

/-- A structured rendering of the diagnosable errors raised while decoding a
row in `excel_processor.py`.  The source formats each of these into a
Russian message carrying the same data. -/
inductive V1Error where
  /-- `Столбец col: не удалось преобразовать значение raw в число /
  целое число` — a type-coercion failure naming the column. -/
  | convertFail (col : String) (raw : Cell)
  /-- `Столбец col: значение raw слишком велико (максимум: limit)` — an
  overflow failure naming the column and the limit. -/
  | tooLarge (col : String) (raw : Cell) (limit : ℤ)
  /-- `TypeError` from slicing/float-calling a non-sliceable value. -/
  | typeError
deriving DecidableEq, Repr

deriving instance DecidableEq for Except

/-- `parse_float` of `excel_processor.py`: empty gives `None`; an
unconvertible value raises a failure naming the column when one was given,
and is swallowed otherwise. -/
def parse_float (value : Cell) (columnName : Option String) :
    Except V1Error (Option ℚ) :=
  if isNoneOrEmpty value then .ok Option.none
  else match pyFloat? value with
    | some q => .ok (some q)
    | Option.none =>
      match columnName with
      | some c => .error (.convertFail c value)
      | Option.none => .ok Option.none

/-- `parse_int` of `excel_processor.py`: `int(float(value))` with the same
error policy as `parse_float`. -/
def parse_int (value : Cell) (columnName : Option String) :
    Except V1Error (Option ℤ) :=
  if isNoneOrEmpty value then .ok Option.none
  else match pyFloat? value with
    | some q => .ok (some (ratTrunc q))
    | Option.none =>
      match columnName with
      | some c => .error (.convertFail c value)
      | Option.none => .ok Option.none

/-- `parse_bool` of `excel_processor.py` (as `safe_bool` but without the
strip). -/
def parse_bool : Cell → Bool
  | .bool b => b
  | .str s => String.mk (s.data.map Char.toLower) ∈ ["да", "yes", "true", "1", "+"]
  | _ => false

/-- `parse_date` of `excel_processor.py`: only the `%Y-%m-%d` format, with
every failure swallowed to `None`. -/
def parse_date (value : Cell) : Option PyDate :=
  if isNoneOrEmpty value then Option.none
  else match value with
    | .date y m d => some ⟨y, m, d⟩
    | v => parseDate3 '-' true (pyToString v)

/-- The inline employee-count parse of `excel_processor.py` (lines 231-243
for the total count, 246-258 for the Moscow count): empty gives `None`,
a falsy raw value gives `None`, then `int(float(value))` with an explicit
`> 2147483647` overflow check that raises a distinct failure naming the
column and the limit; any other conversion failure names the column. -/
def parseEmployeeV1 (columnName : String) (value : Cell) :
    Except V1Error (Option ℤ) :=
  if isNoneOrEmpty value then .ok Option.none
  else if ¬value.truthy then .ok Option.none
  else match pyFloat? value with
    | some q =>
      let t := ratTrunc q
      if t > 2147483647 then .error (.tooLarge columnName value 2147483647)
      else .ok (some t)
    | Option.none => .error (.convertFail columnName value)

/-! ## Data model (`app/db/models.py`)

One Lean structure per SQLAlchemy model, restricted to the columns the
import/export engine reads or writes.  `organization_id` is kept inside
each child record, as in the source; `id` columns of child records are
never consulted by the engine and are omitted. -/

/-- `OrganizationMetrics`: one year of financial metrics. -/
structure MetricRec where
  organization_id : Nat
  year : Nat
  revenue : Option ℚ
  profit : Option ℚ
  total_employees : Option ℤ
  moscow_employees : Option ℤ
  total_fot : Option ℚ
  moscow_fot : Option ℚ
  avg_salary_total : Option ℚ
  avg_salary_moscow : Option ℚ
  investments : Option ℚ
  export_volume : Option ℚ
deriving DecidableEq, Repr

/-- `OrganizationTaxes`: one year of tax amounts. -/
structure TaxRec where
  organization_id : Nat
  year : Nat
  total_taxes_moscow : Option ℚ
  profit_tax : Option ℚ
  property_tax : Option ℚ
  land_tax : Option ℚ
  ndfl : Option ℚ
  transport_tax : Option ℚ
  other_taxes : Option ℚ
  excise : Option ℚ
deriving DecidableEq, Repr

/-- `OrganizationAssets` as written by `excel_processor_v2.py` (the
header-driven variant stores raw cells; see `V1`). -/
structure AssetRec where
  organization_id : Nat
  property_summary : Option String
  cadastral_number_land : Option String
  land_area : Option ℚ
  land_usage : Option String
  land_ownership_type : Option String
  land_owner : Option String
  cadastral_number_building : Option String
  building_area : Option ℚ
  building_usage : Option String
  building_type : Option String
  building_ownership_type : Option String
  building_owner : Option String
  production_area : Option ℚ
deriving DecidableEq, Repr

/-- `OrganizationProducts` as written by `excel_processor_v2.py`. -/
structure ProductRec where
  organization_id : Nat
  product_name : Option String
  standardized_product : Option String
  product_types : Option String
  okpd2_codes : Option String
  product_catalog : Option String
  has_government_orders : Bool
  capacity_usage : Option String
  has_export : Bool
  export_volume_last_year : Option ℚ
  export_countries : Option String
  tnved_code : Option String
deriving DecidableEq, Repr

/-- `OrganizationMeta` as written by `excel_processor_v2.py`
(`industry_directory`, `presentation_links`, `other_notes` stay unset
there; the exporter reads them, so they are carried). -/
structure MetaRec where
  organization_id : Nat
  registry_development : Option String
  industry_spark : Option String
  industry_directory : Option String
  presentation_links : Option String
  other_notes : Option String
deriving DecidableEq, Repr

/-- The descriptive columns of `Organization` that
`excel_processor_v2.py` decodes (its index comments name the workbook
columns; index 15 is skipped by the source). -/
structure OrgFields where
  name : Option String
  full_name : Option String
  status_spark : Option String
  status_internal : Option String
  status_final : Option String
  date_added : Option PyDate
  legal_address : Option String
  production_address : Option String
  additional_address : Option String
  main_industry : Option String
  main_subindustry : Option String
  extra_industry : Option String
  extra_subindustry : Option String
  main_okved : Option String
  main_okved_name : Option String
  prod_okved : Option String
  prod_okved_name : Option String
  company_info : Option String
  company_size : Option String
  company_size_2022 : Option String
  size_by_employees : Option String
  size_by_employees_2022 : Option String
  size_by_revenue : Option String
  size_by_revenue_2022 : Option String
  registration_date : Option PyDate
  head_name : Option String
  parent_org_name : Option String
  parent_org_inn : Option String
  parent_relation_type : Option String
  head_contacts : Option String
  head_email : Option String
  employee_contact : Option String
  phone : Option String
  emergency_contact : Option String
  website : Option String
  email : Option String
  support_data : Option String
  special_status : Option String
  site_final : Option String
  got_moscow_support : Bool
  is_system_critical : Bool
  msp_status : Option String
  coordinates_lat : Option ℚ
  coordinates_lon : Option ℚ
  legal_address_coords : Option String
  production_address_coords : Option String
  additional_address_coords : Option String
  district : Option String
  region : Option String
deriving DecidableEq, Repr

/-- A persisted `Organization` row: primary key, the unique natural key
`inn`, and the descriptive columns. -/
structure OrgRec where
  id : Nat
  inn : String
  fields : OrgFields
deriving DecidableEq, Repr

/-- The persistence store.  The session is written through directly: the
source never rolls back, and the periodic / final `db.commit()` commits
everything staged, so the state here is the final committed state.
`nextId` models the primary-key sequence consulted at `db.flush()`. -/
structure DB where
  orgs : List OrgRec
  metrics : List MetricRec
  taxes : List TaxRec
  assets : List AssetRec
  products : List ProductRec
  metas : List MetaRec
  nextId : Nat
deriving DecidableEq, Repr

/-- The empty store. -/
def DB.empty : DB := ⟨[], [], [], [], [], [], 1⟩

/-- `db.query(Organization).filter(Organization.inn == inn).first()`. -/
def findOrg (db : DB) (inn : String) : Option OrgRec :=
  db.orgs.find? (fun o => o.inn = inn)

/-- The metric records of one organization, in store order. -/
def metricsOf (db : DB) (oid : Nat) : List MetricRec :=
  db.metrics.filter (fun m => m.organization_id = oid)

/-- The tax records of one organization, in store order. -/
def taxesOf (db : DB) (oid : Nat) : List TaxRec :=
  db.taxes.filter (fun t => t.organization_id = oid)

/-- The asset records of one organization. -/
def assetsOf (db : DB) (oid : Nat) : List AssetRec :=
  db.assets.filter (fun a => a.organization_id = oid)

/-- The product records of one organization. -/
def productsOf (db : DB) (oid : Nat) : List ProductRec :=
  db.products.filter (fun p => p.organization_id = oid)

/-- The meta records of one organization. -/
def metasOf (db : DB) (oid : Nat) : List MetaRec :=
  db.metas.filter (fun m => m.organization_id = oid)

example : safe_float (Cell.str "645670") = some 645670 := by decide
example : safe_int (Cell.str "223.9") = some 223 := by decide
example : safe_int (Cell.str "-223.9") = some (-223) := by decide
example : safe_float (Cell.str "abc") = Option.none := by decide
example : safe_float (Cell.str "  ") = Option.none := by decide
example : parse_int (Cell.str "223.9") (some "c") = .ok (some 223) := by decide
example : parseEmployeeV1 "c" (Cell.num 2147483648) =
    .error (.tooLarge "c" (Cell.num 2147483648) 2147483647) := by decide
example : parseEmployeeV1 "c" (Cell.num 2147483647) =
    .ok (some 2147483647) := by decide

/-! ## The index-based import (`excel_processor_v2.py`)

`process_excel_file` iterates data rows; each row is processed inside a
`try`/`except` that turns any exception into an error entry and continues.
With the lenient `safe_*` coercions the only exceptions a row can raise are
`IndexError`s from the unguarded `row[i]` accesses; the model places an
explicit bounds check exactly where the source performs the first unguarded
access of each region (`row[1]`; `row[2]` in the update branch's log call;
`row[2..44]` in the `Organization(...)` constructor; `row[47+i..96+i]` in
metric year `i`; `row[103+i..159+i]` in tax year `i`).  Accesses the source
guards with `if len(row) > k else None` are modelled by `cellAt`, which is
total. -/

/-- `row[i] if len(row) > i else None` — and also the plain `row[i]` at
call sites where the bound has already been checked. -/
def cellAt (row : List Cell) (i : Nat) : Cell := row.getD i Cell.none

/-- Python `any([...])` truthiness of an optional float. -/
def optQTruthy : Option ℚ → Bool
  | some q => q ≠ 0
  | Option.none => false

/-- Python `any([...])` truthiness of an optional int. -/
def optZTruthy : Option ℤ → Bool
  | some n => n ≠ 0
  | Option.none => false

namespace V2

/-- The `Organization(...)` constructor call of `excel_processor_v2.py`
(create branch), column indices as in the source. -/
def v2OrgFields (row : List Cell) : OrgFields where
  name := safe_str (cellAt row 2) (some 500)
  full_name := safe_str (cellAt row 3) Option.none
  status_spark := safe_str (cellAt row 4) Option.none
  status_internal := safe_str (cellAt row 5) Option.none
  status_final := safe_str (cellAt row 6) Option.none
  date_added := safe_date (cellAt row 7)
  legal_address := safe_str (cellAt row 8) Option.none
  production_address := safe_str (cellAt row 9) Option.none
  additional_address := safe_str (cellAt row 10) Option.none
  main_industry := safe_str (cellAt row 11) Option.none
  main_subindustry := safe_str (cellAt row 12) Option.none
  extra_industry := safe_str (cellAt row 13) Option.none
  extra_subindustry := safe_str (cellAt row 14) Option.none
  main_okved := safe_str (cellAt row 16) Option.none
  main_okved_name := safe_str (cellAt row 17) Option.none
  prod_okved := safe_str (cellAt row 18) Option.none
  prod_okved_name := safe_str (cellAt row 19) Option.none
  company_info := safe_str (cellAt row 20) Option.none
  company_size := safe_str (cellAt row 21) Option.none
  company_size_2022 := safe_str (cellAt row 22) Option.none
  size_by_employees := safe_str (cellAt row 23) Option.none
  size_by_employees_2022 := safe_str (cellAt row 24) Option.none
  size_by_revenue := safe_str (cellAt row 25) Option.none
  size_by_revenue_2022 := safe_str (cellAt row 26) Option.none
  registration_date := safe_date (cellAt row 27)
  head_name := safe_str (cellAt row 28) Option.none
  parent_org_name := safe_str (cellAt row 29) Option.none
  parent_org_inn := safe_str (cellAt row 30) Option.none
  parent_relation_type := safe_str (cellAt row 31) Option.none
  head_contacts := safe_str (cellAt row 32) Option.none
  head_email := safe_str (cellAt row 33) Option.none
  employee_contact := safe_str (cellAt row 34) Option.none
  phone := safe_str (cellAt row 35) Option.none
  emergency_contact := safe_str (cellAt row 36) Option.none
  website := safe_str (cellAt row 37) Option.none
  email := safe_str (cellAt row 38) Option.none
  support_data := safe_str (cellAt row 39) Option.none
  special_status := safe_str (cellAt row 40) Option.none
  site_final := safe_str (cellAt row 41) Option.none
  got_moscow_support := safe_bool (cellAt row 42)
  is_system_critical := safe_bool (cellAt row 43)
  msp_status := safe_str (cellAt row 44) Option.none
  coordinates_lat := safe_float (cellAt row 205)
  coordinates_lon := safe_float (cellAt row 206)
  legal_address_coords := safe_str (cellAt row 202) Option.none
  production_address_coords := safe_str (cellAt row 203) Option.none
  additional_address_coords := safe_str (cellAt row 204) Option.none
  district := safe_str (cellAt row 207) Option.none
  region := safe_str (cellAt row 208) Option.none

/-- `investments` for one metric year: populated only for 2021-2023, from
the guarded columns 167-169. -/
def v2Investments (row : List Cell) (year : Nat) : Option ℚ :=
  if year = 2021 then safe_float (cellAt row 167)
  else if year = 2022 then safe_float (cellAt row 168)
  else if year = 2023 then safe_float (cellAt row 169)
  else Option.none

/-- `export_volume` for one metric year: populated only for 2019-2023, from
the guarded columns 170-174. -/
def v2ExportVolume (row : List Cell) (year : Nat) : Option ℚ :=
  if year = 2019 then safe_float (cellAt row 170)
  else if year = 2020 then safe_float (cellAt row 171)
  else if year = 2021 then safe_float (cellAt row 172)
  else if year = 2022 then safe_float (cellAt row 173)
  else if year = 2023 then safe_float (cellAt row 174)
  else Option.none

/-- The decoded metric values of year `2017 + i` (year index `i < 7`). -/
def v2MetricYear (row : List Cell) (oid : Nat) (i : Nat) : MetricRec where
  organization_id := oid
  year := 2017 + i
  revenue := safe_float (cellAt row (47 + i))
  profit := safe_float (cellAt row (54 + i))
  total_employees := safe_int (cellAt row (61 + i))
  moscow_employees := safe_int (cellAt row (68 + i))
  total_fot := safe_float (cellAt row (75 + i))
  moscow_fot := safe_float (cellAt row (82 + i))
  avg_salary_total := safe_float (cellAt row (89 + i))
  avg_salary_moscow := safe_float (cellAt row (96 + i))
  investments := v2Investments row (2017 + i)
  export_volume := v2ExportVolume row (2017 + i)

/-- `any([revenue, profit, ..., investments, export_volume])` — the
truthiness filter deciding whether the year's metric record is created. -/
def metricAny (m : MetricRec) : Bool :=
  optQTruthy m.revenue || optQTruthy m.profit || optZTruthy m.total_employees ||
  optZTruthy m.moscow_employees || optQTruthy m.total_fot || optQTruthy m.moscow_fot ||
  optQTruthy m.avg_salary_total || optQTruthy m.avg_salary_moscow ||
  optQTruthy m.investments || optQTruthy m.export_volume

/-- The metric record year `2017 + i` contributes, if any. -/
def mkMetric? (row : List Cell) (oid : Nat) (i : Nat) : Option MetricRec :=
  let m := v2MetricYear row oid i
  if metricAny m then some m else Option.none

/-- The decoded tax values of year `2017 + i` (year index `i < 8`). -/
def v2TaxYear (row : List Cell) (oid : Nat) (i : Nat) : TaxRec where
  organization_id := oid
  year := 2017 + i
  total_taxes_moscow := safe_float (cellAt row (103 + i))
  profit_tax := safe_float (cellAt row (111 + i))
  property_tax := safe_float (cellAt row (119 + i))
  land_tax := safe_float (cellAt row (127 + i))
  ndfl := safe_float (cellAt row (135 + i))
  transport_tax := safe_float (cellAt row (143 + i))
  other_taxes := safe_float (cellAt row (151 + i))
  excise := safe_float (cellAt row (159 + i))

/-- `any([...])` over the eight tax values. -/
def taxAny (t : TaxRec) : Bool :=
  optQTruthy t.total_taxes_moscow || optQTruthy t.profit_tax ||
  optQTruthy t.property_tax || optQTruthy t.land_tax || optQTruthy t.ndfl ||
  optQTruthy t.transport_tax || optQTruthy t.other_taxes || optQTruthy t.excise

/-- The tax record year `2017 + i` contributes, if any. -/
def mkTax? (row : List Cell) (oid : Nat) (i : Nat) : Option TaxRec :=
  let t := v2TaxYear row oid i
  if taxAny t then some t else Option.none

/-- The metric loop over year indices `0..6`.  Iteration `i` performs its
unguarded reads `row[47+i]..row[96+i]` before staging anything, so it
either appends its record (bound `96 + i` in range) or raises with the
store as accumulated so far (`false` component). -/
def v2MetricsGo (row : List Cell) (oid : Nat) : List Nat → DB → DB × Bool
  | [], db => (db, true)
  | i :: rest, db =>
    if 96 + i < row.length then
      let db :=
        match mkMetric? row oid i with
        | some m => { db with metrics := db.metrics ++ [m] }
        | Option.none => db
      v2MetricsGo row oid rest db
    else (db, false)

/-- The tax loop over year indices `0..7`; unguarded reads
`row[103+i]..row[159+i]`. -/
def v2TaxesGo (row : List Cell) (oid : Nat) : List Nat → DB → DB × Bool
  | [], db => (db, true)
  | i :: rest, db =>
    if 159 + i < row.length then
      let db :=
        match mkTax? row oid i with
        | some t => { db with taxes := db.taxes ++ [t] }
        | Option.none => db
      v2TaxesGo row oid rest db
    else (db, false)

/-- `len(row) > 175 and any([row[176], row[181]])` (guarded reads). -/
def v2HasAssets (row : List Cell) : Bool :=
  175 < row.length && ((cellAt row 176).truthy || (cellAt row 181).truthy)

/-- The `OrganizationAssets(...)` constructor of `excel_processor_v2.py`. -/
def v2Asset (row : List Cell) (oid : Nat) : AssetRec where
  organization_id := oid
  property_summary := safe_str (cellAt row 175) Option.none
  cadastral_number_land := safe_str (cellAt row 176) Option.none
  land_area := safe_float (cellAt row 177)
  land_usage := safe_str (cellAt row 178) Option.none
  land_ownership_type := safe_str (cellAt row 179) Option.none
  land_owner := safe_str (cellAt row 180) Option.none
  cadastral_number_building := safe_str (cellAt row 181) Option.none
  building_area := safe_float (cellAt row 182)
  building_usage := safe_str (cellAt row 183) Option.none
  building_type := safe_str (cellAt row 184) Option.none
  building_ownership_type := safe_str (cellAt row 185) Option.none
  building_owner := safe_str (cellAt row 186) Option.none
  production_area := safe_float (cellAt row 187)

/-- `len(row) > 188 and any([row[188], row[190]])`. -/
def v2HasProducts (row : List Cell) : Bool :=
  188 < row.length && ((cellAt row 188).truthy || (cellAt row 190).truthy)

/-- The `OrganizationProducts(...)` constructor of
`excel_processor_v2.py`. -/
def v2Product (row : List Cell) (oid : Nat) : ProductRec where
  organization_id := oid
  product_name := safe_str (cellAt row 188) Option.none
  standardized_product := safe_str (cellAt row 189) Option.none
  product_types := safe_str (cellAt row 190) Option.none
  okpd2_codes := safe_str (cellAt row 191) Option.none
  product_catalog := safe_str (cellAt row 193) Option.none
  has_government_orders := safe_bool (cellAt row 194)
  capacity_usage := safe_str (cellAt row 195) Option.none
  has_export := safe_bool (cellAt row 196)
  export_volume_last_year := safe_float (cellAt row 197)
  export_countries := safe_str (cellAt row 198) Option.none
  tnved_code := safe_str (cellAt row 199) Option.none

/-- `len(row) > 200 and any([row[200], row[201]])`. -/
def v2HasMeta (row : List Cell) : Bool :=
  200 < row.length && ((cellAt row 200).truthy || (cellAt row 201).truthy)

/-- The `OrganizationMeta(...)` constructor of `excel_processor_v2.py`. -/
def v2Meta (row : List Cell) (oid : Nat) : MetaRec where
  organization_id := oid
  registry_development := safe_str (cellAt row 200) Option.none
  industry_spark := safe_str (cellAt row 201) Option.none
  industry_directory := Option.none
  presentation_links := Option.none
  other_notes := Option.none

/-- One entry of the run's `errors` list.  The source stores
`safe_str(row[1])` / `safe_str(row[2])` when the row is long enough and the
string `"Unknown"` otherwise; both the `"Unknown"` case and a `None` result
are rendered here as `none`.  The error text itself is not modelled. -/
structure ErrEntry where
  rowIdx : Nat
  inn : Option String
  name : Option String
deriving DecidableEq, Repr

/-- One entry of `organizations_details` (capped at 50 by the source). -/
structure OrgDetail where
  inn : String
  name : String
  is_new : Bool
deriving DecidableEq, Repr

/-- The run state of `process_excel_file`: the store plus the statistics
the summary dict reports. -/
structure ImportState where
  db : DB
  organizations_new : Nat
  organizations_updated : Nat
  rows_processed : Nat
  rows_skipped : Nat
  errors : List ErrEntry
  organizations_details : List OrgDetail
deriving DecidableEq, Repr

/-- The state a run starts from. -/
def initState : ImportState := ⟨DB.empty, 0, 0, 0, 0, [], []⟩

/-- The `except` handler at the bottom of the row loop: append an error
entry and continue.  (`rows_skipped` is *not* incremented here, unlike the
header-driven variant.) -/
def v2Fail (st : ImportState) (rowIdx : Nat) (row : List Cell) : ImportState :=
  { st with errors := st.errors ++
      [{ rowIdx := rowIdx
         inn := if 1 < row.length then safe_str (cellAt row 1) Option.none else Option.none
         name := if 2 < row.length then safe_str (cellAt row 2) Option.none else Option.none }] }

/-- The tail of the row body shared by the create and update branches:
metric loop, tax loop, assets/products/meta blocks, details,
`rows_processed += 1`.  The periodic `db.commit()` is a no-op on this
write-through model. -/
def v2RowRest (st : ImportState) (rowIdx : Nat) (row : List Cell)
    (org : OrgRec) (isNew : Bool) : ImportState :=
  let (db1, ok1) := v2MetricsGo row org.id (List.range 7) st.db
  let st := { st with db := db1 }
  if !ok1 then v2Fail st rowIdx row
  else
    let (db2, ok2) := v2TaxesGo row org.id (List.range 8) st.db
    let st := { st with db := db2 }
    if !ok2 then v2Fail st rowIdx row
    else
      let db := st.db
      let db :=
        if v2HasAssets row then
          { db with assets :=
              db.assets.filter (fun a => a.organization_id ≠ org.id) ++ [v2Asset row org.id] }
        else db
      let db :=
        if v2HasProducts row then
          { db with products :=
              db.products.filter (fun p => p.organization_id ≠ org.id) ++ [v2Product row org.id] }
        else db
      let db :=
        if v2HasMeta row then
          { db with metas :=
              db.metas.filter (fun m => m.organization_id ≠ org.id) ++ [v2Meta row org.id] }
        else db
      let st := { st with db := db }
      let st :=
        if st.organizations_details.length < 50 then
          { st with organizations_details := st.organizations_details ++
              [{ inn := org.inn
                 name := org.fields.name.getD "Без названия"
                 is_new := isNew }] }
        else st
      { st with rows_processed := st.rows_processed + 1 }

/-- One iteration of the row loop of
`excel_processor_v2.process_excel_file`. -/
def processRowV2 (st : ImportState) (rowIdx : Nat) (row : List Cell) : ImportState :=
  if row.length < 2 then v2Fail st rowIdx row
  else
    match safe_str (cellAt row 1) Option.none with
    | Option.none => { st with rows_skipped := st.rows_skipped + 1 }
    | some inn =>
      match findOrg st.db inn with
      | some org =>
        -- `organizations_updated += 1` precedes the log call that reads
        -- `row[2]` unguarded, which precedes the metric/tax deletes.
        let st1 := { st with organizations_updated := st.organizations_updated + 1 }
        if row.length < 3 then v2Fail st1 rowIdx row
        else
          let db := { st1.db with
            metrics := st1.db.metrics.filter (fun m => m.organization_id ≠ org.id)
            taxes := st1.db.taxes.filter (fun t => t.organization_id ≠ org.id) }
          v2RowRest { st1 with db := db } rowIdx row org false
      | Option.none =>
        -- the `Organization(...)` constructor reads `row[2..44]` unguarded
        if row.length < 45 then v2Fail st rowIdx row
        else
          let org : OrgRec := ⟨st.db.nextId, inn, v2OrgFields row⟩
          let db := { st.db with orgs := st.db.orgs ++ [org], nextId := st.db.nextId + 1 }
          let st1 := { st with db := db
                               organizations_new := st.organizations_new + 1 }
          v2RowRest st1 rowIdx row org true

/-- The row loop, rows enumerated from spreadsheet row 2. -/
def processRowsV2 (st : ImportState) (rowIdx : Nat) : List (List Cell) → ImportState
  | [] => st
  | row :: rest => processRowsV2 (processRowV2 st rowIdx row) (rowIdx + 1) rest

/-- `process_excel_file` of `excel_processor_v2.py` on the data rows of a
workbook, starting from a given store. -/
def process_excel_file (db : DB) (rows : List (List Cell)) : ImportState :=
  processRowsV2 { initState with db := db } 2 rows

end V2

/-! ## The exporter (`excel_exporter.py`)

`export_organizations_to_excel` writes a header row and one data row per
organization; headers and cells are modelled below exactly in the source's
append order, so list position in `exportHeaders` / `buildExportRow` is the
workbook column index. -/

namespace Exporter

/-- `years = list(range(2017, 2024))`. -/
def years : List Nat := List.range' 2017 7

/-- `tax_years = list(range(2017, 2025))`. -/
def tax_years : List Nat := List.range' 2017 8

/-- `export_years = list(range(2019, 2024))`. -/
def export_years : List Nat := List.range' 2019 5

/-- One per-year header family: `f"{text} {year}"` for each year, where the
separating space is part of `text`. -/
def yearHeaders (text : String) (ys : List Nat) : List String :=
  ys.map (fun y => text ++ toString y)

/-- The exported header row (209 columns). -/
def exportHeaders : List String :=
  ["№", "ИНН", "Наименование организации", "Полное наименование организации",
   "Статус СПАРК", "Статус внутренний", "Статус ИТОГ", "Дата добавления в реестр",
   "Юридический адрес", "Адрес производства", "Адрес дополнительной площадки",
   "Основная отрасль", "Подотрасль (Основная)", "Дополнительная отрасль",
   "Подотрасль (Дополнительная)", "Отраслевые презентации", "Основной ОКВЭД (СПАРК)",
   "Вид деятельности по основному ОКВЭД (СПАРК)", "Производственный ОКВЭД",
   "Вид деятельности по производственному ОКВЭД", "Общие сведения об организации",
   "Размер предприятия (итог)", "Размер предприятия (итог) 2022",
   "Размер предприятия (по численности)", "Размер предприятия (по численности) 2022",
   "Размер предприятия (по выручке)", "Размер предприятия (по выручке) 2022",
   "Дата регистрации", "Руководитель", "Головная организация",
   "ИНН головной организации", "Вид отношения головной организации",
   "Контактные данные руководства", "Почта руководства",
   "Контакт сотрудника организации", "Номер телефона",
   "Контактные данные ответственного по ЧС", "Сайт", "Электронная почта",
   "Данные о мерах поддержки", "Наличие особого статуса", "Площадка итог",
   "Получена поддержка от г. Москвы", "Системообразующее предприятие",
   "Статус МСП", "То самое", "Финансово-экономические показатели"] ++
  yearHeaders "Выручка предприятия, тыс. руб. " years ++
  yearHeaders "Чистая прибыль (убыток),тыс. руб. " years ++
  yearHeaders "Среднесписочная численность персонала (всего по компании), чел " years ++
  yearHeaders "Среднесписочная численность персонала, работающего в Москве, чел " years ++
  yearHeaders "Фонд оплаты труда всех сотрудников организации, тыс. руб " years ++
  yearHeaders "Фонд оплаты труда сотрудников, работающих в Москве, тыс. руб " years ++
  yearHeaders "Средняя з.п. всех сотрудников организации, тыс.руб. " years ++
  yearHeaders "Средняя з.п. сотрудников, работающих в Москве, тыс.руб. " years ++
  yearHeaders "Налоги, уплаченные в бюджет Москвы (без акцизов), тыс.руб. " tax_years ++
  yearHeaders "Налог на прибыль, тыс.руб. " tax_years ++
  yearHeaders "Налог на имущество, тыс.руб. " tax_years ++
  yearHeaders "Налог на землю, тыс.руб. " tax_years ++
  yearHeaders "НДФЛ, тыс.руб. " tax_years ++
  yearHeaders "Транспортный налог, тыс.руб. " tax_years ++
  yearHeaders "Прочие налоги " tax_years ++
  yearHeaders "Акцизы, тыс. руб. " tax_years ++
  ["Инвестиции в Мск 2021 тыс. руб.", "Инвестиции в Мск 2022 тыс. руб.",
   "Инвестиции в Мск 2023 тыс. руб."] ++
  yearHeaders "Объем экспорта, тыс. руб. " export_years ++
  ["Имущественно-земельный комплекс", "Кадастровый номер ЗУ", "Площадь ЗУ",
   "Вид разрешенного использования ЗУ", "Вид собственности ЗУ", "Собственник ЗУ",
   "Кадастровый номер ОКСа", "Площадь ОКСов",
   "Вид разрешенного использования ОКСов", "Тип строения и цель использования",
   "Вид собственности ОКСов", "СобственникОКСов",
   "Площадь производственных помещений, кв.м."] ++
  ["Производимая продукция", "Стандартизированная продукция",
   "Название (виды производимой продукции)",
   "Перечень производимой продукции по кодам ОКПД 2",
   "Перечень производимой продукции по типам и сегментам", "Каталог продукции",
   "Наличие госзаказа", "Уровень загрузки производственных мощностей",
   "Наличие поставок продукции на экспорт",
   "Объем экспорта (млн.руб.) за предыдущий календарный год",
   "Перечень государств куда экспортируется продукция", "Код ТН ВЭД ЕАЭС"] ++
  ["Развитие Реестра", "Отрасль промышленности по Спарк и Справочнику",
   "Координаты юридического адреса", "Координаты адреса производства",
   "Координаты адреса дополнительной площадки", "Координаты (широта)",
   "Координаты (долгота)", "Округ", "Район"]

/-- Zero-pad a number to two digits (`strftime` `%d` / `%m`). -/
def pad2 (n : Nat) : String := if n < 10 then "0" ++ toString n else toString n

/-- `d.strftime("%d.%m.%Y")`. -/
def fmtDate (d : PyDate) : String :=
  pad2 d.day ++ "." ++ pad2 d.month ++ "." ++ toString d.year

/-- `x or ""` for a nullable string column. -/
def cellStrOr (x : Option String) : Cell := .str (x.getD "")

/-- `x.strftime(...) if x else ""` for a nullable date column. -/
def cellDate (x : Option PyDate) : Cell :=
  match x with
  | some d => .str (fmtDate d)
  | Option.none => .str ""

/-- `x if x else ""` for a nullable numeric column (a stored `0` renders as
the empty cell, Python truthiness). -/
def cellQTruthy (x : Option ℚ) : Cell :=
  match x with
  | some q => if q ≠ 0 then .num q else .str ""
  | Option.none => .str ""

/-- `rec.f if rec else ""`: with the record present the raw column value is
appended (a SQL `NULL` becomes an empty cell); without it the empty
string. -/
def ocellStr {α : Type} (rec : Option α) (f : α → Option String) : Cell :=
  match rec with
  | some r =>
    match f r with
    | some s => .str s
    | Option.none => .none
  | Option.none => .str ""

/-- `rec.f if rec and rec.f else ""` for a numeric child column. -/
def ocellQ {α : Type} (rec : Option α) (f : α → Option ℚ) : Cell :=
  match rec with
  | some r => cellQTruthy (f r)
  | Option.none => .str ""

/-- `rec.f if rec and rec.f else ""` for an integer child column. -/
def ocellZ {α : Type} (rec : Option α) (f : α → Option ℤ) : Cell :=
  match rec with
  | some r =>
    match f r with
    | some n => if n ≠ 0 then .num (n : ℚ) else .str ""
    | Option.none => .str ""
  | Option.none => .str ""

/-- `rec.f if rec and rec.f else ""` for a string child column. -/
def ocellSTruthy {α : Type} (rec : Option α) (f : α → Option String) : Cell :=
  match rec with
  | some r =>
    match f r with
    | some s => if s ≠ "" then .str s else .str ""
    | Option.none => .str ""
  | Option.none => .str ""

/-- `"Да" if rec and rec.f else "Нет"`. -/
def ocellBool {α : Type} (rec : Option α) (f : α → Bool) : Cell :=
  match rec with
  | some r => if f r then .str "Да" else .str "Нет"
  | Option.none => .str "Нет"

/-- `metrics_dict[metric.year] = metric` over the query result: the last
record per year wins. -/
def metricForYear (db : DB) (oid : Nat) (y : Nat) : Option MetricRec :=
  ((metricsOf db oid).filter (fun m => m.year = y)).getLast?

/-- `taxes_dict[tax.year] = tax`: the last record per year wins. -/
def taxForYear (db : DB) (oid : Nat) (y : Nat) : Option TaxRec :=
  ((taxesOf db oid).filter (fun t => t.year = y)).getLast?

/-- One exported data row (209 cells), in the source's append order. -/
def buildExportRow (db : DB) (idx : Nat) (org : OrgRec) : List Cell :=
  let md := fun y => metricForYear db org.id y
  let td := fun y => taxForYear db org.id y
  let assets := (assetsOf db org.id).head?
  let products := (productsOf db org.id).head?
  let meta := (metasOf db org.id).head?
  let f := org.fields
  [Cell.num (idx : ℚ), Cell.str org.inn, cellStrOr f.name, cellStrOr f.full_name,
   cellStrOr f.status_spark, cellStrOr f.status_internal, cellStrOr f.status_final,
   cellDate f.date_added, cellStrOr f.legal_address, cellStrOr f.production_address,
   cellStrOr f.additional_address, cellStrOr f.main_industry,
   cellStrOr f.main_subindustry, cellStrOr f.extra_industry,
   cellStrOr f.extra_subindustry, ocellStr meta MetaRec.presentation_links,
   cellStrOr f.main_okved, cellStrOr f.main_okved_name, cellStrOr f.prod_okved,
   cellStrOr f.prod_okved_name, cellStrOr f.company_info, cellStrOr f.company_size,
   cellStrOr f.company_size_2022, cellStrOr f.size_by_employees,
   cellStrOr f.size_by_employees_2022, cellStrOr f.size_by_revenue,
   cellStrOr f.size_by_revenue_2022, cellDate f.registration_date,
   cellStrOr f.head_name, cellStrOr f.parent_org_name, cellStrOr f.parent_org_inn,
   cellStrOr f.parent_relation_type, cellStrOr f.head_contacts,
   cellStrOr f.head_email, cellStrOr f.employee_contact, cellStrOr f.phone,
   cellStrOr f.emergency_contact, cellStrOr f.website, cellStrOr f.email,
   cellStrOr f.support_data, cellStrOr f.special_status, cellStrOr f.site_final,
   (if f.got_moscow_support then Cell.str "Да" else Cell.str "Нет"),
   (if f.is_system_critical then Cell.str "Да" else Cell.str "Нет"),
   cellStrOr f.msp_status, Cell.str "", Cell.str ""] ++
  years.map (fun y => ocellQ (md y) MetricRec.revenue) ++
  years.map (fun y => ocellQ (md y) MetricRec.profit) ++
  years.map (fun y => ocellZ (md y) MetricRec.total_employees) ++
  years.map (fun y => ocellZ (md y) MetricRec.moscow_employees) ++
  years.map (fun y => ocellQ (md y) MetricRec.total_fot) ++
  years.map (fun y => ocellQ (md y) MetricRec.moscow_fot) ++
  years.map (fun y => ocellQ (md y) MetricRec.avg_salary_total) ++
  years.map (fun y => ocellQ (md y) MetricRec.avg_salary_moscow) ++
  tax_years.map (fun y => ocellQ (td y) TaxRec.total_taxes_moscow) ++
  tax_years.map (fun y => ocellQ (td y) TaxRec.profit_tax) ++
  tax_years.map (fun y => ocellQ (td y) TaxRec.property_tax) ++
  tax_years.map (fun y => ocellQ (td y) TaxRec.land_tax) ++
  tax_years.map (fun y => ocellQ (td y) TaxRec.ndfl) ++
  tax_years.map (fun y => ocellQ (td y) TaxRec.transport_tax) ++
  tax_years.map (fun y => ocellQ (td y) TaxRec.other_taxes) ++
  tax_years.map (fun y => ocellQ (td y) TaxRec.excise) ++
  [ocellQ (md 2021) MetricRec.investments, ocellQ (md 2022) MetricRec.investments,
   ocellQ (md 2023) MetricRec.investments] ++
  export_years.map (fun y => ocellQ (md y) MetricRec.export_volume) ++
  [ocellStr assets AssetRec.property_summary,
   ocellStr assets AssetRec.cadastral_number_land,
   ocellQ assets AssetRec.land_area,
   ocellStr assets AssetRec.land_usage,
   ocellStr assets AssetRec.land_ownership_type,
   ocellStr assets AssetRec.land_owner,
   ocellStr assets AssetRec.cadastral_number_building,
   ocellQ assets AssetRec.building_area,
   ocellStr assets AssetRec.building_usage,
   ocellStr assets AssetRec.building_type,
   ocellStr assets AssetRec.building_ownership_type,
   ocellStr assets AssetRec.building_owner,
   ocellQ assets AssetRec.production_area] ++
  [Cell.str "",
   ocellStr products ProductRec.standardized_product,
   ocellStr products ProductRec.product_name,
   ocellStr products ProductRec.okpd2_codes,
   ocellStr products ProductRec.product_types,
   ocellStr products ProductRec.product_catalog,
   ocellBool products ProductRec.has_government_orders,
   ocellSTruthy products ProductRec.capacity_usage,
   ocellBool products ProductRec.has_export,
   ocellQ products ProductRec.export_volume_last_year,
   ocellStr products ProductRec.export_countries,
   ocellStr products ProductRec.tnved_code] ++
  [ocellStr meta MetaRec.registry_development,
   (match meta with
    | some m => Cell.str ((m.industry_spark.getD "") ++ " / " ++ (m.industry_directory.getD ""))
    | Option.none => Cell.str ""),
   cellStrOr f.legal_address_coords, cellStrOr f.production_address_coords,
   cellStrOr f.additional_address_coords, cellQTruthy f.coordinates_lat,
   cellQTruthy f.coordinates_lon, cellStrOr f.district, cellStrOr f.region]

/-- The exported data rows, one per organization, numbered from 1
(`enumerate(organizations, start=1)`). -/
def exportDataRows (orgs : List OrgRec) (db : DB) : List (List Cell) :=
  (List.range orgs.length).zip orgs |>.map (fun p => buildExportRow db (p.1 + 1) p.2)

/-- `export_organizations_to_excel`: the produced sheet — the header row
followed by the data rows.  (Re-importing such a sheet feeds only the data
rows to `process_excel_file`, which starts at `min_row=2`.) -/
def export_organizations_to_excel (orgs : List OrgRec) (db : DB) : List (List Cell) :=
  exportHeaders.map Cell.str :: exportDataRows orgs db

end Exporter

/-! ## The header-driven import (`excel_processor.py`)

The strict variant: rows are decoded through `data = dict(zip(headers,
row))`, numeric cells are parsed by inline `try: float(...)` blocks that
raise a `ValueError` naming the column, and the per-row `except` handler
records the failure and also increments `rows_skipped`.  Descriptive
columns are stored raw (no `safe_str`), so the Lean record fields for them
are `Cell`s. -/

namespace V1

/-- `data = dict(zip(headers, row))`: the decoded row.  `zip` truncates to
the shorter list; duplicate headers overwrite (last wins), which `dget`
reproduces. -/
def Dict : Type := List (String × Cell)

/-- Dictionary lookup: `none` means the key is absent (`data.get(k)` then
gives Python `None`); `some .none` means the header exists with an empty
cell. -/
def dget (d : Dict) (k : String) : Option Cell :=
  ((d.filter (fun p => p.1 = k)).getLast?).map (fun p => p.2)

/-- `data.get(k)` with the absent-key `None` collapsed into `Cell.none`
(the two are indistinguishable to every consumer but `.get(k, default)`,
which is modelled separately where it occurs). -/
def dgetCell (d : Dict) (k : String) : Cell :=
  (dget d k).getD Cell.none

/-- Python `a or b` on two cell values. -/
def cellOr (a b : Cell) : Cell := if a.truthy then a else b

/-- The `Organization` columns as stored by `excel_processor.py`:
raw dictionary values for the plain string columns, parsed values where the
source parses. -/
structure V1OrgFields where
  name : String
  full_name : Cell
  status_spark : Cell
  status_internal : Cell
  status_final : Cell
  date_added : Option PyDate
  legal_address : Cell
  production_address : Cell
  additional_address : Cell
  main_industry : Cell
  main_subindustry : Cell
  extra_industry : Cell
  extra_subindustry : Cell
  main_okved : Cell
  main_okved_name : Cell
  prod_okved : Cell
  prod_okved_name : Cell
  company_info : Cell
  company_size : Cell
  company_size_2022 : Cell
  size_by_employees : Cell
  size_by_employees_2022 : Cell
  size_by_revenue : Cell
  size_by_revenue_2022 : Cell
  registration_date : Option PyDate
  head_name : Cell
  parent_org_name : Cell
  parent_org_inn : Cell
  parent_relation_type : Cell
  head_contacts : Cell
  head_email : Cell
  employee_contact : Cell
  phone : Cell
  emergency_contact : Cell
  website : Cell
  email : Cell
  support_data : Cell
  special_status : Cell
  site_final : Cell
  got_moscow_support : Bool
  is_system_critical : Bool
  msp_status : Cell
  coordinates_lat : Option ℚ
  coordinates_lon : Option ℚ
  legal_address_coords : Cell
  production_address_coords : Cell
  additional_address_coords : Cell
  district : Cell
  region : Cell
deriving DecidableEq, Repr

/-- A persisted organization of the header-driven variant. -/
structure V1OrgRec where
  id : Nat
  inn : String
  fields : V1OrgFields
deriving DecidableEq, Repr

/-- `OrganizationAssets` as written by `excel_processor.py`. -/
structure V1AssetRec where
  organization_id : Nat
  cadastral_number_land : Cell
  land_area : Option ℚ
  land_usage : Cell
  land_ownership_type : Cell
  land_owner : Cell
  cadastral_number_building : Cell
  building_area : Option ℚ
  building_usage : Cell
  building_type : Cell
  building_purpose : Cell
  building_ownership_type : Cell
  building_owner : Cell
  production_area : Option ℚ
  property_summary : Cell
deriving DecidableEq, Repr

/-- `OrganizationProducts` as written by `excel_processor.py`. -/
structure V1ProductRec where
  organization_id : Nat
  product_name : Cell
  standardized_product : Cell
  okpd2_codes : Cell
  product_types : Cell
  product_catalog : Cell
  has_government_orders : Bool
  capacity_usage : Cell
  has_export : Bool
  export_volume_last_year : Option ℚ
  export_countries : Cell
  tnved_code : Cell
deriving DecidableEq, Repr

/-- `OrganizationMeta` as written by `excel_processor.py` (always added,
never deduplicated). -/
structure V1MetaRec where
  organization_id : Nat
  industry_spark : Cell
  industry_directory : Cell
  presentation_links : Cell
  registry_development : Cell
  other_notes : Cell
deriving DecidableEq, Repr

/-- The store of the header-driven variant. -/
structure V1DB where
  orgs : List V1OrgRec
  metrics : List MetricRec
  taxes : List TaxRec
  assets : List V1AssetRec
  products : List V1ProductRec
  metas : List V1MetaRec
  nextId : Nat
deriving DecidableEq, Repr

/-- The empty store. -/
def V1DB.empty : V1DB := ⟨[], [], [], [], [], [], 1⟩

/-- `db.query(Organization).filter(...).first()`. -/
def v1FindOrg (db : V1DB) (inn : String) : Option V1OrgRec :=
  db.orgs.find? (fun o => o.inn = inn)

/-- One recorded failure: the spreadsheet row number and the structured
error (the source renders these into one string
`TYPE | name (ИНН: inn) | Строка Excel: row | description`). -/
structure V1Err where
  rowIdx : Nat
  error : V1Error
deriving DecidableEq, Repr

/-- The run state of the header-driven `process_excel_file`, including its
per-family missing-data tallies. -/
structure V1State where
  db : V1DB
  organizations_new : Nat
  organizations_updated : Nat
  rows_processed : Nat
  rows_skipped : Nat
  errors : List V1Err
  missing_contacts : Nat
  missing_coordinates : Nat
  missing_metrics : Nat
  missing_taxes : Nat
  missing_assets : Nat
  missing_products : Nat
deriving DecidableEq, Repr

/-- The state a run starts from. -/
def v1InitState : V1State := ⟨V1DB.empty, 0, 0, 0, 0, [], 0, 0, 0, 0, 0, 0⟩

/-- `data.get('Наименование организации', '')[:500]`: the absent key gives
the sliceable default, a string slices, anything else (including a present
`None`) raises `TypeError`. -/
def v1Name (d : Dict) : Except V1Error String :=
  match dget d "Наименование организации" with
  | Option.none => .ok ""
  | some (.str s) => .ok (String.mk (s.data.take 500))
  | some _ => .error .typeError

/-- The `Organization(...)` constructor call of `excel_processor.py`: only
the name slice and the two `parse_float`-with-column coordinate fields can
fail, in that source order. -/
def mkV1OrgFields (d : Dict) : Except V1Error V1OrgFields := do
  let name ← v1Name d
  let lat ← parse_float (dgetCell d "Координаты (широта)") (some "Координаты (широта)")
  let lon ← parse_float (dgetCell d "Координаты (долгота)") (some "Координаты (долгота)")
  pure
    { name := name
      full_name := dgetCell d "Полное наименование организации"
      status_spark := dgetCell d "Статус СПАРК"
      status_internal := dgetCell d "Статус внутренний"
      status_final := dgetCell d "Статус ИТОГ"
      date_added := parse_date (dgetCell d "Дата добавления в реестр")
      legal_address := dgetCell d "Юридический адрес"
      production_address := dgetCell d "Адрес производства"
      additional_address := dgetCell d "Адрес дополнительной площадки"
      main_industry := dgetCell d "Основная отрасль"
      main_subindustry := dgetCell d "Подотрасль (Основная)"
      extra_industry := dgetCell d "Дополнительная отрасль"
      extra_subindustry := dgetCell d "Подотрасль (Дополнительная)"
      main_okved := dgetCell d "Основной ОКВЭД (СПАРК)"
      main_okved_name := dgetCell d "Вид деятельности по основному ОКВЭД (СПАРК)"
      prod_okved := dgetCell d "Производственный ОКВЭД"
      prod_okved_name := dgetCell d "Вид деятельности по производственному ОКВЭД"
      company_info := dgetCell d "Общие сведения об организации"
      company_size := dgetCell d "Размер предприятия (итог)"
      company_size_2022 := dgetCell d "Размер предприятия (итог) 2022"
      size_by_employees := dgetCell d "Размер предприятия (по численности)"
      size_by_employees_2022 := dgetCell d "Размер предприятия (по численности) 2022"
      size_by_revenue := dgetCell d "Размер предприятия (по выручке)"
      size_by_revenue_2022 := dgetCell d "Размер предприятия (по выручке) 2022"
      registration_date := parse_date (dgetCell d "Дата регистрации")
      head_name := dgetCell d "Руководитель"
      parent_org_name := dgetCell d "Головная организация"
      parent_org_inn := dgetCell d "ИНН головной организации"
      parent_relation_type := dgetCell d "Вид отношения головной организации"
      head_contacts := dgetCell d "Контактные данные руководства"
      head_email := dgetCell d "Почта руководства"
      employee_contact := dgetCell d "Контакт сотрудника организации"
      phone := dgetCell d "Номер телефона"
      emergency_contact := dgetCell d "Контактные данные ответственного по ЧС"
      website := dgetCell d "Сайт"
      email := dgetCell d "Электронная почта"
      support_data := dgetCell d "Данные о мерах поддержки"
      special_status := dgetCell d "Наличие особого статуса"
      site_final := dgetCell d "Площадка итог"
      got_moscow_support := parse_bool (dgetCell d "Получена поддержка от г. Москвы")
      is_system_critical := parse_bool (dgetCell d "Системообразующее предприятие")
      msp_status := dgetCell d "Статус МСП"
      coordinates_lat := lat
      coordinates_lon := lon
      legal_address_coords := dgetCell d "Координаты юридического адреса"
      production_address_coords := dgetCell d "Координаты адреса производства"
      additional_address_coords := dgetCell d "Координаты адреса дополнительной площадки"
      district := dgetCell d "Округ"
      region := dgetCell d "Район" }

/-! ### Metric and tax column names (f-strings of the source, including its
header-text typos, which are part of the alias chains) -/

/-- `f'Выручка предприятия, тыс. руб. {year}'` -/
def revCol (y : Nat) : String := "Выручка предприятия, тыс. руб. " ++ toString y

/-- `f'Чистая прибыль (убыток),тыс. руб. {year}'` -/
def profitCol (y : Nat) : String := "Чистая прибыль (убыток),тыс. руб. " ++ toString y

/-- `f'Среднесписочная численность персонала (всего по компании), чел {year}'` -/
def totalEmpCol (y : Nat) : String :=
  "Среднесписочная численность персонала (всего по компании), чел " ++ toString y

/-- `f'Среднесписочная численность персонала, работающего в Москве, чел {year}'` -/
def mskEmpCol (y : Nat) : String :=
  "Среднесписочная численность персонала, работающего в Москве, чел " ++ toString y

/-- `f'Фонд оплаты труда всех сотрудников организации, тыс. руб {year}'` -/
def totalFotCol (y : Nat) : String :=
  "Фонд оплаты труда всех сотрудников организации, тыс. руб " ++ toString y

/-- The three header aliases tried for the Moscow payroll column. -/
def mskFotCols (y : Nat) : List String :=
  ["Фонд оплаты труда сотрудников, работающих в Москве, тыс. руб " ++ toString y,
   "Фонд оплаты труда сотрудников, работающего в Москве, тыс. руб " ++ toString y,
   "Фонд оплаты труда сотрудников, работающего в Москве, тыс. руб. " ++ toString y]

/-- `f'Средняя з.п. всех сотрудников организации, тыс.руб. {year}'` -/
def avgSalCol (y : Nat) : String :=
  "Средняя з.п. всех сотрудников организации, тыс.руб. " ++ toString y

/-- The two header aliases tried for the Moscow average salary column (the
second contains a Latin `b`, as in the source). -/
def avgSalMskCols (y : Nat) : List String :=
  ["Средняя з.п. сотрудников, работающих в Москве, тыс.руб. " ++ toString y,
   "Средняя з.п. сотрудников, работающих в Москве, тыс.руb. " ++ toString y]

/-- `f'Инвестиции в Мск {year} тыс. руб.'` -/
def invCol (y : Nat) : String := "Инвестиции в Мск " ++ toString y ++ " тыс. руб."

/-- `f'Объем экспорта, тыс. руб. {year}'` -/
def expCol (y : Nat) : String := "Объем экспорта, тыс. руб. " ++ toString y

/-- `f'Налоги, уплаченные в бюджет Москвы (без акцизов), тыс.руб. {year}'` -/
def totalTaxCol (y : Nat) : String :=
  "Налоги, уплаченные в бюджет Москвы (без акцизов), тыс.руб. " ++ toString y

/-- `f'Налог на прибыль, тыс.руб. {year}'` -/
def profitTaxCol (y : Nat) : String := "Налог на прибыль, тыс.руб. " ++ toString y

/-- `f'Налог на имущество, тыс.руб. {year}'` -/
def propertyTaxCol (y : Nat) : String := "Налог на имущество, тыс.руб. " ++ toString y

/-- The two header aliases tried for the land tax column (Latin `b` typo in
the second). -/
def landTaxCols (y : Nat) : List String :=
  ["Налог на землю, тыс.руб. " ++ toString y,
   "Налог на землю, тыс.руb. " ++ toString y]

/-- `f'НДФЛ, тыс.руб. {year}'` -/
def ndflCol (y : Nat) : String := "НДФЛ, тыс.руб. " ++ toString y

/-- `f'Транспортный налог, тыс.руб. {year}'` -/
def transportTaxCol (y : Nat) : String := "Транспортный налог, тыс.руб. " ++ toString y

/-- `f'Прочие налоги {year}'` -/
def otherTaxCol (y : Nat) : String := "Прочие налоги " ++ toString y

/-- `f'Акцизы, тыс. руб. {year}'` -/
def exciseCol (y : Nat) : String := "Акцизы, тыс. руб. " ++ toString y

/-- The alias-chain loop of the source: take the first alias whose cell is
non-empty; a conversion failure on that alias raises naming it. -/
def parseAliasFloat (d : Dict) : List String → Except V1Error (Option ℚ)
  | [] => .ok Option.none
  | c :: rest =>
    let v := dgetCell d c
    if isNoneOrEmpty v then parseAliasFloat d rest
    else match pyFloat? v with
      | some q => .ok (some q)
      | Option.none => .error (.convertFail c v)

/-- One metric year of `excel_processor.py` (the inline parses of lines
209-348, in source order), returning the record to stage — or `none` when
the `any([revenue, profit, total_employees])` filter rejects it. -/
def v1MetricYear (d : Dict) (y : Nat) : Except V1Error (Option (Nat → MetricRec)) := do
  let revenue ← parse_float (dgetCell d (revCol y)) (some (revCol y))
  let profit ← parse_float (dgetCell d (profitCol y)) (some (profitCol y))
  let total_employees ← parseEmployeeV1 (totalEmpCol y) (dgetCell d (totalEmpCol y))
  let moscow_employees ← parseEmployeeV1 (mskEmpCol y) (dgetCell d (mskEmpCol y))
  let total_fot ← parse_float (dgetCell d (totalFotCol y)) (some (totalFotCol y))
  let moscow_fot ← parseAliasFloat d (mskFotCols y)
  let avg_salary_total ← parse_float (dgetCell d (avgSalCol y)) (some (avgSalCol y))
  let avg_salary_moscow ← parseAliasFloat d (avgSalMskCols y)
  let investments ←
    if y ≥ 2021 then parse_float (dgetCell d (invCol y)) (some (invCol y))
    else pure Option.none
  let export_volume ←
    if y ≥ 2019 then parse_float (dgetCell d (expCol y)) (some (expCol y))
    else pure Option.none
  let m : Nat → MetricRec := fun oid =>
    { organization_id := oid
      year := y
      revenue := revenue
      profit := profit
      total_employees := total_employees
      moscow_employees := moscow_employees
      total_fot := total_fot
      moscow_fot := moscow_fot
      avg_salary_total := avg_salary_total
      avg_salary_moscow := avg_salary_moscow
      investments := investments
      export_volume := export_volume }
  pure
    (if optQTruthy revenue || optQTruthy profit || optZTruthy total_employees
     then some m else Option.none)

/-- The 2017-2023 metric loop: stage each accepted year record; a failure
keeps the records staged so far and reports the error.  The boolean is
`has_metrics`. -/
def v1MetricsGo (d : Dict) (oid : Nat) :
    List Nat → V1DB → Bool → V1DB × Bool × Option V1Error
  | [], db, has => (db, has, Option.none)
  | y :: rest, db, has =>
    match v1MetricYear d y with
    | .error e => (db, has, some e)
    | .ok Option.none => v1MetricsGo d oid rest db has
    | .ok (some m) => v1MetricsGo d oid rest { db with metrics := db.metrics ++ [m oid] } true

/-- One tax year of `excel_processor.py` (lines 355-455), with the
`any([total_taxes_moscow, profit_tax, property_tax])` filter. -/
def v1TaxYear (d : Dict) (y : Nat) : Except V1Error (Option (Nat → TaxRec)) := do
  let total_taxes_moscow ← parse_float (dgetCell d (totalTaxCol y)) (some (totalTaxCol y))
  let profit_tax ← parse_float (dgetCell d (profitTaxCol y)) (some (profitTaxCol y))
  let property_tax ← parse_float (dgetCell d (propertyTaxCol y)) (some (propertyTaxCol y))
  let land_tax ← parseAliasFloat d (landTaxCols y)
  let ndfl ← parse_float (dgetCell d (ndflCol y)) (some (ndflCol y))
  let transport_tax ← parse_float (dgetCell d (transportTaxCol y)) (some (transportTaxCol y))
  let other_taxes ← parse_float (dgetCell d (otherTaxCol y)) (some (otherTaxCol y))
  let excise ← parse_float (dgetCell d (exciseCol y)) (some (exciseCol y))
  let t : Nat → TaxRec := fun oid =>
    { organization_id := oid
      year := y
      total_taxes_moscow := total_taxes_moscow
      profit_tax := profit_tax
      property_tax := property_tax
      land_tax := land_tax
      ndfl := ndfl
      transport_tax := transport_tax
      other_taxes := other_taxes
      excise := excise }
  pure
    (if optQTruthy total_taxes_moscow || optQTruthy profit_tax ||
        optQTruthy property_tax
     then some t else Option.none)

/-- The 2017-2024 tax loop; the boolean is `has_taxes`. -/
def v1TaxesGo (d : Dict) (oid : Nat) :
    List Nat → V1DB → Bool → V1DB × Bool × Option V1Error
  | [], db, has => (db, has, Option.none)
  | y :: rest, db, has =>
    match v1TaxYear d y with
    | .error e => (db, has, some e)
    | .ok Option.none => v1TaxesGo d oid rest db has
    | .ok (some t) => v1TaxesGo d oid rest { db with taxes := db.taxes ++ [t oid] } true

/-- The `OrganizationAssets(...)` constructor of `excel_processor.py`
(three `parse_float`-with-column fields can fail, in source order). -/
def v1Assets (d : Dict) : Except V1Error (Nat → V1AssetRec) := do
  let land_area ← parse_float (dgetCell d "Площадь ЗУ") (some "Площадь ЗУ")
  let building_area ← parse_float (dgetCell d "Площадь ОКСов") (some "Площадь ОКСов")
  let production_area ← parse_float
    (cellOr (dgetCell d "Площадь производственных помещений, кв.м.")
      (dgetCell d "Площадь производственных помещений"))
    (some "Площадь производственных помещений")
  pure fun oid =>
    { organization_id := oid
      cadastral_number_land := dgetCell d "Кадастровый номер ЗУ"
      land_area := land_area
      land_usage := dgetCell d "Вид разрешенного использования ЗУ"
      land_ownership_type := dgetCell d "Вид собственности ЗУ"
      land_owner := dgetCell d "Собственник ЗУ"
      cadastral_number_building := dgetCell d "Кадастровый номер ОКСа"
      building_area := building_area
      building_usage := dgetCell d "Вид разрешенного использования ОКСов"
      building_type := dgetCell d "Тип строения и цель использования"
      building_purpose := dgetCell d "Назначение ОКСов"
      building_ownership_type := dgetCell d "Вид собственности ОКСов"
      building_owner := dgetCell d "СобственникОКСов"
      production_area := production_area
      property_summary := dgetCell d "Имущественно-земельный комплекс" }

/-- The `OrganizationProducts(...)` constructor of `excel_processor.py`
(one `parse_float`-with-column field can fail). -/
def v1Products (d : Dict) : Except V1Error (Nat → V1ProductRec) := do
  let export_volume_last_year ← parse_float
    (dgetCell d "Объем экспорта (млн.руб.) за предыдущий календарный год")
    (some "Объем экспорта (млн.руб.) за предыдущий календарный год")
  pure fun oid =>
    { organization_id := oid
      product_name := dgetCell d "Производимая продукция"
      standardized_product :=
        cellOr (dgetCell d "Стандартизированная продукция")
          (dgetCell d "Название (виды производимой продукции)")
      okpd2_codes := dgetCell d "Перечень производимой продукции по кодам ОКПД 2"
      product_types := dgetCell d "Перечень производимой продукции по типам и сегментам"
      product_catalog := dgetCell d "Каталог продукции"
      has_government_orders :=
        parse_bool (cellOr (dgetCell d "Наличие госзаказа") (dgetCell d "Наличие  госзаказа"))
      capacity_usage := dgetCell d "Уровень загрузки производственных мощностей"
      has_export :=
        parse_bool (cellOr (dgetCell d "Наличие поставок продукции на экспорт")
          (dgetCell d "Наличие поставок продукции на экспорт "))
      export_volume_last_year := export_volume_last_year
      export_countries :=
        cellOr (dgetCell d "Перечень государств куда экспортируется продукция")
          (dgetCell d "Перечень государств куда экспортируется продукция ")
      tnved_code := dgetCell d "Код ТН ВЭД ЕАЭС" }

/-- The `OrganizationMeta(...)` constructor of `excel_processor.py`
(raw values only; cannot fail; always added). -/
def v1Meta (d : Dict) (oid : Nat) : V1MetaRec where
  organization_id := oid
  industry_spark := dgetCell d "Отрасль промышленности по Спарк и Справочнику"
  industry_directory := dgetCell d "Отраслевые презентации"
  presentation_links := dgetCell d "Ссылки на презентации"
  registry_development := dgetCell d "Развитие Реестра"
  other_notes := dgetCell d "Дополнительные примечания"

/-- The `except` handler of the header-driven row loop: record the failure
and `rows_skipped += 1`. -/
def v1Fail (st : V1State) (rowIdx : Nat) (e : V1Error) : V1State :=
  { st with errors := st.errors ++ [⟨rowIdx, e⟩]
            rows_skipped := st.rows_skipped + 1 }

/-- `data.get('Наименование организации', 'Без названия')[:100]`, evaluated
while appending the row's `organizations_details` entry; a non-string
present value raises `TypeError` at that late point. -/
def v1DetailName (d : Dict) : Except V1Error String :=
  match dget d "Наименование организации" with
  | Option.none => .ok (String.mk ("Без названия".data.take 100))
  | some (.str s) => .ok (String.mk (s.data.take 100))
  | some _ => .error .typeError

/-- The missing-contacts / missing-coordinates tallies at the top of the
row body (`has_contacts` / `has_coordinates`). -/
def v1Tallies (st : V1State) (d : Dict) : V1State :=
  let has_contacts := (dgetCell d "Номер телефона").truthy ||
    (dgetCell d "Электронная почта").truthy || (dgetCell d "Сайт").truthy
  let has_coordinates := (dgetCell d "Координаты (широта)").truthy ||
    (dgetCell d "Координаты (долгота)").truthy
  let st := if has_contacts then st
    else { st with missing_contacts := st.missing_contacts + 1 }
  if has_coordinates then st
  else { st with missing_coordinates := st.missing_coordinates + 1 }

/-- Row-body stage 4: products (one fallible parse), meta (always added),
the `organizations_details` name slice (fallible), `rows_processed += 1`. -/
def v1Stage4 (st : V1State) (rowIdx : Nat) (d : Dict) (org : V1OrgRec) : V1State :=
  match v1Products d with
  | .error e => v1Fail st rowIdx e
  | .ok p =>
    let st :=
      if (p org.id).product_name.truthy then
        { st with db := { st.db with products := st.db.products ++ [p org.id] } }
      else { st with missing_products := st.missing_products + 1 }
    let st := { st with db :=
      { st.db with metas := st.db.metas ++ [v1Meta d org.id] } }
    match v1DetailName d with
    | .error e => v1Fail st rowIdx e
    | .ok _ => { st with rows_processed := st.rows_processed + 1 }

/-- Row-body stage 3: assets. -/
def v1Stage3 (st : V1State) (rowIdx : Nat) (d : Dict) (org : V1OrgRec) : V1State :=
  match v1Assets d with
  | .error e => v1Fail st rowIdx e
  | .ok a =>
    let st :=
      if (a org.id).cadastral_number_land.truthy ||
          (a org.id).cadastral_number_building.truthy then
        { st with db := { st.db with assets := st.db.assets ++ [a org.id] } }
      else { st with missing_assets := st.missing_assets + 1 }
    v1Stage4 st rowIdx d org

/-- Row-body stage 2: the 2017-2024 tax loop. -/
def v1Stage2 (st : V1State) (rowIdx : Nat) (d : Dict) (org : V1OrgRec) : V1State :=
  let (db2, hasTaxes, err2) := v1TaxesGo d org.id (List.range' 2017 8) st.db false
  let st := { st with db := db2 }
  match err2 with
  | some e => v1Fail st rowIdx e
  | Option.none =>
    let st := if hasTaxes then st
      else { st with missing_taxes := st.missing_taxes + 1 }
    v1Stage3 st rowIdx d org

/-- Row-body stage 1: the 2017-2023 metric loop. -/
def v1Stage1 (st : V1State) (rowIdx : Nat) (d : Dict) (org : V1OrgRec) : V1State :=
  let (db1, hasMetrics, err1) := v1MetricsGo d org.id (List.range' 2017 7) st.db false
  let st := { st with db := db1 }
  match err1 with
  | some e => v1Fail st rowIdx e
  | Option.none =>
    let st := if hasMetrics then st
      else { st with missing_metrics := st.missing_metrics + 1 }
    v1Stage2 st rowIdx d org

/-- The row body from the point where the organization is known: missing
data tallies, metric loop, tax loop, assets, products, meta, details,
`rows_processed += 1`.  A failure anywhere leaves everything staged before
it in place and routes through `v1Fail`. -/
def v1RowRest (st : V1State) (rowIdx : Nat) (d : Dict) (org : V1OrgRec) : V1State :=
  v1Stage1 (v1Tallies st d) rowIdx d org

/-- `str(data.get('ИНН', '')).strip()` (reached only when the raw value is
truthy, so the absent-key default is moot). -/
def innStr (d : Dict) : String :=
  String.mk (pyStrip (pyToString (dgetCell d "ИНН")).data)

/-- One iteration of the header-driven row loop: the two blank-INN skips,
the upsert keyed on the stripped INN string, then the shared row body. -/
def processRowV1 (st : V1State) (rowIdx : Nat) (d : Dict) : V1State :=
  if ¬(dgetCell d "ИНН").truthy then
    { st with rows_skipped := st.rows_skipped + 1 }
  else
    let inn := innStr d
    if inn = "" then { st with rows_skipped := st.rows_skipped + 1 }
    else
      match v1FindOrg st.db inn with
      | some org =>
        let st := { st with organizations_updated := st.organizations_updated + 1 }
        v1RowRest st rowIdx d org
      | Option.none =>
        match mkV1OrgFields d with
        | .error e => v1Fail st rowIdx e
        | .ok f =>
          let org : V1OrgRec := ⟨st.db.nextId, inn, f⟩
          let st := { st with
            db := { st.db with orgs := st.db.orgs ++ [org], nextId := st.db.nextId + 1 }
            organizations_new := st.organizations_new + 1 }
          v1RowRest st rowIdx d org

/-- The header-driven row loop, rows enumerated from spreadsheet row 2. -/
def processRowsV1 (st : V1State) (rowIdx : Nat) : List Dict → V1State
  | [] => st
  | d :: rest => processRowsV1 (processRowV1 st rowIdx d) (rowIdx + 1) rest

/-- `process_excel_file` of `excel_processor.py`: decode each raw row
against the header row via `dict(zip(headers, row))` and run the row
loop. -/
def process_excel_file (headers : List String) (rows : List (List Cell)) : V1State :=
  processRowsV1 v1InitState 2 (rows.map (fun row => headers.zip row))

end V1

/-! ## Concrete workbook rows used by witnesses and counterexamples -/

/-- A row of `n` empty cells. -/
def blankRow (n : Nat) : List Cell := List.replicate n Cell.none

/-- A row of `n` empty cells with the given positions assigned. -/
def mkRow (n : Nat) (assigns : List (Nat × Cell)) : List Cell :=
  assigns.foldl (fun r p => r.set p.1 p.2) (blankRow n)

/-! ## Claims

Each claim of the specification is settled by one theorem below (plus a
witness when the theorem has hypotheses, and a counterexample when the
claim as stated fails on the code). -/

/-- **C10.**  For every cell whose value is a numeric string or number with
a fractional part, integer coercion returns the value truncated toward zero
via `int(float(value))` rather than failing: `'223.9'` imports as `223` in
both the header-driven (`parse_int`, and the inline employee-count parse)
and positional (`safe_int`) variants; the `-223.9` case shows the
truncation is toward zero, not a floor. -/
theorem C10_int_coercion_truncates :
    (∀ (v : Cell) (q : ℚ) (c : String), pyFloat? v = some q →
       isNoneOrEmpty v = false → isBlankStr v = false →
       safe_int v = some (ratTrunc q) ∧
       parse_int v (some c) = Except.ok (some (ratTrunc q))) ∧
    safe_int (Cell.str "223.9") = some 223 ∧
    parse_int (Cell.str "223.9") (some (V1.totalEmpCol 2017)) = Except.ok (some 223) ∧
    parseEmployeeV1 (V1.totalEmpCol 2017) (Cell.str "223.9") = Except.ok (some 223) ∧
    safe_int (Cell.str "-223.9") = some (-223) := by
  refine ⟨?_, by decide, by decide, by decide, by decide⟩
  intro v q c hq hne hbl
  have h1 : ¬(v = Cell.none ∨ v = Cell.str "") := by
    simp only [isNoneOrEmpty, Bool.or_eq_false_iff, decide_eq_false_iff_not] at hne
    rintro (h | h) <;> simp [h] at hne
  constructor
  · simp [safe_int, if_neg h1, hbl, hq]
  · have h2 : isNoneOrEmpty v = false := hne
    simp [parse_int, h2, hq]

/-- Witness for C10 at the concrete cell `'223.9'`. -/
theorem C10_witness :
    pyFloat? (Cell.str "223.9") = some (mkRat 2239 10) ∧
    isNoneOrEmpty (Cell.str "223.9") = false ∧
    isBlankStr (Cell.str "223.9") = false ∧
    safe_int (Cell.str "223.9") = some (ratTrunc (mkRat 2239 10)) :=
  ⟨by decide, by decide, by decide,
    (C10_int_coercion_truncates.1 (Cell.str "223.9") (mkRat 2239 10) "c"
      (by decide) (by decide) (by decide)).1⟩

/-- **C5.**  In the strict employee-count coercion, the converted value
`2147483648` (one above the 32-bit signed maximum) raises a diagnosable
overflow failure carrying the employee-count column name and the limit
`2147483647`, while `2147483647` succeeds; and integer coercion never
silently truncates or wraps: every successful result — of the strict
employee parse and of the lenient `safe_int` — is exactly the
truncation-toward-zero of the converted float, with the strict parse
additionally bounded by the limit. -/
theorem C5_overflow_boundary :
    parseEmployeeV1 (V1.totalEmpCol 2017) (Cell.num 2147483648) =
      Except.error (.tooLarge (V1.totalEmpCol 2017) (Cell.num 2147483648) 2147483647) ∧
    parseEmployeeV1 (V1.totalEmpCol 2017) (Cell.num 2147483647) =
      Except.ok (some 2147483647) ∧
    (∀ (c : String) (v : Cell) (n : ℤ), parseEmployeeV1 c v = Except.ok (some n) →
       n ≤ 2147483647 ∧ ∃ q, pyFloat? v = some q ∧ n = ratTrunc q) ∧
    (∀ (v : Cell) (n : ℤ), safe_int v = some n →
       ∃ q, pyFloat? v = some q ∧ n = ratTrunc q) := by
  refine ⟨by decide, by decide, ?_, ?_⟩
  · intro c v n h
    unfold parseEmployeeV1 at h
    cases h1 : isNoneOrEmpty v <;> rw [h1] at h
    · cases h2 : v.truthy <;> rw [h2] at h
      · simp at h
      · rcases hq : pyFloat? v with _ | q <;> rw [hq] at h
        · simp at h
        · by_cases h3 : ratTrunc q > 2147483647
          · simp [h3] at h
          · simp [h3] at h
            exact ⟨h ▸ le_of_not_lt h3, q, rfl, h.symm⟩
    · simp at h
  · intro v n h
    unfold safe_int at h
    by_cases h1 : (v = Cell.none ∨ v = Cell.str "")
    · simp [h1] at h
    · rw [if_neg h1] at h
      cases h2 : isBlankStr v <;> rw [h2] at h
      · rcases hq : pyFloat? v with _ | q <;> rw [hq] at h
        · simp at h
        · simp at h
          exact ⟨q, rfl, h.symm⟩
      · simp at h

/-- Witness for C5's universally quantified no-wrap conjuncts at the cell
`223`. -/
theorem C5_witness :
    (parseEmployeeV1 "c" (Cell.num 223) = Except.ok (some 223) ∧
      (223 : ℤ) ≤ 2147483647 ∧ ∃ q, pyFloat? (Cell.num 223) = some q ∧ (223 : ℤ) = ratTrunc q) ∧
    (safe_int (Cell.num 223) = some 223 ∧
      ∃ q, pyFloat? (Cell.num 223) = some q ∧ (223 : ℤ) = ratTrunc q) :=
  ⟨⟨by decide, (C5_overflow_boundary.2.2.1 "c" (Cell.num 223) 223 (by decide))⟩,
   ⟨by decide, C5_overflow_boundary.2.2.2 (Cell.num 223) 223 (by decide)⟩⟩

/-- **C7.**  A data row whose tax-identifier cell is present but empty
creates no organization, adds nothing to the failure list, increments the
skip counter by exactly one (the whole state is otherwise untouched), and
the batch continues with the next row. -/
theorem C7_blank_inn_skip (st : V2.ImportState) (rowIdx : Nat) (row : List Cell)
    (hlen : 2 ≤ row.length)
    (hinn : safe_str (cellAt row 1) Option.none = Option.none) :
    V2.processRowV2 st rowIdx row =
      { st with rows_skipped := st.rows_skipped + 1 } ∧
    ∀ rest, V2.processRowsV2 st rowIdx (row :: rest) =
      V2.processRowsV2 { st with rows_skipped := st.rows_skipped + 1 } (rowIdx + 1) rest := by
  have h2 : ¬row.length < 2 := by omega
  constructor
  · unfold V2.processRowV2
    rw [if_neg h2, hinn]
  · intro rest
    show V2.processRowsV2 (V2.processRowV2 st rowIdx row) (rowIdx + 1) rest = _
    unfold V2.processRowV2
    rw [if_neg h2, hinn]

/-- Witness for C7: a two-cell row with a whitespace-only tax identifier. -/
theorem C7_witness :
    (2 ≤ ([Cell.none, Cell.str " "] : List Cell).length ∧
      safe_str (cellAt [Cell.none, Cell.str " "] 1) Option.none = Option.none) ∧
    V2.processRowV2 V2.initState 2 [Cell.none, Cell.str " "] =
      { V2.initState with rows_skipped := V2.initState.rows_skipped + 1 } :=
  ⟨⟨by decide, by decide⟩,
    (C7_blank_inn_skip V2.initState 2 [Cell.none, Cell.str " "] (by decide) (by decide)).1⟩

/-! ## Closed forms for one processed row of the index-based import

`v2RowRestState`/`v2ApplyChildren` restate the per-row effect of
`processRowV2` as explicit record updates; the lemmas below prove the
processor equal to them whenever the row is long enough (≥ 167 cells) for
no `IndexError` to fire. -/

namespace V2

/-- The decoded inn of a row (`safe_str(row[1])`). -/
def rowInn (row : List Cell) : Option String := safe_str (cellAt row 1) Option.none

/-- The metric records a row stages for an organization. -/
def v2DecodedMetrics (row : List Cell) (oid : Nat) : List MetricRec :=
  (List.range 7).filterMap (mkMetric? row oid)

/-- The tax records a row stages for an organization. -/
def v2DecodedTaxes (row : List Cell) (oid : Nat) : List TaxRec :=
  (List.range 8).filterMap (mkTax? row oid)

/-- The combined child-family writes of one fully processed row. -/
def v2ApplyChildren (db : DB) (row : List Cell) (oid : Nat) : DB :=
  { db with
    metrics := db.metrics ++ v2DecodedMetrics row oid
    taxes := db.taxes ++ v2DecodedTaxes row oid
    assets :=
      if v2HasAssets row then
        db.assets.filter (fun a => a.organization_id ≠ oid) ++ [v2Asset row oid]
      else db.assets
    products :=
      if v2HasProducts row then
        db.products.filter (fun p => p.organization_id ≠ oid) ++ [v2Product row oid]
      else db.products
    metas :=
      if v2HasMeta row then
        db.metas.filter (fun m => m.organization_id ≠ oid) ++ [v2Meta row oid]
      else db.metas }

/-- The `organizations_details` list after one processed row. -/
def detailsAfter (details : List OrgDetail) (org : OrgRec) (isNew : Bool) :
    List OrgDetail :=
  if details.length < 50 then
    details ++ [⟨org.inn, org.fields.name.getD "Без названия", isNew⟩]
  else details

/-- The closed form of `v2RowRest` on a long-enough row. -/
def v2RowRestState (st : ImportState) (row : List Cell) (org : OrgRec)
    (isNew : Bool) : ImportState :=
  { st with
    db := v2ApplyChildren st.db row org.id
    organizations_details := detailsAfter st.organizations_details org isNew
    rows_processed := st.rows_processed + 1 }

theorem v2MetricsGo_ok (row : List Cell) (oid : Nat) (l : List Nat) (db : DB)
    (h : ∀ i ∈ l, 96 + i < row.length) :
    v2MetricsGo row oid l db =
      ({ db with metrics := db.metrics ++ l.filterMap (mkMetric? row oid) }, true) := by
  induction l generalizing db with
  | nil => simp [v2MetricsGo]
  | cons i rest ih =>
    have hi : 96 + i < row.length := h i (by simp)
    have hrest : ∀ j ∈ rest, 96 + j < row.length := fun j hj => h j (by simp [hj])
    unfold v2MetricsGo
    rw [if_pos hi]
    cases hm : mkMetric? row oid i with
    | none => rw [ih _ hrest]; simp [List.filterMap_cons, hm]
    | some m => rw [ih _ hrest]; simp [List.filterMap_cons, hm]

theorem v2TaxesGo_ok (row : List Cell) (oid : Nat) (l : List Nat) (db : DB)
    (h : ∀ i ∈ l, 159 + i < row.length) :
    v2TaxesGo row oid l db =
      ({ db with taxes := db.taxes ++ l.filterMap (mkTax? row oid) }, true) := by
  induction l generalizing db with
  | nil => simp [v2TaxesGo]
  | cons i rest ih =>
    have hi : 159 + i < row.length := h i (by simp)
    have hrest : ∀ j ∈ rest, 159 + j < row.length := fun j hj => h j (by simp [hj])
    unfold v2TaxesGo
    rw [if_pos hi]
    cases ht : mkTax? row oid i with
    | none => rw [ih _ hrest]; simp [List.filterMap_cons, ht]
    | some t => rw [ih _ hrest]; simp [List.filterMap_cons, ht]

theorem v2RowRest_ok (st : ImportState) (rowIdx : Nat) (row : List Cell)
    (org : OrgRec) (isNew : Bool) (hlen : 167 ≤ row.length) :
    v2RowRest st rowIdx row org isNew = v2RowRestState st row org isNew := by
  have hm : ∀ i ∈ List.range 7, 96 + i < row.length := by
    intro i hi; simp [List.mem_range] at hi; omega
  have ht : ∀ i ∈ List.range 8, 159 + i < row.length := by
    intro i hi; simp [List.mem_range] at hi; omega
  unfold v2RowRest
  rw [v2MetricsGo_ok row org.id (List.range 7) st.db hm]
  simp only
  rw [v2TaxesGo_ok row org.id (List.range 8) _ ht]
  simp only [Bool.not_true, Bool.false_eq_true, if_false]
  by_cases ha : v2HasAssets row <;> by_cases hp : v2HasProducts row <;>
    by_cases hq : v2HasMeta row <;>
    by_cases hd : st.organizations_details.length < 50 <;>
    simp [ha, hp, hq, hd, v2RowRestState, v2ApplyChildren, detailsAfter,
      v2DecodedMetrics, v2DecodedTaxes]

/-- The closed form of `processRowV2` on an update row. -/
theorem processRowV2_update (st : ImportState) (rowIdx : Nat) (row : List Cell)
    (inn : String) (org : OrgRec) (hlen : 167 ≤ row.length)
    (hinn : rowInn row = some inn) (horg : findOrg st.db inn = some org) :
    processRowV2 st rowIdx row =
      v2RowRestState
        { st with
          organizations_updated := st.organizations_updated + 1
          db := { st.db with
            metrics := st.db.metrics.filter (fun m => m.organization_id ≠ org.id)
            taxes := st.db.taxes.filter (fun t => t.organization_id ≠ org.id) } }
        row org false := by
  have h2 : ¬row.length < 2 := by omega
  have h3 : ¬row.length < 3 := by omega
  unfold processRowV2
  rw [if_neg h2]
  rw [show safe_str (cellAt row 1) Option.none = some inn from hinn]
  simp only [horg, if_neg h3]
  exact v2RowRest_ok _ rowIdx row org false hlen

/-- The closed form of `processRowV2` on a create row. -/
theorem processRowV2_create (st : ImportState) (rowIdx : Nat) (row : List Cell)
    (inn : String) (hlen : 167 ≤ row.length)
    (hinn : rowInn row = some inn) (horg : findOrg st.db inn = Option.none) :
    processRowV2 st rowIdx row =
      v2RowRestState
        { st with
          organizations_new := st.organizations_new + 1
          db := { st.db with
            orgs := st.db.orgs ++ [⟨st.db.nextId, inn, v2OrgFields row⟩]
            nextId := st.db.nextId + 1 } }
        row ⟨st.db.nextId, inn, v2OrgFields row⟩ true := by
  have h2 : ¬row.length < 2 := by omega
  have h45 : ¬row.length < 45 := by omega
  unfold processRowV2
  rw [if_neg h2]
  rw [show safe_str (cellAt row 1) Option.none = some inn from hinn]
  simp only [horg, if_neg h45]
  exact v2RowRest_ok _ rowIdx row _ true hlen

/-- Store well-formedness: primary keys of organizations are distinct and
below the sequence value, and every child row points below the sequence
value (so a freshly allocated id has no children).  Every state reachable
by the import from the empty store satisfies this. -/
def DBInv (db : DB) : Prop :=
  (∀ o ∈ db.orgs, o.id < db.nextId) ∧
  (∀ m ∈ db.metrics, m.organization_id < db.nextId) ∧
  (∀ t ∈ db.taxes, t.organization_id < db.nextId) ∧
  (∀ a ∈ db.assets, a.organization_id < db.nextId) ∧
  (∀ p ∈ db.products, p.organization_id < db.nextId) ∧
  (∀ m ∈ db.metas, m.organization_id < db.nextId) ∧
  (db.orgs.map OrgRec.id).Nodup

instance (db : DB) : Decidable (DBInv db) := by
  unfold DBInv; infer_instance

theorem mem_v2DecodedMetrics_oid (row : List Cell) (oid : Nat) :
    ∀ m ∈ v2DecodedMetrics row oid, m.organization_id = oid := by
  intro m hm
  simp only [v2DecodedMetrics, List.mem_filterMap] at hm
  obtain ⟨i, _, hi⟩ := hm
  by_cases hA : metricAny (v2MetricYear row oid i)
  · simp only [mkMetric?, hA, if_true, Option.some.injEq] at hi
    subst hi; rfl
  · simp [mkMetric?, hA] at hi

theorem mem_v2DecodedTaxes_oid (row : List Cell) (oid : Nat) :
    ∀ t ∈ v2DecodedTaxes row oid, t.organization_id = oid := by
  intro t ht
  simp only [v2DecodedTaxes, List.mem_filterMap] at ht
  obtain ⟨i, _, hi⟩ := ht
  by_cases hA : taxAny (v2TaxYear row oid i)
  · simp only [mkTax?, hA, if_true, Option.some.injEq] at hi
    subst hi; rfl
  · simp [mkTax?, hA] at hi

theorem metricsOf_applyChildren_self (db : DB) (row : List Cell) (oid : Nat) :
    metricsOf (v2ApplyChildren db row oid) oid =
      metricsOf db oid ++ v2DecodedMetrics row oid := by
  simp only [metricsOf, v2ApplyChildren, List.filter_append]
  congr 1
  exact List.filter_eq_self.2 (fun m hm => by
    simp [mem_v2DecodedMetrics_oid row oid m hm])

theorem metricsOf_applyChildren_other (db : DB) (row : List Cell) (oid oid' : Nat)
    (h : oid' ≠ oid) :
    metricsOf (v2ApplyChildren db row oid) oid' = metricsOf db oid' := by
  have hnil : List.filter (fun m => decide (m.organization_id = oid'))
      (v2DecodedMetrics row oid) = [] :=
    List.filter_eq_nil_iff.2 (fun m hm => by
      simp [mem_v2DecodedMetrics_oid row oid m hm, Ne.symm h])
  simp [metricsOf, v2ApplyChildren, List.filter_append, hnil]

theorem taxesOf_applyChildren_self (db : DB) (row : List Cell) (oid : Nat) :
    taxesOf (v2ApplyChildren db row oid) oid =
      taxesOf db oid ++ v2DecodedTaxes row oid := by
  simp only [taxesOf, v2ApplyChildren, List.filter_append]
  congr 1
  exact List.filter_eq_self.2 (fun t ht => by
    simp [mem_v2DecodedTaxes_oid row oid t ht])

theorem taxesOf_applyChildren_other (db : DB) (row : List Cell) (oid oid' : Nat)
    (h : oid' ≠ oid) :
    taxesOf (v2ApplyChildren db row oid) oid' = taxesOf db oid' := by
  have hnil : List.filter (fun t => decide (t.organization_id = oid'))
      (v2DecodedTaxes row oid) = [] :=
    List.filter_eq_nil_iff.2 (fun t ht => by
      simp [mem_v2DecodedTaxes_oid row oid t ht, Ne.symm h])
  simp [taxesOf, v2ApplyChildren, List.filter_append, hnil]

theorem assetsOf_applyChildren_self (db : DB) (row : List Cell) (oid : Nat) :
    assetsOf (v2ApplyChildren db row oid) oid =
      if v2HasAssets row then [v2Asset row oid] else assetsOf db oid := by
  by_cases h : v2HasAssets row <;>
    simp [assetsOf, v2ApplyChildren, h, List.filter_append, List.filter_filter, v2Asset]

theorem assetsOf_applyChildren_other (db : DB) (row : List Cell) (oid oid' : Nat)
    (h : oid' ≠ oid) :
    assetsOf (v2ApplyChildren db row oid) oid' = assetsOf db oid' := by
  by_cases ha : v2HasAssets row <;>
    simp [assetsOf, v2ApplyChildren, ha, List.filter_append, List.filter_filter, v2Asset,
      Ne.symm h]
  exact List.filter_congr (fun a _ => by
    by_cases h2 : a.organization_id = oid <;> simp [h2, Ne.symm h])

theorem productsOf_applyChildren_self (db : DB) (row : List Cell) (oid : Nat) :
    productsOf (v2ApplyChildren db row oid) oid =
      if v2HasProducts row then [v2Product row oid] else productsOf db oid := by
  by_cases h : v2HasProducts row <;>
    simp [productsOf, v2ApplyChildren, h, List.filter_append, List.filter_filter, v2Product]

theorem productsOf_applyChildren_other (db : DB) (row : List Cell) (oid oid' : Nat)
    (h : oid' ≠ oid) :
    productsOf (v2ApplyChildren db row oid) oid' = productsOf db oid' := by
  by_cases hp : v2HasProducts row <;>
    simp [productsOf, v2ApplyChildren, hp, List.filter_append, List.filter_filter, v2Product,
      Ne.symm h]
  exact List.filter_congr (fun p _ => by
    by_cases h2 : p.organization_id = oid <;> simp [h2, Ne.symm h])

theorem metasOf_applyChildren_self (db : DB) (row : List Cell) (oid : Nat) :
    metasOf (v2ApplyChildren db row oid) oid =
      if v2HasMeta row then [v2Meta row oid] else metasOf db oid := by
  by_cases h : v2HasMeta row <;>
    simp [metasOf, v2ApplyChildren, h, List.filter_append, List.filter_filter, v2Meta]

theorem metasOf_applyChildren_other (db : DB) (row : List Cell) (oid oid' : Nat)
    (h : oid' ≠ oid) :
    metasOf (v2ApplyChildren db row oid) oid' = metasOf db oid' := by
  by_cases hq : v2HasMeta row <;>
    simp [metasOf, v2ApplyChildren, hq, List.filter_append, List.filter_filter, v2Meta,
      Ne.symm h]
  exact List.filter_congr (fun m _ => by
    by_cases h2 : m.organization_id = oid <;> simp [h2, Ne.symm h])

theorem filterNe_then_filterEq {α : Type} (l : List α) (f : α → Nat) (k : Nat) :
    (l.filter (fun x => f x ≠ k)).filter (fun x => f x = k) = [] := by
  refine List.filter_eq_nil_iff.2 (fun x hx => ?_)
  rcases List.mem_filter.1 hx with ⟨_, hne⟩
  simp at hne ⊢
  exact hne

end V2

/-- **C3.**  For every row whose decoded tax identifier matches an existing
organization (and which is long enough to decode fully), the import
replaces that organization's year series wholesale: after the row, the
organization's persisted metric and tax records are exactly the row's
decoded records — the previously stored year records are gone, never
merged per-year. -/
theorem C3_full_replacement (st : V2.ImportState) (rowIdx : Nat) (row : List Cell)
    (inn : String) (org : OrgRec)
    (hlen : 167 ≤ row.length) (hinn : V2.rowInn row = some inn)
    (horg : findOrg st.db inn = some org) :
    metricsOf (V2.processRowV2 st rowIdx row).db org.id =
      V2.v2DecodedMetrics row org.id ∧
    taxesOf (V2.processRowV2 st rowIdx row).db org.id =
      V2.v2DecodedTaxes row org.id := by
  rw [V2.processRowV2_update st rowIdx row inn org hlen hinn horg]
  simp only [V2.v2RowRestState]
  rw [V2.metricsOf_applyChildren_self, V2.taxesOf_applyChildren_self]
  constructor
  · have h0 : metricsOf
        { st.db with
          metrics := st.db.metrics.filter (fun m => m.organization_id ≠ org.id)
          taxes := st.db.taxes.filter (fun t => t.organization_id ≠ org.id) } org.id = [] := by
      simp only [metricsOf]
      exact V2.filterNe_then_filterEq st.db.metrics MetricRec.organization_id org.id
    rw [h0, List.nil_append]
  · have h0 : taxesOf
        { st.db with
          metrics := st.db.metrics.filter (fun m => m.organization_id ≠ org.id)
          taxes := st.db.taxes.filter (fun t => t.organization_id ≠ org.id) } org.id = [] := by
      simp only [taxesOf]
      exact V2.filterNe_then_filterEq st.db.taxes TaxRec.organization_id org.id
    rw [h0, List.nil_append]

/-- Witness for C3: a store holding one organization with an old 2020
metric record, reconciled against a row that decodes a single 2017 metric
record. -/
theorem C3_witness :
    (167 ≤ (mkRow 167 [(1, Cell.str "7706901234"), (47, Cell.str "645670")]).length ∧
     V2.rowInn (mkRow 167 [(1, Cell.str "7706901234"), (47, Cell.str "645670")]) =
       some "7706901234" ∧
     findOrg ⟨[⟨1, "7706901234", V2.v2OrgFields []⟩],
        [{ organization_id := 1, year := 2020, revenue := some 9, profit := Option.none,
           total_employees := Option.none, moscow_employees := Option.none,
           total_fot := Option.none, moscow_fot := Option.none,
           avg_salary_total := Option.none, avg_salary_moscow := Option.none,
           investments := Option.none, export_volume := Option.none }],
        [], [], [], [], 2⟩ "7706901234" = some ⟨1, "7706901234", V2.v2OrgFields []⟩) ∧
    metricsOf (V2.processRowV2
        ⟨⟨[⟨1, "7706901234", V2.v2OrgFields []⟩],
          [{ organization_id := 1, year := 2020, revenue := some 9, profit := Option.none,
             total_employees := Option.none, moscow_employees := Option.none,
             total_fot := Option.none, moscow_fot := Option.none,
             avg_salary_total := Option.none, avg_salary_moscow := Option.none,
             investments := Option.none, export_volume := Option.none }],
          [], [], [], [], 2⟩, 0, 0, 0, 0, [], []⟩
        2 (mkRow 167 [(1, Cell.str "7706901234"), (47, Cell.str "645670")])).db 1 =
      V2.v2DecodedMetrics (mkRow 167 [(1, Cell.str "7706901234"), (47, Cell.str "645670")]) 1 := by
  refine ⟨⟨by decide, by decide, by decide⟩, ?_⟩
  exact (C3_full_replacement _ 2 _ "7706901234" ⟨1, "7706901234", V2.v2OrgFields []⟩
    (by decide) (by decide) (by decide)).1

namespace V2

theorem filterMap_if_eq_filter_map {α β : Type} (l : List α) (f : α → β) (p : β → Bool) :
    l.filterMap (fun i => if p (f i) then some (f i) else Option.none) =
      (l.map f).filter p := by
  induction l with
  | nil => rfl
  | cons a rest ih =>
    by_cases h : p (f a) <;>
      simp [List.filterMap_cons, List.filter_cons, h, ih]

theorem v2DecodedMetrics_eq_filter (row : List Cell) (oid : Nat) :
    v2DecodedMetrics row oid =
      ((List.range 7).map (v2MetricYear row oid)).filter metricAny :=
  filterMap_if_eq_filter_map (List.range 7) (v2MetricYear row oid) metricAny

theorem v2DecodedTaxes_eq_filter (row : List Cell) (oid : Nat) :
    v2DecodedTaxes row oid =
      ((List.range 8).map (v2TaxYear row oid)).filter taxAny :=
  filterMap_if_eq_filter_map (List.range 8) (v2TaxYear row oid) taxAny

/-- A freshly allocated id has no metric records. -/
theorem metricsOf_fresh (db : DB) (hinv : DBInv db) : metricsOf db db.nextId = [] := by
  refine List.filter_eq_nil_iff.2 (fun m hm => ?_)
  have := hinv.2.1 m hm
  simp; omega

/-- A freshly allocated id has no tax records. -/
theorem taxesOf_fresh (db : DB) (hinv : DBInv db) : taxesOf db db.nextId = [] := by
  refine List.filter_eq_nil_iff.2 (fun t ht => ?_)
  have := hinv.2.2.1 t ht
  simp; omega

end V2

/-- **C4 counterexample.**  A one-row workbook whose row has 120 cells
(valid tax identifier, name, a 2017 revenue) fails while decoding the tax
block — yet the final committed store still holds the row's organization
and its staged metric record, and the run reports the row as failed.  The
claim that all of a failed row's staged writes are discarded is therefore
false on the code. -/
theorem C4_counterexample :
    (V2.process_excel_file DB.empty
        [mkRow 120 [(1, Cell.str "7706901234"), (2, Cell.str "Орг"), (47, Cell.str "5")]]).errors.length = 1 ∧
    (V2.process_excel_file DB.empty
        [mkRow 120 [(1, Cell.str "7706901234"), (2, Cell.str "Орг"), (47, Cell.str "5")]]).db.orgs.length = 1 ∧
    (V2.process_excel_file DB.empty
        [mkRow 120 [(1, Cell.str "7706901234"), (2, Cell.str "Орг"), (47, Cell.str "5")]]).db.metrics ≠ [] := by
  refine ⟨by decide, by decide, by decide⟩

/-- **C4 (amended).**  When reconciling a row fails (here: a row of 103-159
cells whose tax-block decode raises `IndexError`), the writes staged before
the failure point — the new organization and all its decoded metric
records — are *not* discarded: they stay in the session and are committed
with the batch.  Only writes after the failure point (the tax records) are
absent, the failure list gains exactly this row, the row is not counted as
processed, and the run continues with the next row. -/
theorem C4_partial_writes_persist (st : V2.ImportState) (rowIdx : Nat)
    (row : List Cell) (inn : String)
    (hlo : 103 ≤ row.length) (hhi : row.length ≤ 159)
    (hinn : V2.rowInn row = some inn) (horg : findOrg st.db inn = Option.none) :
    (V2.processRowV2 st rowIdx row).errors =
      st.errors ++ [⟨rowIdx, some inn, safe_str (cellAt row 2) Option.none⟩] ∧
    (V2.processRowV2 st rowIdx row).db.orgs =
      st.db.orgs ++ [⟨st.db.nextId, inn, V2.v2OrgFields row⟩] ∧
    (V2.processRowV2 st rowIdx row).db.metrics =
      st.db.metrics ++ V2.v2DecodedMetrics row st.db.nextId ∧
    (V2.processRowV2 st rowIdx row).db.taxes = st.db.taxes ∧
    (V2.processRowV2 st rowIdx row).rows_processed = st.rows_processed ∧
    (∀ rest, V2.processRowsV2 st rowIdx (row :: rest) =
      V2.processRowsV2 (V2.processRowV2 st rowIdx row) (rowIdx + 1) rest) := by
  have h2 : ¬row.length < 2 := by omega
  have h45 : ¬row.length < 45 := by omega
  have hm : ∀ i ∈ List.range 7, 96 + i < row.length := by
    intro i hi; simp [List.mem_range] at hi; omega
  have hstep : V2.processRowV2 st rowIdx row =
      V2.v2Fail
        { st with
          organizations_new := st.organizations_new + 1
          db := { st.db with
            orgs := st.db.orgs ++ [⟨st.db.nextId, inn, V2.v2OrgFields row⟩]
            nextId := st.db.nextId + 1
            metrics := st.db.metrics ++ V2.v2DecodedMetrics row st.db.nextId } }
        rowIdx row := by
    unfold V2.processRowV2
    rw [if_neg h2]
    rw [show safe_str (cellAt row 1) Option.none = some inn from hinn]
    simp only [horg, if_neg h45]
    unfold V2.v2RowRest
    rw [V2.v2MetricsGo_ok row st.db.nextId (List.range 7) _ hm]
    simp only
    have hrange : List.range 8 = 0 :: [1, 2, 3, 4, 5, 6, 7] := by decide
    rw [hrange]
    unfold V2.v2TaxesGo
    rw [if_neg (by omega : ¬159 + 0 < row.length)]
    simp [V2.v2DecodedMetrics]
  rw [hstep]
  have h1 : 1 < row.length := by omega
  have h2' : 2 < row.length := by omega
  refine ⟨?_, by simp [V2.v2Fail], by simp [V2.v2Fail], by simp [V2.v2Fail],
    by simp [V2.v2Fail], fun rest => by rw [← hstep]; rfl⟩
  simp only [V2.v2Fail, if_pos h1, if_pos h2']
  have : safe_str (cellAt row 1) Option.none = some inn := hinn
  rw [this]

/-- Witness for C4's amended theorem at the concrete 120-cell row. -/
theorem C4_witness :
    (103 ≤ (mkRow 120 [(1, Cell.str "7706901234"), (2, Cell.str "Орг"), (47, Cell.str "5")]).length ∧
     (mkRow 120 [(1, Cell.str "7706901234"), (2, Cell.str "Орг"), (47, Cell.str "5")]).length ≤ 159 ∧
     V2.rowInn (mkRow 120 [(1, Cell.str "7706901234"), (2, Cell.str "Орг"), (47, Cell.str "5")]) =
       some "7706901234" ∧
     findOrg DB.empty "7706901234" = Option.none) ∧
    (V2.processRowV2 V2.initState 2
        (mkRow 120 [(1, Cell.str "7706901234"), (2, Cell.str "Орг"), (47, Cell.str "5")])).db.orgs =
      DB.empty.orgs ++ [⟨DB.empty.nextId, "7706901234",
        V2.v2OrgFields (mkRow 120 [(1, Cell.str "7706901234"), (2, Cell.str "Орг"), (47, Cell.str "5")])⟩] :=
  ⟨⟨by decide, by decide, by decide, by decide⟩,
    (C4_partial_writes_persist V2.initState 2 _ "7706901234"
      (by decide) (by decide) (by decide) (by decide)).2.1⟩

/-- **C8 counterexample.**  A fully well-formed row whose only metric value
is a 2017 revenue cell containing `"0"`: the decoded revenue is *non-absent*
(`some 0`), yet no metric year record is persisted, because the source's
`any([...])` test uses Python truthiness and `0.0` is falsy.  This refutes
"every year with at least one non-absent decoded field is persisted". -/
theorem C8_counterexample :
    (V2.v2MetricYear
        (mkRow 209 [(1, Cell.str "7706901234"), (2, Cell.str "Орг"), (47, Cell.str "0")]) 1 0).revenue =
      some 0 ∧
    (V2.process_excel_file DB.empty
        [mkRow 209 [(1, Cell.str "7706901234"), (2, Cell.str "Орг"), (47, Cell.str "0")]]).db.metrics = [] ∧
    (V2.process_excel_file DB.empty
        [mkRow 209 [(1, Cell.str "7706901234"), (2, Cell.str "Орг"), (47, Cell.str "0")]]).errors = [] ∧
    (V2.process_excel_file DB.empty
        [mkRow 209 [(1, Cell.str "7706901234"), (2, Cell.str "Орг"), (47, Cell.str "0")]]).db.orgs.length = 1 := by
  refine ⟨by decide, by decide, by decide, by decide⟩

/-- Support lemma: the persisted child year records of a freshly created
organization are the decoded year records that pass the truthiness
filter. -/
theorem create_row_children (st : V2.ImportState) (rowIdx : Nat)
    (row : List Cell) (inn : String)
    (hlen : 167 ≤ row.length) (hinn : V2.rowInn row = some inn)
    (horg : findOrg st.db inn = Option.none) (hinv : V2.DBInv st.db) :
    metricsOf (V2.processRowV2 st rowIdx row).db st.db.nextId =
      ((List.range 7).map (V2.v2MetricYear row st.db.nextId)).filter V2.metricAny ∧
    taxesOf (V2.processRowV2 st rowIdx row).db st.db.nextId =
      ((List.range 8).map (V2.v2TaxYear row st.db.nextId)).filter V2.taxAny := by
  rw [V2.processRowV2_create st rowIdx row inn hlen hinn horg]
  simp only [V2.v2RowRestState]
  rw [V2.metricsOf_applyChildren_self, V2.taxesOf_applyChildren_self]
  have hm0 : metricsOf
      { st.db with
        orgs := st.db.orgs ++ [⟨st.db.nextId, inn, V2.v2OrgFields row⟩]
        nextId := st.db.nextId + 1 } st.db.nextId = [] := by
    refine List.filter_eq_nil_iff.2 (fun m hm => ?_)
    have := hinv.2.1 m hm
    simp; omega
  have ht0 : taxesOf
      { st.db with
        orgs := st.db.orgs ++ [⟨st.db.nextId, inn, V2.v2OrgFields row⟩]
        nextId := st.db.nextId + 1 } st.db.nextId = [] := by
    refine List.filter_eq_nil_iff.2 (fun t ht => ?_)
    have := hinv.2.2.1 t ht
    simp; omega
  rw [hm0, ht0, List.nil_append, List.nil_append,
    V2.v2DecodedMetrics_eq_filter, V2.v2DecodedTaxes_eq_filter]
  exact ⟨rfl, rfl⟩

/-- **C8 (amended).**  For every organization row creating a fresh
organization, and for each year in a family's valid range (metrics
2017-2023, taxes 2017-2024), a year record is persisted exactly when at
least one field decoded for that year is *truthy* — non-absent and
non-zero (`metricAny`/`taxAny`, the source's Python `any([...])` test) —
and it is persisted with the decoded values; an all-absent year is never
persisted, and neither is a year whose only decoded values are zeros. -/
theorem C8_year_record_truthiness (st : V2.ImportState) (rowIdx : Nat)
    (row : List Cell) (inn : String)
    (hlen : 167 ≤ row.length) (hinn : V2.rowInn row = some inn)
    (horg : findOrg st.db inn = Option.none) (hinv : V2.DBInv st.db) :
    metricsOf (V2.processRowV2 st rowIdx row).db st.db.nextId =
      ((List.range 7).map (V2.v2MetricYear row st.db.nextId)).filter V2.metricAny ∧
    taxesOf (V2.processRowV2 st rowIdx row).db st.db.nextId =
      ((List.range 8).map (V2.v2TaxYear row st.db.nextId)).filter V2.taxAny :=
  create_row_children st rowIdx row inn hlen hinn horg hinv

/-- Witness for C8's amended theorem at a concrete row with one truthy 2017
revenue. -/
theorem C8_witness :
    (167 ≤ (mkRow 167 [(1, Cell.str "7706901234"), (47, Cell.str "645670")]).length ∧
     V2.rowInn (mkRow 167 [(1, Cell.str "7706901234"), (47, Cell.str "645670")]) =
       some "7706901234" ∧
     findOrg DB.empty "7706901234" = Option.none ∧ V2.DBInv DB.empty) ∧
    metricsOf (V2.processRowV2 V2.initState 2
        (mkRow 167 [(1, Cell.str "7706901234"), (47, Cell.str "645670")])).db DB.empty.nextId =
      ((List.range 7).map (V2.v2MetricYear
        (mkRow 167 [(1, Cell.str "7706901234"), (47, Cell.str "645670")]) DB.empty.nextId)).filter
        V2.metricAny :=
  ⟨⟨by decide, by decide, by decide, by decide⟩,
    (C8_year_record_truthiness V2.initState 2 _ "7706901234"
      (by decide) (by decide) (by decide) (by decide)).1⟩

/-- **C9 counterexample.**  A row whose only decoded value is an in-range
2021 investment cell containing `"0"`: the decoded investment is `some 0`,
yet nothing is persisted for 2021 (the record fails the truthiness filter),
so an in-range investment value is *not* always persisted exactly as
decoded. -/
theorem C9_counterexample :
    V2.v2Investments
        (mkRow 209 [(1, Cell.str "7706901234"), (2, Cell.str "Орг"), (167, Cell.str "0")]) 2021 =
      some 0 ∧
    (V2.process_excel_file DB.empty
        [mkRow 209 [(1, Cell.str "7706901234"), (2, Cell.str "Орг"), (167, Cell.str "0")]]).db.metrics = [] ∧
    (V2.process_excel_file DB.empty
        [mkRow 209 [(1, Cell.str "7706901234"), (2, Cell.str "Орг"), (167, Cell.str "0")]]).errors = [] := by
  refine ⟨by decide, by decide, by decide⟩

/-- **C9 (amended).**  The decoded investment value is `None` for every
metric year outside 2021-2023 whatever the row contains — an out-of-range
investment value has no column in the positional layout and is silently
dropped, never an error (the coercions are total) — while a *non-zero*
in-range investment value is persisted exactly as decoded; a zero value is
subject to the truthiness filter and may yield no year record (see C8). -/
theorem C9_investment_year_range :
    (∀ (row : List Cell) (y : Nat), y < 2021 ∨ 2023 < y →
      V2.v2Investments row y = Option.none) ∧
    (∀ (st : V2.ImportState) (rowIdx : Nat) (row : List Cell) (inn : String) (q : ℚ),
      167 ≤ row.length → V2.rowInn row = some inn →
      findOrg st.db inn = Option.none → V2.DBInv st.db →
      safe_float (cellAt row 167) = some q → q ≠ 0 →
      ∃ m ∈ metricsOf (V2.processRowV2 st rowIdx row).db st.db.nextId,
        m.year = 2021 ∧ m.investments = some q) := by
  constructor
  · intro row y hy
    unfold V2.v2Investments
    have h1 : y ≠ 2021 := by omega
    have h2 : y ≠ 2022 := by omega
    have h3 : y ≠ 2023 := by omega
    simp [h1, h2, h3]
  · intro st rowIdx row inn q hlen hinn horg hinv hq hq0
    have hmain := (create_row_children st rowIdx row inn hlen hinn horg hinv).1
    refine ⟨V2.v2MetricYear row st.db.nextId 4, ?_, rfl, ?_⟩
    · rw [hmain]
      refine List.mem_filter.2 ⟨List.mem_map.2 ⟨4, by decide, rfl⟩, ?_⟩
      have hiv : (V2.v2MetricYear row st.db.nextId 4).investments = some q := by
        show V2.v2Investments row (2017 + 4) = some q
        unfold V2.v2Investments
        norm_num
        exact hq
      unfold V2.metricAny
      rw [hiv]
      simp [optQTruthy, hq0]
    · show V2.v2Investments row (2017 + 4) = some q
      unfold V2.v2Investments
      norm_num
      exact hq

/-- Witness for C9: a concrete row carrying `7` in the 2021 investment
column. -/
theorem C9_witness :
    (167 ≤ (mkRow 209 [(1, Cell.str "7706901234"), (167, Cell.str "7")]).length ∧
     V2.rowInn (mkRow 209 [(1, Cell.str "7706901234"), (167, Cell.str "7")]) =
       some "7706901234" ∧
     findOrg DB.empty "7706901234" = Option.none ∧ V2.DBInv DB.empty ∧
     safe_float (cellAt (mkRow 209 [(1, Cell.str "7706901234"), (167, Cell.str "7")]) 167) =
       some 7 ∧ (7 : ℚ) ≠ 0) ∧
    ∃ m ∈ metricsOf (V2.processRowV2 V2.initState 2
        (mkRow 209 [(1, Cell.str "7706901234"), (167, Cell.str "7")])).db DB.empty.nextId,
      m.year = 2021 ∧ m.investments = some 7 :=
  ⟨⟨by decide, by decide, by decide, by decide, by decide, by decide⟩,
    C9_investment_year_range.2 V2.initState 2 _ "7706901234" 7
      (by decide) (by decide) (by decide) (by decide) (by decide) (by decide)⟩

namespace V1

theorem exOk_exists {ε α : Type} (x : Except ε α) (h : x.isOk = true) :
    ∃ a, x = .ok a := by
  cases x with
  | ok a => exact ⟨a, rfl⟩
  | error e => simp [Except.isOk, Except.toBool] at h

/-- A row the header-driven processor handles end to end: truthy, nonempty
tax identifier and no coercion failure in any decoder. -/
def V1RowWF (d : Dict) : Prop :=
  (dgetCell d "ИНН").truthy = true ∧ innStr d ≠ "" ∧
  (mkV1OrgFields d).isOk = true ∧
  (∀ y ∈ List.range' 2017 7, (v1MetricYear d y).isOk = true) ∧
  (∀ y ∈ List.range' 2017 8, (v1TaxYear d y).isOk = true) ∧
  (v1Assets d).isOk = true ∧ (v1Products d).isOk = true ∧
  (v1DetailName d).isOk = true

instance (d : Dict) : Decidable (V1RowWF d) := by
  unfold V1RowWF; infer_instance

/-- A row that is well-formed up to the first metric parse but whose
2017-revenue cell is present and unconvertible. -/
def V1RowBroken (d : Dict) : Prop :=
  (dgetCell d "ИНН").truthy = true ∧ innStr d ≠ "" ∧
  (mkV1OrgFields d).isOk = true ∧
  isNoneOrEmpty (dgetCell d (revCol 2017)) = false ∧
  pyFloat? (dgetCell d (revCol 2017)) = Option.none

instance (d : Dict) : Decidable (V1RowBroken d) := by
  unfold V1RowBroken; infer_instance

theorem v1MetricsGo_noerr (d : Dict) (oid : Nat) (l : List Nat) :
    ∀ (db : V1DB) (has : Bool), (∀ y ∈ l, (v1MetricYear d y).isOk = true) →
      ∃ db' has', v1MetricsGo d oid l db has = (db', has', Option.none) := by
  induction l with
  | nil => intro db has _; exact ⟨db, has, rfl⟩
  | cons y rest ih =>
    intro db has h
    obtain ⟨a, ha⟩ := exOk_exists _ (h y (by simp))
    have hrest : ∀ z ∈ rest, (v1MetricYear d z).isOk = true :=
      fun z hz => h z (by simp [hz])
    cases a with
    | none =>
      obtain ⟨db', has', hgo⟩ := ih db has hrest
      exact ⟨db', has', by unfold v1MetricsGo; rw [ha]; exact hgo⟩
    | some m =>
      obtain ⟨db', has', hgo⟩ := ih { db with metrics := db.metrics ++ [m oid] } true hrest
      exact ⟨db', has', by unfold v1MetricsGo; rw [ha]; exact hgo⟩

theorem v1TaxesGo_noerr (d : Dict) (oid : Nat) (l : List Nat) :
    ∀ (db : V1DB) (has : Bool), (∀ y ∈ l, (v1TaxYear d y).isOk = true) →
      ∃ db' has', v1TaxesGo d oid l db has = (db', has', Option.none) := by
  induction l with
  | nil => intro db has _; exact ⟨db, has, rfl⟩
  | cons y rest ih =>
    intro db has h
    obtain ⟨a, ha⟩ := exOk_exists _ (h y (by simp))
    have hrest : ∀ z ∈ rest, (v1TaxYear d z).isOk = true :=
      fun z hz => h z (by simp [hz])
    cases a with
    | none =>
      obtain ⟨db', has', hgo⟩ := ih db has hrest
      exact ⟨db', has', by unfold v1TaxesGo; rw [ha]; exact hgo⟩
    | some t =>
      obtain ⟨db', has', hgo⟩ := ih { db with taxes := db.taxes ++ [t oid] } true hrest
      exact ⟨db', has', by unfold v1TaxesGo; rw [ha]; exact hgo⟩

theorem v1Tallies_db (st : V1State) (d : Dict) :
    (v1Tallies st d).db = st.db := by
  unfold v1Tallies
  dsimp only
  split_ifs
  all_goals simp

theorem v1Tallies_errors (st : V1State) (d : Dict) :
    (v1Tallies st d).errors = st.errors := by
  unfold v1Tallies
  dsimp only
  split_ifs
  all_goals simp

theorem v1Tallies_skip (st : V1State) (d : Dict) :
    (v1Tallies st d).rows_skipped = st.rows_skipped := by
  unfold v1Tallies
  dsimp only
  split_ifs
  all_goals simp

theorem v1Tallies_proc (st : V1State) (d : Dict) :
    (v1Tallies st d).rows_processed = st.rows_processed := by
  unfold v1Tallies
  dsimp only
  split_ifs
  all_goals simp

theorem v1Tallies_new (st : V1State) (d : Dict) :
    (v1Tallies st d).organizations_new = st.organizations_new := by
  unfold v1Tallies
  dsimp only
  split_ifs
  all_goals simp

theorem v1Tallies_upd (st : V1State) (d : Dict) :
    (v1Tallies st d).organizations_updated = st.organizations_updated := by
  unfold v1Tallies
  dsimp only
  split_ifs
  all_goals simp

theorem v1Stage4_errors (st : V1State) (rowIdx : Nat) (d : Dict) (org : V1OrgRec)
    (hProd : (v1Products d).isOk = true) (hDet : (v1DetailName d).isOk = true) :
    (v1Stage4 st rowIdx d org).errors = st.errors := by
  obtain ⟨p, hp⟩ := exOk_exists _ hProd
  obtain ⟨nm, hnm⟩ := exOk_exists _ hDet
  unfold v1Stage4
  rw [hp]
  dsimp only
  split_ifs
  all_goals rw [hnm]
  all_goals simp

theorem v1Stage4_skip (st : V1State) (rowIdx : Nat) (d : Dict) (org : V1OrgRec)
    (hProd : (v1Products d).isOk = true) (hDet : (v1DetailName d).isOk = true) :
    (v1Stage4 st rowIdx d org).rows_skipped = st.rows_skipped := by
  obtain ⟨p, hp⟩ := exOk_exists _ hProd
  obtain ⟨nm, hnm⟩ := exOk_exists _ hDet
  unfold v1Stage4
  rw [hp]
  dsimp only
  split_ifs
  all_goals rw [hnm]
  all_goals simp

theorem v1Stage4_proc (st : V1State) (rowIdx : Nat) (d : Dict) (org : V1OrgRec)
    (hProd : (v1Products d).isOk = true) (hDet : (v1DetailName d).isOk = true) :
    (v1Stage4 st rowIdx d org).rows_processed = st.rows_processed + 1 := by
  obtain ⟨p, hp⟩ := exOk_exists _ hProd
  obtain ⟨nm, hnm⟩ := exOk_exists _ hDet
  unfold v1Stage4
  rw [hp]
  dsimp only
  split_ifs
  all_goals rw [hnm]
  all_goals simp

theorem v1Stage4_new (st : V1State) (rowIdx : Nat) (d : Dict) (org : V1OrgRec)
    (hProd : (v1Products d).isOk = true) (hDet : (v1DetailName d).isOk = true) :
    (v1Stage4 st rowIdx d org).organizations_new = st.organizations_new := by
  obtain ⟨p, hp⟩ := exOk_exists _ hProd
  obtain ⟨nm, hnm⟩ := exOk_exists _ hDet
  unfold v1Stage4
  rw [hp]
  dsimp only
  split_ifs
  all_goals rw [hnm]
  all_goals simp

theorem v1Stage4_upd (st : V1State) (rowIdx : Nat) (d : Dict) (org : V1OrgRec)
    (hProd : (v1Products d).isOk = true) (hDet : (v1DetailName d).isOk = true) :
    (v1Stage4 st rowIdx d org).organizations_updated = st.organizations_updated := by
  obtain ⟨p, hp⟩ := exOk_exists _ hProd
  obtain ⟨nm, hnm⟩ := exOk_exists _ hDet
  unfold v1Stage4
  rw [hp]
  dsimp only
  split_ifs
  all_goals rw [hnm]
  all_goals simp

theorem v1Stage3_errors (st : V1State) (rowIdx : Nat) (d : Dict) (org : V1OrgRec)
    (hAss : (v1Assets d).isOk = true)
    (hProd : (v1Products d).isOk = true) (hDet : (v1DetailName d).isOk = true) :
    (v1Stage3 st rowIdx d org).errors = st.errors := by
  obtain ⟨a, ha⟩ := exOk_exists _ hAss
  unfold v1Stage3
  rw [ha]
  dsimp only
  split_ifs
  all_goals rw [v1Stage4_errors _ rowIdx d org hProd hDet]
  all_goals simp

theorem v1Stage3_skip (st : V1State) (rowIdx : Nat) (d : Dict) (org : V1OrgRec)
    (hAss : (v1Assets d).isOk = true)
    (hProd : (v1Products d).isOk = true) (hDet : (v1DetailName d).isOk = true) :
    (v1Stage3 st rowIdx d org).rows_skipped = st.rows_skipped := by
  obtain ⟨a, ha⟩ := exOk_exists _ hAss
  unfold v1Stage3
  rw [ha]
  dsimp only
  split_ifs
  all_goals rw [v1Stage4_skip _ rowIdx d org hProd hDet]
  all_goals simp

theorem v1Stage3_proc (st : V1State) (rowIdx : Nat) (d : Dict) (org : V1OrgRec)
    (hAss : (v1Assets d).isOk = true)
    (hProd : (v1Products d).isOk = true) (hDet : (v1DetailName d).isOk = true) :
    (v1Stage3 st rowIdx d org).rows_processed = st.rows_processed + 1 := by
  obtain ⟨a, ha⟩ := exOk_exists _ hAss
  unfold v1Stage3
  rw [ha]
  dsimp only
  split_ifs
  all_goals rw [v1Stage4_proc _ rowIdx d org hProd hDet]
  all_goals simp

theorem v1Stage3_new (st : V1State) (rowIdx : Nat) (d : Dict) (org : V1OrgRec)
    (hAss : (v1Assets d).isOk = true)
    (hProd : (v1Products d).isOk = true) (hDet : (v1DetailName d).isOk = true) :
    (v1Stage3 st rowIdx d org).organizations_new = st.organizations_new := by
  obtain ⟨a, ha⟩ := exOk_exists _ hAss
  unfold v1Stage3
  rw [ha]
  dsimp only
  split_ifs
  all_goals rw [v1Stage4_new _ rowIdx d org hProd hDet]
  all_goals simp

theorem v1Stage3_upd (st : V1State) (rowIdx : Nat) (d : Dict) (org : V1OrgRec)
    (hAss : (v1Assets d).isOk = true)
    (hProd : (v1Products d).isOk = true) (hDet : (v1DetailName d).isOk = true) :
    (v1Stage3 st rowIdx d org).organizations_updated = st.organizations_updated := by
  obtain ⟨a, ha⟩ := exOk_exists _ hAss
  unfold v1Stage3
  rw [ha]
  dsimp only
  split_ifs
  all_goals rw [v1Stage4_upd _ rowIdx d org hProd hDet]
  all_goals simp

theorem v1Stage2_errors (st : V1State) (rowIdx : Nat) (d : Dict) (org : V1OrgRec)
    (hTax : ∀ y ∈ List.range' 2017 8, (v1TaxYear d y).isOk = true)
    (hAss : (v1Assets d).isOk = true)
    (hProd : (v1Products d).isOk = true) (hDet : (v1DetailName d).isOk = true) :
    (v1Stage2 st rowIdx d org).errors = st.errors := by
  obtain ⟨db2, has2, hgo⟩ := v1TaxesGo_noerr d org.id (List.range' 2017 8) st.db false hTax
  unfold v1Stage2
  rw [hgo]
  dsimp only
  split_ifs
  all_goals rw [v1Stage3_errors _ rowIdx d org hAss hProd hDet]
  all_goals simp

theorem v1Stage2_skip (st : V1State) (rowIdx : Nat) (d : Dict) (org : V1OrgRec)
    (hTax : ∀ y ∈ List.range' 2017 8, (v1TaxYear d y).isOk = true)
    (hAss : (v1Assets d).isOk = true)
    (hProd : (v1Products d).isOk = true) (hDet : (v1DetailName d).isOk = true) :
    (v1Stage2 st rowIdx d org).rows_skipped = st.rows_skipped := by
  obtain ⟨db2, has2, hgo⟩ := v1TaxesGo_noerr d org.id (List.range' 2017 8) st.db false hTax
  unfold v1Stage2
  rw [hgo]
  dsimp only
  split_ifs
  all_goals rw [v1Stage3_skip _ rowIdx d org hAss hProd hDet]
  all_goals simp

theorem v1Stage2_proc (st : V1State) (rowIdx : Nat) (d : Dict) (org : V1OrgRec)
    (hTax : ∀ y ∈ List.range' 2017 8, (v1TaxYear d y).isOk = true)
    (hAss : (v1Assets d).isOk = true)
    (hProd : (v1Products d).isOk = true) (hDet : (v1DetailName d).isOk = true) :
    (v1Stage2 st rowIdx d org).rows_processed = st.rows_processed + 1 := by
  obtain ⟨db2, has2, hgo⟩ := v1TaxesGo_noerr d org.id (List.range' 2017 8) st.db false hTax
  unfold v1Stage2
  rw [hgo]
  dsimp only
  split_ifs
  all_goals rw [v1Stage3_proc _ rowIdx d org hAss hProd hDet]
  all_goals simp

theorem v1Stage2_new (st : V1State) (rowIdx : Nat) (d : Dict) (org : V1OrgRec)
    (hTax : ∀ y ∈ List.range' 2017 8, (v1TaxYear d y).isOk = true)
    (hAss : (v1Assets d).isOk = true)
    (hProd : (v1Products d).isOk = true) (hDet : (v1DetailName d).isOk = true) :
    (v1Stage2 st rowIdx d org).organizations_new = st.organizations_new := by
  obtain ⟨db2, has2, hgo⟩ := v1TaxesGo_noerr d org.id (List.range' 2017 8) st.db false hTax
  unfold v1Stage2
  rw [hgo]
  dsimp only
  split_ifs
  all_goals rw [v1Stage3_new _ rowIdx d org hAss hProd hDet]
  all_goals simp

theorem v1Stage2_upd (st : V1State) (rowIdx : Nat) (d : Dict) (org : V1OrgRec)
    (hTax : ∀ y ∈ List.range' 2017 8, (v1TaxYear d y).isOk = true)
    (hAss : (v1Assets d).isOk = true)
    (hProd : (v1Products d).isOk = true) (hDet : (v1DetailName d).isOk = true) :
    (v1Stage2 st rowIdx d org).organizations_updated = st.organizations_updated := by
  obtain ⟨db2, has2, hgo⟩ := v1TaxesGo_noerr d org.id (List.range' 2017 8) st.db false hTax
  unfold v1Stage2
  rw [hgo]
  dsimp only
  split_ifs
  all_goals rw [v1Stage3_upd _ rowIdx d org hAss hProd hDet]
  all_goals simp

theorem v1Stage1_errors (st : V1State) (rowIdx : Nat) (d : Dict) (org : V1OrgRec)
    (hMet : ∀ y ∈ List.range' 2017 7, (v1MetricYear d y).isOk = true)
    (hTax : ∀ y ∈ List.range' 2017 8, (v1TaxYear d y).isOk = true)
    (hAss : (v1Assets d).isOk = true)
    (hProd : (v1Products d).isOk = true) (hDet : (v1DetailName d).isOk = true) :
    (v1Stage1 st rowIdx d org).errors = st.errors := by
  obtain ⟨db1, has1, hgo⟩ := v1MetricsGo_noerr d org.id (List.range' 2017 7) st.db false hMet
  unfold v1Stage1
  rw [hgo]
  dsimp only
  split_ifs
  all_goals rw [v1Stage2_errors _ rowIdx d org hTax hAss hProd hDet]
  all_goals simp

theorem v1Stage1_skip (st : V1State) (rowIdx : Nat) (d : Dict) (org : V1OrgRec)
    (hMet : ∀ y ∈ List.range' 2017 7, (v1MetricYear d y).isOk = true)
    (hTax : ∀ y ∈ List.range' 2017 8, (v1TaxYear d y).isOk = true)
    (hAss : (v1Assets d).isOk = true)
    (hProd : (v1Products d).isOk = true) (hDet : (v1DetailName d).isOk = true) :
    (v1Stage1 st rowIdx d org).rows_skipped = st.rows_skipped := by
  obtain ⟨db1, has1, hgo⟩ := v1MetricsGo_noerr d org.id (List.range' 2017 7) st.db false hMet
  unfold v1Stage1
  rw [hgo]
  dsimp only
  split_ifs
  all_goals rw [v1Stage2_skip _ rowIdx d org hTax hAss hProd hDet]
  all_goals simp

theorem v1Stage1_proc (st : V1State) (rowIdx : Nat) (d : Dict) (org : V1OrgRec)
    (hMet : ∀ y ∈ List.range' 2017 7, (v1MetricYear d y).isOk = true)
    (hTax : ∀ y ∈ List.range' 2017 8, (v1TaxYear d y).isOk = true)
    (hAss : (v1Assets d).isOk = true)
    (hProd : (v1Products d).isOk = true) (hDet : (v1DetailName d).isOk = true) :
    (v1Stage1 st rowIdx d org).rows_processed = st.rows_processed + 1 := by
  obtain ⟨db1, has1, hgo⟩ := v1MetricsGo_noerr d org.id (List.range' 2017 7) st.db false hMet
  unfold v1Stage1
  rw [hgo]
  dsimp only
  split_ifs
  all_goals rw [v1Stage2_proc _ rowIdx d org hTax hAss hProd hDet]
  all_goals simp

theorem v1Stage1_new (st : V1State) (rowIdx : Nat) (d : Dict) (org : V1OrgRec)
    (hMet : ∀ y ∈ List.range' 2017 7, (v1MetricYear d y).isOk = true)
    (hTax : ∀ y ∈ List.range' 2017 8, (v1TaxYear d y).isOk = true)
    (hAss : (v1Assets d).isOk = true)
    (hProd : (v1Products d).isOk = true) (hDet : (v1DetailName d).isOk = true) :
    (v1Stage1 st rowIdx d org).organizations_new = st.organizations_new := by
  obtain ⟨db1, has1, hgo⟩ := v1MetricsGo_noerr d org.id (List.range' 2017 7) st.db false hMet
  unfold v1Stage1
  rw [hgo]
  dsimp only
  split_ifs
  all_goals rw [v1Stage2_new _ rowIdx d org hTax hAss hProd hDet]
  all_goals simp

theorem v1Stage1_upd (st : V1State) (rowIdx : Nat) (d : Dict) (org : V1OrgRec)
    (hMet : ∀ y ∈ List.range' 2017 7, (v1MetricYear d y).isOk = true)
    (hTax : ∀ y ∈ List.range' 2017 8, (v1TaxYear d y).isOk = true)
    (hAss : (v1Assets d).isOk = true)
    (hProd : (v1Products d).isOk = true) (hDet : (v1DetailName d).isOk = true) :
    (v1Stage1 st rowIdx d org).organizations_updated = st.organizations_updated := by
  obtain ⟨db1, has1, hgo⟩ := v1MetricsGo_noerr d org.id (List.range' 2017 7) st.db false hMet
  unfold v1Stage1
  rw [hgo]
  dsimp only
  split_ifs
  all_goals rw [v1Stage2_upd _ rowIdx d org hTax hAss hProd hDet]
  all_goals simp

/-- The successful row tail changes no counter the claims inspect except
`rows_processed`. -/
theorem v1RowRest_counters (st : V1State) (rowIdx : Nat) (d : Dict) (org : V1OrgRec)
    (hMet : ∀ y ∈ List.range' 2017 7, (v1MetricYear d y).isOk = true)
    (hTax : ∀ y ∈ List.range' 2017 8, (v1TaxYear d y).isOk = true)
    (hAss : (v1Assets d).isOk = true) (hProd : (v1Products d).isOk = true)
    (hDet : (v1DetailName d).isOk = true) :
    (v1RowRest st rowIdx d org).errors = st.errors ∧
    (v1RowRest st rowIdx d org).rows_skipped = st.rows_skipped ∧
    (v1RowRest st rowIdx d org).rows_processed = st.rows_processed + 1 ∧
    (v1RowRest st rowIdx d org).organizations_new = st.organizations_new ∧
    (v1RowRest st rowIdx d org).organizations_updated = st.organizations_updated := by
  unfold v1RowRest
  refine ⟨?_, ?_, ?_, ?_, ?_⟩
  · rw [v1Stage1_errors _ rowIdx d org hMet hTax hAss hProd hDet, v1Tallies_errors]
  · rw [v1Stage1_skip _ rowIdx d org hMet hTax hAss hProd hDet, v1Tallies_skip]
  · rw [v1Stage1_proc _ rowIdx d org hMet hTax hAss hProd hDet, v1Tallies_proc]
  · rw [v1Stage1_new _ rowIdx d org hMet hTax hAss hProd hDet, v1Tallies_new]
  · rw [v1Stage1_upd _ rowIdx d org hMet hTax hAss hProd hDet, v1Tallies_upd]

theorem v1MetricYear_revenue_error (d : Dict)
    (h1 : isNoneOrEmpty (dgetCell d (revCol 2017)) = false)
    (h2 : pyFloat? (dgetCell d (revCol 2017)) = Option.none) :
    v1MetricYear d 2017 =
      .error (.convertFail (revCol 2017) (dgetCell d (revCol 2017))) := by
  unfold v1MetricYear
  rw [show parse_float (dgetCell d (revCol 2017)) (some (revCol 2017)) =
      Except.error (.convertFail (revCol 2017) (dgetCell d (revCol 2017))) by
    simp [parse_float, h1, h2]]
  rfl

theorem v1Stage1_broken (st : V1State) (rowIdx : Nat) (d : Dict) (org : V1OrgRec)
    (h1 : isNoneOrEmpty (dgetCell d (revCol 2017)) = false)
    (h2 : pyFloat? (dgetCell d (revCol 2017)) = Option.none) :
    v1Stage1 st rowIdx d org =
      v1Fail st rowIdx (.convertFail (revCol 2017) (dgetCell d (revCol 2017))) := by
  unfold v1Stage1
  have hgo : v1MetricsGo d org.id (List.range' 2017 7) st.db false =
      (st.db, false, some (.convertFail (revCol 2017) (dgetCell d (revCol 2017)))) := by
    show v1MetricsGo d org.id (2017 :: List.range' 2018 6) st.db false = _
    unfold v1MetricsGo
    rw [v1MetricYear_revenue_error d h1 h2]
  rw [hgo]

theorem processRowV1_wf (st : V1State) (rowIdx : Nat) (d : Dict) (h : V1RowWF d) :
    (processRowV1 st rowIdx d).errors = st.errors ∧
    (processRowV1 st rowIdx d).rows_skipped = st.rows_skipped ∧
    (processRowV1 st rowIdx d).rows_processed = st.rows_processed + 1 ∧
    (processRowV1 st rowIdx d).organizations_new +
        (processRowV1 st rowIdx d).organizations_updated =
      st.organizations_new + st.organizations_updated + 1 := by
  obtain ⟨hT, hS, hOrg, hMet, hTax, hAss, hProd, hDet⟩ := h
  unfold processRowV1
  rw [if_neg (show ¬¬((dgetCell d "ИНН").truthy = true) by simp [hT])]
  dsimp only
  rw [if_neg hS]
  cases hfind : v1FindOrg st.db (innStr d) with
  | some org =>
    dsimp only
    have hc := v1RowRest_counters
      { st with organizations_updated := st.organizations_updated + 1 }
      rowIdx d org hMet hTax hAss hProd hDet
    refine ⟨hc.1, hc.2.1, hc.2.2.1, ?_⟩
    rw [hc.2.2.2.1, hc.2.2.2.2]
    dsimp only
    omega
  | none =>
    obtain ⟨f, hf⟩ := exOk_exists _ hOrg
    rw [hf]
    dsimp only
    have hc := v1RowRest_counters
      { st with
        db := { st.db with
          orgs := st.db.orgs ++ [⟨st.db.nextId, innStr d, f⟩]
          nextId := st.db.nextId + 1 }
        organizations_new := st.organizations_new + 1 }
      rowIdx d ⟨st.db.nextId, innStr d, f⟩ hMet hTax hAss hProd hDet
    refine ⟨hc.1, hc.2.1, hc.2.2.1, ?_⟩
    rw [hc.2.2.2.1, hc.2.2.2.2]
    dsimp only
    omega

theorem processRowV1_broken (st : V1State) (rowIdx : Nat) (d : Dict)
    (h : V1RowBroken d) :
    (processRowV1 st rowIdx d).errors =
      st.errors ++ [⟨rowIdx, .convertFail (revCol 2017) (dgetCell d (revCol 2017))⟩] ∧
    (processRowV1 st rowIdx d).rows_skipped = st.rows_skipped + 1 ∧
    (processRowV1 st rowIdx d).rows_processed = st.rows_processed ∧
    (processRowV1 st rowIdx d).organizations_new +
        (processRowV1 st rowIdx d).organizations_updated =
      st.organizations_new + st.organizations_updated + 1 := by
  obtain ⟨hT, hS, hOrg, h1, h2⟩ := h
  unfold processRowV1
  rw [if_neg (show ¬¬((dgetCell d "ИНН").truthy = true) by simp [hT])]
  dsimp only
  rw [if_neg hS]
  cases hfind : v1FindOrg st.db (innStr d) with
  | some org =>
    dsimp only
    unfold v1RowRest
    rw [v1Stage1_broken _ rowIdx d org h1 h2]
    simp only [v1Fail, v1Tallies_errors, v1Tallies_skip, v1Tallies_proc,
      v1Tallies_new, v1Tallies_upd]
    refine ⟨by trivial, by trivial, by trivial, ?_⟩
    dsimp only
    omega
  | none =>
    obtain ⟨f, hf⟩ := exOk_exists _ hOrg
    rw [hf]
    dsimp only
    unfold v1RowRest
    rw [v1Stage1_broken _ rowIdx d ⟨st.db.nextId, innStr d, f⟩ h1 h2]
    simp only [v1Fail, v1Tallies_errors, v1Tallies_skip, v1Tallies_proc,
      v1Tallies_new, v1Tallies_upd]
    refine ⟨by trivial, by trivial, by trivial, ?_⟩
    dsimp only
    omega

theorem processRowsV1_append (st : V1State) (i : Nat) (xs ys : List Dict) :
    processRowsV1 st i (xs ++ ys) =
      processRowsV1 (processRowsV1 st i xs) (i + xs.length) ys := by
  induction xs generalizing st i with
  | nil => simp [processRowsV1]
  | cons x rest ih =>
    show processRowsV1 (processRowV1 st i x) (i + 1) (rest ++ ys) = _
    rw [ih]
    congr 1
    simp only [List.length_cons]
    omega

theorem processRowsV1_wf (ds : List Dict) :
    ∀ (st : V1State) (i : Nat), (∀ d ∈ ds, V1RowWF d) →
    (processRowsV1 st i ds).errors = st.errors ∧
    (processRowsV1 st i ds).rows_skipped = st.rows_skipped ∧
    (processRowsV1 st i ds).rows_processed = st.rows_processed + ds.length ∧
    (processRowsV1 st i ds).organizations_new +
        (processRowsV1 st i ds).organizations_updated =
      st.organizations_new + st.organizations_updated + ds.length := by
  induction ds with
  | nil => intro st i _; simp [processRowsV1]
  | cons d rest ih =>
    intro st i h
    have hd := processRowV1_wf st i d (h d (by simp))
    have hr := ih (processRowV1 st i d) (i + 1) (fun x hx => h x (by simp [hx]))
    simp only [processRowsV1]
    refine ⟨hr.1.trans hd.1, hr.2.1.trans hd.2.1, ?_, ?_⟩
    · rw [hr.2.2.1, hd.2.2.1, List.length_cons]; omega
    · rw [hr.2.2.2, hd.2.2.2, List.length_cons]; omega

end V1

/-- **C1 counterexample.**  A one-row workbook whose single valid row has a
non-numeric 2017-revenue cell: the header-driven run reports exactly one
failed row, naming row 2 and the column — but `organizations_new +
organizations_updated` is `1`, not `(valid rows − 1) = 0`, because the
upsert and its counter increment precede the coercion failure.  The claim's
count equation is therefore false on the code. -/
theorem C1_counterexample :
    (V1.process_excel_file ["ИНН", "Наименование организации", V1.revCol 2017]
        [[Cell.str "7706901234", Cell.str "Орг", Cell.str "abc"]]).errors =
      [⟨2, .convertFail (V1.revCol 2017) (Cell.str "abc")⟩] ∧
    (V1.process_excel_file ["ИНН", "Наименование организации", V1.revCol 2017]
        [[Cell.str "7706901234", Cell.str "Орг", Cell.str "abc"]]).organizations_new +
      (V1.process_excel_file ["ИНН", "Наименование организации", V1.revCol 2017]
        [[Cell.str "7706901234", Cell.str "Орг", Cell.str "abc"]]).organizations_updated = 1 ∧
    ¬((V1.process_excel_file ["ИНН", "Наименование организации", V1.revCol 2017]
        [[Cell.str "7706901234", Cell.str "Орг", Cell.str "abc"]]).organizations_new +
      (V1.process_excel_file ["ИНН", "Наименование организации", V1.revCol 2017]
        [[Cell.str "7706901234", Cell.str "Орг", Cell.str "abc"]]).organizations_updated = 1 - 1) := by
  refine ⟨by decide, by decide, by decide⟩

/-- **C1 (amended).**  For a workbook in which exactly one row `b` (at
spreadsheet row `2 + |ws₁|`) carries a non-numeric value in the 2017
revenue column and every other row is well-formed with a non-empty tax
identifier, the header-driven run reports exactly one failed row — naming
that row and column — and every row after it is still processed
(`rows_processed` counts all well-formed rows); but the count of created
plus updated organizations equals the number of *all* valid rows, the
failed row included, because the upsert precedes the coercion failure —
not (valid rows − 1) as the claim stated. -/
theorem C1_partial_failure_isolation (ws₁ ws₂ : List V1.Dict) (b : V1.Dict)
    (h1 : ∀ d ∈ ws₁, V1.V1RowWF d) (h2 : ∀ d ∈ ws₂, V1.V1RowWF d)
    (hb : V1.V1RowBroken b) :
    (V1.processRowsV1 V1.v1InitState 2 (ws₁ ++ b :: ws₂)).errors =
      [⟨2 + ws₁.length, .convertFail (V1.revCol 2017) (V1.dgetCell b (V1.revCol 2017))⟩] ∧
    (V1.processRowsV1 V1.v1InitState 2 (ws₁ ++ b :: ws₂)).rows_processed =
      ws₁.length + ws₂.length ∧
    (V1.processRowsV1 V1.v1InitState 2 (ws₁ ++ b :: ws₂)).rows_skipped = 1 ∧
    (V1.processRowsV1 V1.v1InitState 2 (ws₁ ++ b :: ws₂)).organizations_new +
        (V1.processRowsV1 V1.v1InitState 2 (ws₁ ++ b :: ws₂)).organizations_updated =
      ws₁.length + 1 + ws₂.length := by
  rw [V1.processRowsV1_append]
  simp only [V1.processRowsV1]
  have hA := V1.processRowsV1_wf ws₁ V1.v1InitState 2 h1
  have hB := V1.processRowV1_broken (V1.processRowsV1 V1.v1InitState 2 ws₁)
    (2 + ws₁.length) b hb
  have hC := V1.processRowsV1_wf ws₂
    (V1.processRowV1 (V1.processRowsV1 V1.v1InitState 2 ws₁) (2 + ws₁.length) b)
    (2 + ws₁.length + 1) h2
  refine ⟨?_, ?_, ?_, ?_⟩
  · rw [hC.1, hB.1, hA.1]
    simp [V1.v1InitState]
  · rw [hC.2.2.1, hB.2.2.1, hA.2.2.1]
    simp [V1.v1InitState]
  · rw [hC.2.1, hB.2.1, hA.2.1]
    simp [V1.v1InitState]
  · rw [hC.2.2.2]
    rw [hB.2.2.2]
    rw [hA.2.2.2]
    simp [V1.v1InitState]
    try omega

/-- Witness for C1's amended theorem: a three-row workbook, the middle row
broken in the 2017 revenue column. -/
theorem C1_witness :
    ((∀ d ∈ [[("ИНН", Cell.str "1"), ("Наименование организации", Cell.str "А")]],
        V1.V1RowWF d) ∧
     (∀ d ∈ [[("ИНН", Cell.str "3"), ("Наименование организации", Cell.str "В")]],
        V1.V1RowWF d) ∧
     V1.V1RowBroken [("ИНН", Cell.str "2"), ("Наименование организации", Cell.str "Б"),
        (V1.revCol 2017, Cell.str "abc")]) ∧
    (V1.processRowsV1 V1.v1InitState 2
        ([[("ИНН", Cell.str "1"), ("Наименование организации", Cell.str "А")]] ++
          [("ИНН", Cell.str "2"), ("Наименование организации", Cell.str "Б"),
            (V1.revCol 2017, Cell.str "abc")] ::
          [[("ИНН", Cell.str "3"), ("Наименование организации", Cell.str "В")]])).organizations_new +
      (V1.processRowsV1 V1.v1InitState 2
        ([[("ИНН", Cell.str "1"), ("Наименование организации", Cell.str "А")]] ++
          [("ИНН", Cell.str "2"), ("Наименование организации", Cell.str "Б"),
            (V1.revCol 2017, Cell.str "abc")] ::
          [[("ИНН", Cell.str "3"), ("Наименование организации", Cell.str "В")]])).organizations_updated =
      ([[("ИНН", Cell.str "1"), ("Наименование организации", Cell.str "А")]] : List V1.Dict).length
        + 1 +
      ([[("ИНН", Cell.str "3"), ("Наименование организации", Cell.str "В")]] : List V1.Dict).length :=
  ⟨⟨by decide, by decide, by decide⟩,
    (C1_partial_failure_isolation _ _ _ (by decide) (by decide) (by decide)).2.2.2⟩

namespace V2

/-! ### A closed characterization of a whole index-based run

`statSpec`, `newOrgsSpec` and the `last…RowFor` functions give a
row-list-level description of what a run does, proved equal to the
processor by `processRowsV2_char` below; idempotence of re-import follows
from applying the characterization to both runs. -/

/-- The inns present in a store, in organization order. -/
def innsOf (db : DB) : List String := db.orgs.map OrgRec.inn

/-- Counters `(created, updated, skipped)` of a run over `rows` when the
store already knows `inns`. -/
def statSpec (inns : List String) : List (List Cell) → Nat × Nat × Nat
  | [] => (0, 0, 0)
  | r :: rest =>
    match rowInn r with
    | Option.none =>
      let (n, u, s) := statSpec inns rest
      (n, u, s + 1)
    | some inn =>
      if inn ∈ inns then
        let (n, u, s) := statSpec inns rest
        (n, u + 1, s)
      else
        let (n, u, s) := statSpec (inns ++ [inn]) rest
        (n + 1, u, s)

/-- The organizations a run creates, with their assigned ids, when the
store already knows `inns` and the id sequence stands at `nid`. -/
def newOrgsSpec (nid : Nat) (inns : List String) : List (List Cell) → List OrgRec
  | [] => []
  | r :: rest =>
    match rowInn r with
    | Option.none => newOrgsSpec nid inns rest
    | some inn =>
      if inn ∈ inns then newOrgsSpec nid inns rest
      else ⟨nid, inn, v2OrgFields r⟩ :: newOrgsSpec (nid + 1) (inns ++ [inn]) rest

/-- The last row of `rows` whose decoded inn is `inn`. -/
def lastRowFor (inn : String) (rows : List (List Cell)) : Option (List Cell) :=
  (rows.filter (fun r => rowInn r = some inn)).getLast?

/-- The last asset-bearing row of `rows` for `inn`. -/
def lastAssetRowFor (inn : String) (rows : List (List Cell)) : Option (List Cell) :=
  (rows.filter (fun r => decide (rowInn r = some inn) && v2HasAssets r)).getLast?

/-- The last product-bearing row of `rows` for `inn`. -/
def lastProductRowFor (inn : String) (rows : List (List Cell)) : Option (List Cell) :=
  (rows.filter (fun r => decide (rowInn r = some inn) && v2HasProducts r)).getLast?

/-- The last meta-bearing row of `rows` for `inn`. -/
def lastMetaRowFor (inn : String) (rows : List (List Cell)) : Option (List Cell) :=
  (rows.filter (fun r => decide (rowInn r = some inn) && v2HasMeta r)).getLast?

/-- The organization an upsert for `inn` targets: the first stored match. -/
def targetOf (orgs : List OrgRec) (inn : String) : Option OrgRec :=
  orgs.find? (fun o => o.inn = inn)

theorem findOrg_eq_targetOf (db : DB) (inn : String) :
    findOrg db inn = targetOf db.orgs inn := rfl

theorem targetOf_mem {orgs : List OrgRec} {inn : String} {o : OrgRec}
    (h : targetOf orgs inn = some o) : o ∈ orgs ∧ o.inn = inn := by
  refine ⟨List.mem_of_find?_eq_some h, ?_⟩
  have := List.find?_some h
  simpa using this

theorem targetOf_none_iff {orgs : List OrgRec} {inn : String} :
    targetOf orgs inn = Option.none ↔ ∀ o ∈ orgs, o.inn ≠ inn := by
  unfold targetOf
  rw [List.find?_eq_none]
  constructor
  · intro h o ho; have := h o ho; simpa using this
  · intro h o ho; simpa using h o ho

theorem targetOf_append_left {xs ys : List OrgRec} {inn : String} {o : OrgRec}
    (h : targetOf xs inn = some o) : targetOf (xs ++ ys) inn = some o := by
  unfold targetOf at *
  induction xs with
  | nil => simp at h
  | cons x rest ih =>
    by_cases hx : x.inn = inn
    · simp [List.find?_cons, hx] at h ⊢; exact h
    · simp only [List.cons_append, List.find?_cons] at h ⊢
      rw [show (decide (x.inn = inn)) = false by simp [hx]] at h ⊢
      exact ih h

theorem targetOf_append_right {xs ys : List OrgRec} {inn : String}
    (h : targetOf xs inn = Option.none) :
    targetOf (xs ++ ys) inn = targetOf ys inn := by
  unfold targetOf at *
  induction xs with
  | nil => simp
  | cons x rest ih =>
    simp only [List.find?_cons, List.cons_append] at h ⊢
    cases hx : decide (x.inn = inn) with
    | true => rw [hx] at h; cases h
    | false => rw [hx] at h; exact ih h

theorem nodup_map_inj {α β : Type} {l : List α} {f : α → β} (h : (l.map f).Nodup)
    {a b : α} (ha : a ∈ l) (hb : b ∈ l) (hf : f a = f b) : a = b := by
  induction l with
  | nil => cases ha
  | cons x rest ih =>
    simp only [List.map_cons, List.nodup_cons] at h
    rcases List.mem_cons.1 ha with rfl | ha' <;>
      rcases List.mem_cons.1 hb with rfl | hb'
    · rfl
    · exact absurd (hf ▸ List.mem_map_of_mem f hb') h.1
    · exact absurd (hf ▸ List.mem_map_of_mem f ha') h.1
    · exact ih h.2 ha' hb'

theorem filterNe_filterEq_of_ne {α : Type} (l : List α) (f : α → Nat) (k x : Nat)
    (h : x ≠ k) :
    (l.filter (fun a => f a ≠ k)).filter (fun a => f a = x) =
      l.filter (fun a => f a = x) := by
  induction l with
  | nil => rfl
  | cons a rest ih =>
    by_cases hk : f a = k
    · simp only [List.filter_cons]
      rw [show decide (f a ≠ k) = false by simp [hk]]
      rw [show decide (f a = x) = false by simp [hk, Ne.symm h]]
      simpa using ih
    · simp only [List.filter_cons]
      rw [show decide (f a ≠ k) = true by simp [hk]]
      by_cases hx : f a = x
      · rw [show decide (f a = x) = true by simp [hx]]
        simp only [if_true, List.filter_cons]
        rw [show decide (f a = x) = true by simp [hx]]
        simpa using ih
      · rw [show decide (f a = x) = false by simp [hx]]
        simp only [if_true, List.filter_cons]
        rw [show decide (f a = x) = false by simp [hx]]
        simpa using ih

theorem rowRestState_db_orgs (st : ImportState) (row : List Cell) (org : OrgRec)
    (isNew : Bool) : (v2RowRestState st row org isNew).db.orgs = st.db.orgs := rfl

theorem rowRestState_db_nextId (st : ImportState) (row : List Cell) (org : OrgRec)
    (isNew : Bool) : (v2RowRestState st row org isNew).db.nextId = st.db.nextId := rfl

theorem rowRestState_errors (st : ImportState) (row : List Cell) (org : OrgRec)
    (isNew : Bool) : (v2RowRestState st row org isNew).errors = st.errors := rfl

theorem rowRestState_metricsOf (st : ImportState) (row : List Cell) (org : OrgRec)
    (isNew : Bool) (x : Nat) :
    metricsOf (v2RowRestState st row org isNew).db x =
      if x = org.id then metricsOf st.db org.id ++ v2DecodedMetrics row org.id
      else metricsOf st.db x := by
  by_cases hx : x = org.id
  · rw [if_pos hx, hx]
    exact metricsOf_applyChildren_self st.db row org.id
  · rw [if_neg hx]
    exact metricsOf_applyChildren_other st.db row org.id x hx

theorem rowRestState_taxesOf (st : ImportState) (row : List Cell) (org : OrgRec)
    (isNew : Bool) (x : Nat) :
    taxesOf (v2RowRestState st row org isNew).db x =
      if x = org.id then taxesOf st.db org.id ++ v2DecodedTaxes row org.id
      else taxesOf st.db x := by
  by_cases hx : x = org.id
  · rw [if_pos hx, hx]
    exact taxesOf_applyChildren_self st.db row org.id
  · rw [if_neg hx]
    exact taxesOf_applyChildren_other st.db row org.id x hx

theorem rowRestState_assetsOf (st : ImportState) (row : List Cell) (org : OrgRec)
    (isNew : Bool) (x : Nat) :
    assetsOf (v2RowRestState st row org isNew).db x =
      if v2HasAssets row ∧ x = org.id then [v2Asset row org.id]
      else assetsOf st.db x := by
  by_cases hx : x = org.id
  · subst hx
    rw [show (v2RowRestState st row org isNew).db = v2ApplyChildren st.db row org.id from rfl,
      assetsOf_applyChildren_self]
    by_cases ha : v2HasAssets row <;> simp [ha]
  · rw [show (v2RowRestState st row org isNew).db = v2ApplyChildren st.db row org.id from rfl,
      assetsOf_applyChildren_other st.db row org.id x hx]
    simp [hx]

theorem rowRestState_productsOf (st : ImportState) (row : List Cell) (org : OrgRec)
    (isNew : Bool) (x : Nat) :
    productsOf (v2RowRestState st row org isNew).db x =
      if v2HasProducts row ∧ x = org.id then [v2Product row org.id]
      else productsOf st.db x := by
  by_cases hx : x = org.id
  · subst hx
    rw [show (v2RowRestState st row org isNew).db = v2ApplyChildren st.db row org.id from rfl,
      productsOf_applyChildren_self]
    by_cases ha : v2HasProducts row <;> simp [ha]
  · rw [show (v2RowRestState st row org isNew).db = v2ApplyChildren st.db row org.id from rfl,
      productsOf_applyChildren_other st.db row org.id x hx]
    simp [hx]

theorem rowRestState_metasOf (st : ImportState) (row : List Cell) (org : OrgRec)
    (isNew : Bool) (x : Nat) :
    metasOf (v2RowRestState st row org isNew).db x =
      if v2HasMeta row ∧ x = org.id then [v2Meta row org.id]
      else metasOf st.db x := by
  by_cases hx : x = org.id
  · subst hx
    rw [show (v2RowRestState st row org isNew).db = v2ApplyChildren st.db row org.id from rfl,
      metasOf_applyChildren_self]
    by_cases ha : v2HasMeta row <;> simp [ha]
  · rw [show (v2RowRestState st row org isNew).db = v2ApplyChildren st.db row org.id from rfl,
      metasOf_applyChildren_other st.db row org.id x hx]
    simp [hx]

theorem applyChildren_DBInv (db : DB) (row : List Cell) (oid : Nat)
    (hinv : DBInv db) (hoid : oid < db.nextId) : DBInv (v2ApplyChildren db row oid) := by
  obtain ⟨h1, h2, h3, h4, h5, h6, h7⟩ := hinv
  refine ⟨h1, ?_, ?_, ?_, ?_, ?_, h7⟩
  · intro m hm
    rcases List.mem_append.1 hm with hm | hm
    · exact h2 m hm
    · rw [mem_v2DecodedMetrics_oid row oid m hm]; exact hoid
  · intro t ht
    rcases List.mem_append.1 ht with ht | ht
    · exact h3 t ht
    · rw [mem_v2DecodedTaxes_oid row oid t ht]; exact hoid
  · intro a ha
    simp only [v2ApplyChildren] at ha
    by_cases hA : v2HasAssets row
    · rw [if_pos hA] at ha
      rcases List.mem_append.1 ha with ha | ha
      · exact h4 a (List.mem_of_mem_filter ha)
      · simp at ha; rw [ha]; exact hoid
    · rw [if_neg hA] at ha; exact h4 a ha
  · intro p hp
    simp only [v2ApplyChildren] at hp
    by_cases hA : v2HasProducts row
    · rw [if_pos hA] at hp
      rcases List.mem_append.1 hp with hp | hp
      · exact h5 p (List.mem_of_mem_filter hp)
      · simp at hp; rw [hp]; exact hoid
    · rw [if_neg hA] at hp; exact h5 p hp
  · intro m hm
    simp only [v2ApplyChildren] at hm
    by_cases hA : v2HasMeta row
    · rw [if_pos hA] at hm
      rcases List.mem_append.1 hm with hm | hm
      · exact h6 m (List.mem_of_mem_filter hm)
      · simp at hm; rw [hm]; exact hoid
    · rw [if_neg hA] at hm; exact h6 m hm

/-- Everything one *update* row does to the run state. -/
theorem step_update (st : ImportState) (rowIdx : Nat) (row : List Cell)
    (inn : String) (org : OrgRec) (hlen : 167 ≤ row.length)
    (hinn : rowInn row = some inn) (horg : findOrg st.db inn = some org)
    (hinv : DBInv st.db) :
    (processRowV2 st rowIdx row).db.orgs = st.db.orgs ∧
    (processRowV2 st rowIdx row).db.nextId = st.db.nextId ∧
    (processRowV2 st rowIdx row).errors = st.errors ∧
    (processRowV2 st rowIdx row).organizations_new = st.organizations_new ∧
    (processRowV2 st rowIdx row).organizations_updated = st.organizations_updated + 1 ∧
    (processRowV2 st rowIdx row).rows_skipped = st.rows_skipped ∧
    (processRowV2 st rowIdx row).rows_processed = st.rows_processed + 1 ∧
    DBInv (processRowV2 st rowIdx row).db ∧
    (∀ x, metricsOf (processRowV2 st rowIdx row).db x =
      if x = org.id then v2DecodedMetrics row org.id else metricsOf st.db x) ∧
    (∀ x, taxesOf (processRowV2 st rowIdx row).db x =
      if x = org.id then v2DecodedTaxes row org.id else taxesOf st.db x) ∧
    (∀ x, assetsOf (processRowV2 st rowIdx row).db x =
      if v2HasAssets row ∧ x = org.id then [v2Asset row org.id] else assetsOf st.db x) ∧
    (∀ x, productsOf (processRowV2 st rowIdx row).db x =
      if v2HasProducts row ∧ x = org.id then [v2Product row org.id]
      else productsOf st.db x) ∧
    (∀ x, metasOf (processRowV2 st rowIdx row).db x =
      if v2HasMeta row ∧ x = org.id then [v2Meta row org.id] else metasOf st.db x) := by
  have horg' := targetOf_mem (findOrg_eq_targetOf st.db inn ▸ horg)
  have hoid : org.id < st.db.nextId := hinv.1 org horg'.1
  rw [processRowV2_update st rowIdx row inn org hlen hinn horg]
  refine ⟨rfl, rfl, rfl, rfl, rfl, rfl, rfl, ?_, ?_, ?_, ?_, ?_, ?_⟩
  · refine applyChildren_DBInv _ row org.id ?_ hoid
    obtain ⟨h1, h2, h3, h4, h5, h6, h7⟩ := hinv
    exact ⟨h1, fun m hm => h2 m (List.mem_of_mem_filter hm),
      fun t ht => h3 t (List.mem_of_mem_filter ht), h4, h5, h6, h7⟩
  · intro x
    rw [rowRestState_metricsOf]
    by_cases hx : x = org.id
    · rw [if_pos hx, if_pos hx]
      have : metricsOf
          { st.db with
            metrics := st.db.metrics.filter (fun m => m.organization_id ≠ org.id)
            taxes := st.db.taxes.filter (fun t => t.organization_id ≠ org.id) } org.id = [] := by
        simp only [metricsOf]
        exact filterNe_then_filterEq st.db.metrics MetricRec.organization_id org.id
      rw [this, List.nil_append]
    · rw [if_neg hx, if_neg hx]
      simp only [metricsOf]
      exact filterNe_filterEq_of_ne st.db.metrics MetricRec.organization_id org.id x hx
  · intro x
    rw [rowRestState_taxesOf]
    by_cases hx : x = org.id
    · rw [if_pos hx, if_pos hx]
      have : taxesOf
          { st.db with
            metrics := st.db.metrics.filter (fun m => m.organization_id ≠ org.id)
            taxes := st.db.taxes.filter (fun t => t.organization_id ≠ org.id) } org.id = [] := by
        simp only [taxesOf]
        exact filterNe_then_filterEq st.db.taxes TaxRec.organization_id org.id
      rw [this, List.nil_append]
    · rw [if_neg hx, if_neg hx]
      simp only [taxesOf]
      exact filterNe_filterEq_of_ne st.db.taxes TaxRec.organization_id org.id x hx
  · intro x
    rw [rowRestState_assetsOf]; rfl
  · intro x
    rw [rowRestState_productsOf]; rfl
  · intro x
    rw [rowRestState_metasOf]; rfl

/-- Everything one *create* row does to the run state. -/
theorem step_create (st : ImportState) (rowIdx : Nat) (row : List Cell)
    (inn : String) (hlen : 167 ≤ row.length)
    (hinn : rowInn row = some inn) (horg : findOrg st.db inn = Option.none)
    (hinv : DBInv st.db) :
    (processRowV2 st rowIdx row).db.orgs =
      st.db.orgs ++ [⟨st.db.nextId, inn, v2OrgFields row⟩] ∧
    (processRowV2 st rowIdx row).db.nextId = st.db.nextId + 1 ∧
    (processRowV2 st rowIdx row).errors = st.errors ∧
    (processRowV2 st rowIdx row).organizations_new = st.organizations_new + 1 ∧
    (processRowV2 st rowIdx row).organizations_updated = st.organizations_updated ∧
    (processRowV2 st rowIdx row).rows_skipped = st.rows_skipped ∧
    (processRowV2 st rowIdx row).rows_processed = st.rows_processed + 1 ∧
    DBInv (processRowV2 st rowIdx row).db ∧
    (∀ x, metricsOf (processRowV2 st rowIdx row).db x =
      if x = st.db.nextId then v2DecodedMetrics row st.db.nextId
      else metricsOf st.db x) ∧
    (∀ x, taxesOf (processRowV2 st rowIdx row).db x =
      if x = st.db.nextId then v2DecodedTaxes row st.db.nextId else taxesOf st.db x) ∧
    (∀ x, assetsOf (processRowV2 st rowIdx row).db x =
      if v2HasAssets row ∧ x = st.db.nextId then [v2Asset row st.db.nextId]
      else assetsOf st.db x) ∧
    (∀ x, productsOf (processRowV2 st rowIdx row).db x =
      if v2HasProducts row ∧ x = st.db.nextId then [v2Product row st.db.nextId]
      else productsOf st.db x) ∧
    (∀ x, metasOf (processRowV2 st rowIdx row).db x =
      if v2HasMeta row ∧ x = st.db.nextId then [v2Meta row st.db.nextId]
      else metasOf st.db x) := by
  rw [processRowV2_create st rowIdx row inn hlen hinn horg]
  have hinvNew : DBInv
      { st.db with
        orgs := st.db.orgs ++ [⟨st.db.nextId, inn, v2OrgFields row⟩]
        nextId := st.db.nextId + 1 } := by
    obtain ⟨h1, h2, h3, h4, h5, h6, h7⟩ := hinv
    refine ⟨?_, fun m hm => Nat.lt_succ_of_lt (h2 m hm),
      fun t ht => Nat.lt_succ_of_lt (h3 t ht),
      fun a ha => Nat.lt_succ_of_lt (h4 a ha),
      fun p hp => Nat.lt_succ_of_lt (h5 p hp),
      fun m hm => Nat.lt_succ_of_lt (h6 m hm), ?_⟩
    · intro o ho
      rcases List.mem_append.1 ho with ho | ho
      · exact Nat.lt_succ_of_lt (h1 o ho)
      · simp at ho; rw [ho]; exact Nat.lt_succ_self _
    · simp only [List.map_append, List.map_cons, List.map_nil]
      rw [List.nodup_append]
      refine ⟨h7, List.nodup_singleton _, ?_⟩
      intro x hx
      have := h1 _ (List.mem_map.1 hx).choose_spec.1
      simp only [List.mem_singleton]
      intro hx2
      obtain ⟨o, ho, hid⟩ := List.mem_map.1 hx
      have := h1 o ho
      omega
  refine ⟨rfl, rfl, rfl, rfl, rfl, rfl, rfl, ?_, ?_, ?_, ?_, ?_, ?_⟩
  · exact applyChildren_DBInv _ row st.db.nextId hinvNew (by simp)
  · intro x
    rw [rowRestState_metricsOf]
    by_cases hx : x = st.db.nextId
    · rw [if_pos hx, if_pos hx]
      have h0 : metricsOf
          { st.db with
            orgs := st.db.orgs ++ [⟨st.db.nextId, inn, v2OrgFields row⟩]
            nextId := st.db.nextId + 1 } st.db.nextId = [] := by
        refine List.filter_eq_nil_iff.2 (fun m hm => ?_)
        have := hinv.2.1 m hm
        simp; omega
      rw [h0, List.nil_append]
    · rw [if_neg hx, if_neg hx]; rfl
  · intro x
    rw [rowRestState_taxesOf]
    by_cases hx : x = st.db.nextId
    · rw [if_pos hx, if_pos hx]
      have h0 : taxesOf
          { st.db with
            orgs := st.db.orgs ++ [⟨st.db.nextId, inn, v2OrgFields row⟩]
            nextId := st.db.nextId + 1 } st.db.nextId = [] := by
        refine List.filter_eq_nil_iff.2 (fun t ht => ?_)
        have := hinv.2.2.1 t ht
        simp; omega
      rw [h0, List.nil_append]
    · rw [if_neg hx, if_neg hx]; rfl
  · intro x
    rw [rowRestState_assetsOf]; rfl
  · intro x
    rw [rowRestState_productsOf]; rfl
  · intro x
    rw [rowRestState_metasOf]; rfl

/-- A blank-inn row is skipped: only the skip counter moves. -/
theorem processRowV2_skipRow (st : ImportState) (rowIdx : Nat) (row : List Cell)
    (hlen : 2 ≤ row.length) (hinn : rowInn row = Option.none) :
    processRowV2 st rowIdx row = { st with rows_skipped := st.rows_skipped + 1 } := by
  unfold processRowV2
  rw [if_neg (by omega)]
  unfold rowInn at hinn
  rw [hinn]

theorem getLastOpt_cons {α : Type} (a : α) (l : List α) :
    (a :: l).getLast? = some (l.getLast?.getD a) := by
  cases l with
  | nil => rfl
  | cons b t =>
    rw [List.getLast?_cons_cons]
    cases h : (b :: t).getLast? with
    | none => simp at h
    | some x => rfl

theorem lastFilter_cons {α : Type} (p : α → Bool) (a : α) (l : List α) :
    ((a :: l).filter p).getLast? =
      if p a then some ((l.filter p).getLast?.getD a)
      else (l.filter p).getLast? := by
  by_cases h : p a = true
  · rw [if_pos h]
    have hf : (a :: l).filter p = a :: l.filter p := by simp [List.filter_cons, h]
    rw [hf, getLastOpt_cons]
  · rw [if_neg h]
    have hf : (a :: l).filter p = l.filter p := by simp [List.filter_cons, h]
    rw [hf]

/-- The last row of `rows` whose inn is `inn` and which satisfies `cond`
(the per-family presence test; constantly true for metrics and taxes). -/
def lastCondRowFor (cond : List Cell → Bool) (inn : String)
    (rows : List (List Cell)) : Option (List Cell) :=
  (rows.filter (fun r => decide (rowInn r = some inn) && cond r)).getLast?

theorem lastCondRowFor_cons (cond : List Cell → Bool) (inn : String)
    (r : List Cell) (rest : List (List Cell)) :
    lastCondRowFor cond inn (r :: rest) =
      if decide (rowInn r = some inn) && cond r then
        some ((lastCondRowFor cond inn rest).getD r)
      else lastCondRowFor cond inn rest := by
  unfold lastCondRowFor
  exact lastFilter_cons (fun row => decide (rowInn row = some inn) && cond row) r rest

/-- Per-family run characterization: for each stored organization, the
family value after the run is the one decoded from the last relevant row
targeting it, or the pre-run value if no row does. -/
def famSpec {α : Type} (get : DB → Nat → α) (dec : List Cell → Nat → α)
    (cond : List Cell → Bool) (stdb Sdb : DB) (orgsS : List OrgRec)
    (rows : List (List Cell)) : Prop :=
  ∀ o ∈ orgsS, get Sdb o.id =
    if targetOf orgsS o.inn = some o then
      match lastCondRowFor cond o.inn rows with
      | some r => dec r o.id
      | Option.none => get stdb o.id
    else get stdb o.id

theorem famSpec_nil {α : Type} (get : DB → Nat → α) (dec : List Cell → Nat → α)
    (cond : List Cell → Bool) (db : DB) (orgsS : List OrgRec) :
    famSpec get dec cond db db orgsS [] := by
  unfold famSpec
  intro o ho
  by_cases h : targetOf orgsS o.inn = some o
  · rw [if_pos h]; simp [lastCondRowFor]
  · rw [if_neg h]

theorem famSpec_skip {α : Type} (get : DB → Nat → α) (dec : List Cell → Nat → α)
    (cond : List Cell → Bool) (stdb Sdb : DB) (orgsS : List OrgRec)
    (r : List Cell) (rest : List (List Cell))
    (hinn : rowInn r = Option.none)
    (hIH : famSpec get dec cond stdb Sdb orgsS rest) :
    famSpec get dec cond stdb Sdb orgsS (r :: rest) := by
  unfold famSpec at hIH ⊢
  intro o ho
  have h := hIH o ho
  have hcons : lastCondRowFor cond o.inn (r :: rest) = lastCondRowFor cond o.inn rest := by
    rw [lastCondRowFor_cons, if_neg (by rw [hinn]; simp)]
  rw [hcons]
  exact h

theorem famSpec_cons {α : Type} (get : DB → Nat → α) (dec : List Cell → Nat → α)
    (cond : List Cell → Bool) (stdb st'db Sdb : DB) (orgsS : List OrgRec)
    (r : List Cell) (rest : List (List Cell)) (org : OrgRec) (inn : String)
    (hinn : rowInn r = some inn) (horgInn : org.inn = inn)
    (horgS : targetOf orgsS inn = some org)
    (hnodup : (orgsS.map OrgRec.id).Nodup) (horgMem : org ∈ orgsS)
    (hstep : ∀ x, get st'db x =
      if cond r = true ∧ x = org.id then dec r org.id else get stdb x)
    (hIH : famSpec get dec cond st'db Sdb orgsS rest) :
    famSpec get dec cond stdb Sdb orgsS (r :: rest) := by
  unfold famSpec at hIH ⊢
  intro o ho
  have hIHo := hIH o ho
  by_cases htgt : targetOf orgsS o.inn = some o
  · rw [if_pos htgt] at hIHo ⊢
    rw [lastCondRowFor_cons]
    by_cases hrel : rowInn r = some o.inn ∧ cond r = true
    · have hoinn : inn = o.inn := by
        rw [hinn] at hrel
        exact Option.some.inj hrel.1
      have horgo : org = o := by
        rw [hoinn] at horgS
        rw [horgS] at htgt
        exact Option.some.inj htgt
      subst horgo
      rw [if_pos (by simp [hrel.1, hrel.2])]
      cases hl : lastCondRowFor cond org.inn rest with
      | some x =>
        rw [hl] at hIHo
        dsimp only [Option.getD_some] at hIHo ⊢
        exact hIHo
      | none =>
        rw [hl] at hIHo
        dsimp only [Option.getD_none] at hIHo ⊢
        rw [hIHo, hstep org.id, if_pos ⟨hrel.2, rfl⟩]
    · rw [if_neg (by simpa using hrel)]
      cases hl : lastCondRowFor cond o.inn rest with
      | some x =>
        rw [hl] at hIHo
        dsimp only at hIHo ⊢
        exact hIHo
      | none =>
        rw [hl] at hIHo
        dsimp only at hIHo ⊢
        rw [hIHo, hstep o.id, if_neg ?_]
        rintro ⟨hc, hid⟩
        have heq : o = org := nodup_map_inj hnodup ho horgMem hid
        exact hrel ⟨by rw [heq, horgInn]; exact hinn, hc⟩
  · rw [if_neg htgt] at hIHo ⊢
    rw [hIHo, hstep o.id, if_neg ?_]
    rintro ⟨hc, hid⟩
    have heq : o = org := nodup_map_inj hnodup ho horgMem hid
    apply htgt
    rw [heq, horgInn]
    exact horgS

theorem newOrgsSpec_cons_skip (nid : Nat) (inns : List String) (r : List Cell)
    (rest : List (List Cell)) (hinn : rowInn r = Option.none) :
    newOrgsSpec nid inns (r :: rest) = newOrgsSpec nid inns rest := by
  simp [newOrgsSpec, hinn]

theorem newOrgsSpec_cons_known (nid : Nat) (inns : List String) (r : List Cell)
    (rest : List (List Cell)) (inn : String) (hinn : rowInn r = some inn)
    (hmem : inn ∈ inns) :
    newOrgsSpec nid inns (r :: rest) = newOrgsSpec nid inns rest := by
  simp [newOrgsSpec, hinn, hmem]

theorem newOrgsSpec_cons_new (nid : Nat) (inns : List String) (r : List Cell)
    (rest : List (List Cell)) (inn : String) (hinn : rowInn r = some inn)
    (hmem : inn ∉ inns) :
    newOrgsSpec nid inns (r :: rest) =
      ⟨nid, inn, v2OrgFields r⟩ :: newOrgsSpec (nid + 1) (inns ++ [inn]) rest := by
  simp [newOrgsSpec, hinn, hmem]

theorem statSpec_cons_skip (inns : List String) (r : List Cell)
    (rest : List (List Cell)) (hinn : rowInn r = Option.none) :
    statSpec inns (r :: rest) =
      ((statSpec inns rest).1, (statSpec inns rest).2.1,
        (statSpec inns rest).2.2 + 1) := by
  simp only [statSpec, hinn]

theorem statSpec_cons_known (inns : List String) (r : List Cell)
    (rest : List (List Cell)) (inn : String) (hinn : rowInn r = some inn)
    (hmem : inn ∈ inns) :
    statSpec inns (r :: rest) =
      ((statSpec inns rest).1, (statSpec inns rest).2.1 + 1,
        (statSpec inns rest).2.2) := by
  simp only [statSpec, hinn]
  rw [if_pos hmem]

theorem statSpec_cons_new (inns : List String) (r : List Cell)
    (rest : List (List Cell)) (inn : String) (hinn : rowInn r = some inn)
    (hmem : inn ∉ inns) :
    statSpec inns (r :: rest) =
      ((statSpec (inns ++ [inn]) rest).1 + 1, (statSpec (inns ++ [inn]) rest).2.1,
        (statSpec (inns ++ [inn]) rest).2.2) := by
  simp only [statSpec, hinn]
  rw [if_neg hmem]

/-- Every inn a run meets is known afterwards: it was either already
stored or belongs to an organization the run creates. -/
theorem newOrgsSpec_covers (rows : List (List Cell)) :
    ∀ (nid : Nat) (inns : List String) (r : List Cell) (inn : String),
    r ∈ rows → rowInn r = some inn →
    inn ∈ inns ++ (newOrgsSpec nid inns rows).map OrgRec.inn := by
  induction rows with
  | nil => intro _ _ _ _ h; cases h
  | cons r0 rest ih =>
    intro nid inns r inn hr hinn
    rcases List.mem_cons.1 hr with rfl | hr'
    · by_cases hmem : inn ∈ inns
      · exact List.mem_append.2 (Or.inl hmem)
      · rw [newOrgsSpec_cons_new nid inns r rest inn hinn hmem]
        simp
    · cases hinn0 : rowInn r0 with
      | none =>
        rw [newOrgsSpec_cons_skip nid inns r0 rest hinn0]
        exact ih nid inns r inn hr' hinn
      | some inn0 =>
        by_cases hmem : inn0 ∈ inns
        · rw [newOrgsSpec_cons_known nid inns r0 rest inn0 hinn0 hmem]
          exact ih nid inns r inn hr' hinn
        · rw [newOrgsSpec_cons_new nid inns r0 rest inn0 hinn0 hmem]
          have := ih (nid + 1) (inns ++ [inn0]) r inn hr' hinn
          simp only [List.mem_append, List.map_cons, List.mem_cons,
            List.mem_singleton] at this ⊢
          tauto

/-- A run whose every inn is already known creates nothing. -/
theorem newOrgsSpec_nil_of_known (rows : List (List Cell)) :
    ∀ (nid : Nat) (inns : List String),
    (∀ r ∈ rows, ∀ inn, rowInn r = some inn → inn ∈ inns) →
    newOrgsSpec nid inns rows = [] := by
  induction rows with
  | nil => intro _ _ _; rfl
  | cons r0 rest ih =>
    intro nid inns h
    have hrest : ∀ r ∈ rest, ∀ inn, rowInn r = some inn → inn ∈ inns :=
      fun r hr => h r (List.mem_cons_of_mem _ hr)
    cases hinn0 : rowInn r0 with
    | none =>
      rw [newOrgsSpec_cons_skip nid inns r0 rest hinn0]
      exact ih nid inns hrest
    | some inn0 =>
      have hmem := h r0 (List.mem_cons_self _ _) inn0 hinn0
      rw [newOrgsSpec_cons_known nid inns r0 rest inn0 hinn0 hmem]
      exact ih nid inns hrest

/-- A run whose every inn is already known updates once per inn-bearing
row and skips once per blank row. -/
theorem statSpec_of_known (rows : List (List Cell)) :
    ∀ inns : List String,
    (∀ r ∈ rows, ∀ inn, rowInn r = some inn → inn ∈ inns) →
    statSpec inns rows =
      (0, (rows.filter (fun r => (rowInn r).isSome)).length,
        (rows.filter (fun r => (rowInn r).isNone)).length) := by
  induction rows with
  | nil => intro _ _; rfl
  | cons r0 rest ih =>
    intro inns h
    have hrest := ih inns (fun r hr => h r (List.mem_cons_of_mem _ hr))
    cases hinn0 : rowInn r0 with
    | none =>
      rw [statSpec_cons_skip inns r0 rest hinn0, hrest]
      simp [List.filter_cons, hinn0]
    | some inn0 =>
      have hmem := h r0 (List.mem_cons_self _ _) inn0 hinn0
      rw [statSpec_cons_known inns r0 rest inn0 hinn0 hmem, hrest]
      simp [List.filter_cons, hinn0]

/-- Run characterization of the index-based import: final organization
list, id sequence, counters, error list, and per-organization family
values, for workbooks whose rows are long enough that no `IndexError`
fires. -/
theorem processRowsV2_char (rows : List (List Cell)) :
    ∀ (st : ImportState) (rowIdx : Nat),
    (∀ r ∈ rows, 167 ≤ r.length) → DBInv st.db →
    (processRowsV2 st rowIdx rows).db.orgs
        = st.db.orgs ++ newOrgsSpec st.db.nextId (innsOf st.db) rows ∧
    (processRowsV2 st rowIdx rows).db.nextId
        = st.db.nextId + (newOrgsSpec st.db.nextId (innsOf st.db) rows).length ∧
    DBInv (processRowsV2 st rowIdx rows).db ∧
    (processRowsV2 st rowIdx rows).errors = st.errors ∧
    (processRowsV2 st rowIdx rows).organizations_new
        = st.organizations_new + (statSpec (innsOf st.db) rows).1 ∧
    (processRowsV2 st rowIdx rows).organizations_updated
        = st.organizations_updated + (statSpec (innsOf st.db) rows).2.1 ∧
    (processRowsV2 st rowIdx rows).rows_skipped
        = st.rows_skipped + (statSpec (innsOf st.db) rows).2.2 ∧
    (processRowsV2 st rowIdx rows).rows_processed
        = st.rows_processed + (statSpec (innsOf st.db) rows).1
            + (statSpec (innsOf st.db) rows).2.1 ∧
    famSpec metricsOf v2DecodedMetrics (fun _ => true) st.db
      (processRowsV2 st rowIdx rows).db (processRowsV2 st rowIdx rows).db.orgs rows ∧
    famSpec taxesOf v2DecodedTaxes (fun _ => true) st.db
      (processRowsV2 st rowIdx rows).db (processRowsV2 st rowIdx rows).db.orgs rows ∧
    famSpec assetsOf (fun r oid => [v2Asset r oid]) v2HasAssets st.db
      (processRowsV2 st rowIdx rows).db (processRowsV2 st rowIdx rows).db.orgs rows ∧
    famSpec productsOf (fun r oid => [v2Product r oid]) v2HasProducts st.db
      (processRowsV2 st rowIdx rows).db (processRowsV2 st rowIdx rows).db.orgs rows ∧
    famSpec metasOf (fun r oid => [v2Meta r oid]) v2HasMeta st.db
      (processRowsV2 st rowIdx rows).db (processRowsV2 st rowIdx rows).db.orgs rows := by
  induction rows with
  | nil =>
    intro st rowIdx hlen hinv
    exact ⟨by simp [processRowsV2, newOrgsSpec], by simp [processRowsV2, newOrgsSpec],
      hinv, rfl, by simp [processRowsV2, statSpec], by simp [processRowsV2, statSpec],
      by simp [processRowsV2, statSpec], by simp [processRowsV2, statSpec],
      famSpec_nil _ _ _ _ _, famSpec_nil _ _ _ _ _, famSpec_nil _ _ _ _ _,
      famSpec_nil _ _ _ _ _, famSpec_nil _ _ _ _ _⟩
  | cons r rest ih =>
    intro st rowIdx hlen hinv
    have hlenr : 167 ≤ r.length := hlen r (List.mem_cons_self _ _)
    have hlenrest : ∀ x ∈ rest, 167 ≤ x.length :=
      fun x hx => hlen x (List.mem_cons_of_mem _ hx)
    have hrows : processRowsV2 st rowIdx (r :: rest)
        = processRowsV2 (processRowV2 st rowIdx r) (rowIdx + 1) rest := rfl
    rw [hrows]
    cases hinn : rowInn r with
    | none =>
      have hl2 : 2 ≤ r.length := by omega
      rw [processRowV2_skipRow st rowIdx r hl2 hinn]
      obtain ⟨h1, h2', h3, h4, h5, h6, h7, h8, h9, h10, h11, h12, h13⟩ :=
        ih { st with rows_skipped := st.rows_skipped + 1 } (rowIdx + 1) hlenrest hinv
      rw [newOrgsSpec_cons_skip _ _ _ _ hinn, statSpec_cons_skip _ _ _ hinn]
      refine ⟨h1, h2', h3, h4, h5, h6, ?_, ?_,
        famSpec_skip _ _ _ _ _ _ _ _ hinn h9, famSpec_skip _ _ _ _ _ _ _ _ hinn h10,
        famSpec_skip _ _ _ _ _ _ _ _ hinn h11, famSpec_skip _ _ _ _ _ _ _ _ hinn h12,
        famSpec_skip _ _ _ _ _ _ _ _ hinn h13⟩
      · rw [h7]; try dsimp only; try omega
      · rw [h8]; try dsimp only; try omega
    | some inn =>
      cases horg : findOrg st.db inn with
      | some org =>
        have hfind : targetOf st.db.orgs inn = some org :=
          findOrg_eq_targetOf st.db inn ▸ horg
        have hmem : inn ∈ innsOf st.db :=
          (targetOf_mem hfind).2 ▸ List.mem_map_of_mem OrgRec.inn (targetOf_mem hfind).1
        obtain ⟨s1, s2, s3, s4, s5, s6, s7, s8, s9, s10, s11, s12, s13⟩ :=
          step_update st rowIdx r inn org hlenr hinn horg hinv
        obtain ⟨h1, h2', h3, h4, h5, h6, h7, h8, h9, h10, h11, h12, h13⟩ :=
          ih (processRowV2 st rowIdx r) (rowIdx + 1) hlenrest s8
        have hinns : innsOf (processRowV2 st rowIdx r).db = innsOf st.db := by
          unfold innsOf; rw [s1]
        rw [newOrgsSpec_cons_known _ _ _ _ _ hinn hmem,
          statSpec_cons_known _ _ _ _ hinn hmem]
        rw [s1, s2, hinns] at h1
        rw [s2, hinns] at h2'
        rw [s3] at h4
        rw [hinns] at h5 h6 h7 h8
        rw [s4] at h5
        rw [s5] at h6
        rw [s6] at h7
        rw [s7] at h8
        have horgInn : org.inn = inn := (targetOf_mem hfind).2
        have horgS : targetOf
            (processRowsV2 (processRowV2 st rowIdx r) (rowIdx + 1) rest).db.orgs inn
            = some org := by
          rw [h1]
          exact targetOf_append_left hfind
        have hnodup := h3.2.2.2.2.2.2
        have horgMem : org ∈
            (processRowsV2 (processRowV2 st rowIdx r) (rowIdx + 1) rest).db.orgs := by
          rw [h1]
          exact List.mem_append_left _ (targetOf_mem hfind).1
        have hstepM : ∀ x, metricsOf (processRowV2 st rowIdx r).db x =
            if (fun _ : List Cell => true) r = true ∧ x = org.id
            then v2DecodedMetrics r org.id else metricsOf st.db x := by
          intro x
          rw [s9 x]
          by_cases hx : x = org.id
          · rw [if_pos hx, if_pos ⟨rfl, hx⟩]
          · rw [if_neg hx, if_neg (fun h => hx h.2)]
        have hstepT : ∀ x, taxesOf (processRowV2 st rowIdx r).db x =
            if (fun _ : List Cell => true) r = true ∧ x = org.id
            then v2DecodedTaxes r org.id else taxesOf st.db x := by
          intro x
          rw [s10 x]
          by_cases hx : x = org.id
          · rw [if_pos hx, if_pos ⟨rfl, hx⟩]
          · rw [if_neg hx, if_neg (fun h => hx h.2)]
        refine ⟨h1, h2', h3, h4, ?_, ?_, ?_, ?_,
          famSpec_cons _ _ _ _ _ _ _ _ _ org inn hinn horgInn horgS hnodup horgMem hstepM h9,
          famSpec_cons _ _ _ _ _ _ _ _ _ org inn hinn horgInn horgS hnodup horgMem hstepT h10,
          famSpec_cons _ _ _ _ _ _ _ _ _ org inn hinn horgInn horgS hnodup horgMem s11 h11,
          famSpec_cons _ _ _ _ _ _ _ _ _ org inn hinn horgInn horgS hnodup horgMem s12 h12,
          famSpec_cons _ _ _ _ _ _ _ _ _ org inn hinn horgInn horgS hnodup horgMem s13 h13⟩
        · rw [h5]; try dsimp only; try omega
        · rw [h6]; try dsimp only; try omega
        · rw [h7]; try dsimp only; try omega
        · rw [h8]; try dsimp only; try omega
      | none =>
        have hnone : targetOf st.db.orgs inn = Option.none :=
          findOrg_eq_targetOf st.db inn ▸ horg
        have hmem : inn ∉ innsOf st.db := by
          intro hm
          obtain ⟨o, ho, hoinn⟩ := List.mem_map.1 hm
          exact targetOf_none_iff.1 hnone o ho hoinn
        obtain ⟨s1, s2, s3, s4, s5, s6, s7, s8, s9, s10, s11, s12, s13⟩ :=
          step_create st rowIdx r inn hlenr hinn horg hinv
        obtain ⟨h1, h2', h3, h4, h5, h6, h7, h8, h9, h10, h11, h12, h13⟩ :=
          ih (processRowV2 st rowIdx r) (rowIdx + 1) hlenrest s8
        have hinns : innsOf (processRowV2 st rowIdx r).db
            = innsOf st.db ++ [inn] := by
          unfold innsOf; rw [s1]; simp
        rw [newOrgsSpec_cons_new _ _ _ _ _ hinn hmem,
          statSpec_cons_new _ _ _ _ hinn hmem]
        rw [s1, s2, hinns] at h1
        rw [s2, hinns] at h2'
        rw [s3] at h4
        rw [hinns] at h5 h6 h7 h8
        rw [s4] at h5
        rw [s5] at h6
        rw [s6] at h7
        rw [s7] at h8
        have hone : targetOf [(⟨st.db.nextId, inn, v2OrgFields r⟩ : OrgRec)] inn
            = some ⟨st.db.nextId, inn, v2OrgFields r⟩ := by
          unfold targetOf
          simp [List.find?]
        have horgS : targetOf
            (processRowsV2 (processRowV2 st rowIdx r) (rowIdx + 1) rest).db.orgs inn
            = some ⟨st.db.nextId, inn, v2OrgFields r⟩ := by
          rw [h1, List.append_assoc, targetOf_append_right hnone]
          exact targetOf_append_left hone
        have hnodup := h3.2.2.2.2.2.2
        have horgMem : (⟨st.db.nextId, inn, v2OrgFields r⟩ : OrgRec) ∈
            (processRowsV2 (processRowV2 st rowIdx r) (rowIdx + 1) rest).db.orgs := by
          rw [h1]
          simp
        have hstepM : ∀ x, metricsOf (processRowV2 st rowIdx r).db x =
            if (fun _ : List Cell => true) r = true ∧ x = st.db.nextId
            then v2DecodedMetrics r st.db.nextId else metricsOf st.db x := by
          intro x
          rw [s9 x]
          by_cases hx : x = st.db.nextId
          · rw [if_pos hx, if_pos ⟨rfl, hx⟩]
          · rw [if_neg hx, if_neg (fun h => hx h.2)]
        have hstepT : ∀ x, taxesOf (processRowV2 st rowIdx r).db x =
            if (fun _ : List Cell => true) r = true ∧ x = st.db.nextId
            then v2DecodedTaxes r st.db.nextId else taxesOf st.db x := by
          intro x
          rw [s10 x]
          by_cases hx : x = st.db.nextId
          · rw [if_pos hx, if_pos ⟨rfl, hx⟩]
          · rw [if_neg hx, if_neg (fun h => hx h.2)]
        refine ⟨?_, ?_, h3, h4, ?_, ?_, ?_, ?_,
          famSpec_cons _ _ _ _ _ _ _ _ _ ⟨st.db.nextId, inn, v2OrgFields r⟩ inn
            hinn rfl horgS hnodup horgMem hstepM h9,
          famSpec_cons _ _ _ _ _ _ _ _ _ ⟨st.db.nextId, inn, v2OrgFields r⟩ inn
            hinn rfl horgS hnodup horgMem hstepT h10,
          famSpec_cons _ _ _ _ _ _ _ _ _ ⟨st.db.nextId, inn, v2OrgFields r⟩ inn
            hinn rfl horgS hnodup horgMem s11 h11,
          famSpec_cons _ _ _ _ _ _ _ _ _ ⟨st.db.nextId, inn, v2OrgFields r⟩ inn
            hinn rfl horgS hnodup horgMem s12 h12,
          famSpec_cons _ _ _ _ _ _ _ _ _ ⟨st.db.nextId, inn, v2OrgFields r⟩ inn
            hinn rfl horgS hnodup horgMem s13 h13⟩
        · rw [h1, List.append_assoc]; rfl
        · rw [h2', List.length_cons]; omega
        · rw [h5]; try dsimp only; try omega
        · rw [h6]; try dsimp only; try omega
        · rw [h7]; try dsimp only; try omega
        · rw [h8]; try dsimp only; try omega

/-- Running the same rows from the state a first run produced changes no
family value: both runs resolve every organization's family to the same
last relevant row. -/
theorem famSpec_fixpoint {α : Type} (get : DB → Nat → α) (dec : List Cell → Nat → α)
    (cond : List Cell → Bool) (db1 Sdb S2db : DB) (orgsS : List OrgRec)
    (rows : List (List Cell))
    (hfst : famSpec get dec cond db1 Sdb orgsS rows)
    (hsnd : famSpec get dec cond Sdb S2db orgsS rows) :
    ∀ o ∈ orgsS, get S2db o.id = get Sdb o.id := by
  intro o ho
  have e1 := hfst o ho
  have e2 := hsnd o ho
  by_cases htgt : targetOf orgsS o.inn = some o
  · rw [if_pos htgt] at e1 e2
    cases hl : lastCondRowFor cond o.inn rows with
    | some r =>
      rw [hl] at e1 e2
      dsimp only at e1 e2
      rw [e1, e2]
    | none =>
      rw [hl] at e2
      dsimp only at e2
      exact e2
  · rw [if_neg htgt] at e2
    exact e2

/-- Idempotence of re-import, stated over the row loop. -/
theorem reimport_spec (db : DB) (rows : List (List Cell))
    (hlen : ∀ r ∈ rows, 167 ≤ r.length) (hinv : DBInv db) :
    (processRowsV2 { initState with db := (processRowsV2 { initState with db := db } 2 rows).db } 2 rows).db.orgs
        = (processRowsV2 { initState with db := db } 2 rows).db.orgs ∧
    (∀ o ∈ (processRowsV2 { initState with db := db } 2 rows).db.orgs,
      metricsOf (processRowsV2 { initState with db := (processRowsV2 { initState with db := db } 2 rows).db } 2 rows).db o.id
          = metricsOf (processRowsV2 { initState with db := db } 2 rows).db o.id ∧
      taxesOf (processRowsV2 { initState with db := (processRowsV2 { initState with db := db } 2 rows).db } 2 rows).db o.id
          = taxesOf (processRowsV2 { initState with db := db } 2 rows).db o.id ∧
      assetsOf (processRowsV2 { initState with db := (processRowsV2 { initState with db := db } 2 rows).db } 2 rows).db o.id
          = assetsOf (processRowsV2 { initState with db := db } 2 rows).db o.id ∧
      productsOf (processRowsV2 { initState with db := (processRowsV2 { initState with db := db } 2 rows).db } 2 rows).db o.id
          = productsOf (processRowsV2 { initState with db := db } 2 rows).db o.id ∧
      metasOf (processRowsV2 { initState with db := (processRowsV2 { initState with db := db } 2 rows).db } 2 rows).db o.id
          = metasOf (processRowsV2 { initState with db := db } 2 rows).db o.id) ∧
    (processRowsV2 { initState with db := (processRowsV2 { initState with db := db } 2 rows).db } 2 rows).organizations_new = 0 ∧
    (processRowsV2 { initState with db := (processRowsV2 { initState with db := db } 2 rows).db } 2 rows).organizations_updated
        = (rows.filter (fun r => (rowInn r).isSome)).length := by
  obtain ⟨a1, a2, a3, a4, a5, a6, a7, a8, a9, a10, a11, a12, a13⟩ :=
    processRowsV2_char rows { initState with db := db } 2 hlen hinv
  have hknown : ∀ r ∈ rows, ∀ inn, rowInn r = some inn →
      inn ∈ innsOf ({ initState with db := (processRowsV2 { initState with db := db } 2 rows).db } : ImportState).db := by
    intro r hr inn hinn
    have hcov := newOrgsSpec_covers rows db.nextId (innsOf db) r inn hr hinn
    show inn ∈ innsOf (processRowsV2 { initState with db := db } 2 rows).db
    unfold innsOf
    rw [a1, List.map_append]
    exact hcov
  obtain ⟨b1, b2, b3, b4, b5, b6, b7, b8, b9, b10, b11, b12, b13⟩ :=
    processRowsV2_char rows
      { initState with db := (processRowsV2 { initState with db := db } 2 rows).db } 2 hlen a3
  have hnew := newOrgsSpec_nil_of_known rows
      ({ initState with db := (processRowsV2 { initState with db := db } 2 rows).db } : ImportState).db.nextId
      (innsOf ({ initState with db := (processRowsV2 { initState with db := db } 2 rows).db } : ImportState).db)
      hknown
  have hstat := statSpec_of_known rows
      (innsOf ({ initState with db := (processRowsV2 { initState with db := db } 2 rows).db } : ImportState).db)
      hknown
  have horgs : (processRowsV2 { initState with db := (processRowsV2 { initState with db := db } 2 rows).db } 2 rows).db.orgs
      = (processRowsV2 { initState with db := db } 2 rows).db.orgs := by
    rw [b1, hnew, List.append_nil]
  refine ⟨horgs, ?_, ?_, ?_⟩
  · rw [horgs] at b9 b10 b11 b12 b13
    intro o ho
    exact ⟨famSpec_fixpoint _ _ _ _ _ _ _ rows a9 b9 o ho,
      famSpec_fixpoint _ _ _ _ _ _ _ rows a10 b10 o ho,
      famSpec_fixpoint _ _ _ _ _ _ _ rows a11 b11 o ho,
      famSpec_fixpoint _ _ _ _ _ _ _ rows a12 b12 o ho,
      famSpec_fixpoint _ _ _ _ _ _ _ rows a13 b13 o ho⟩
  · rw [b5, hstat]
    simp [initState]
  · rw [b6, hstat]
    simp [initState]

end V2

/-- **C2.**  Re-importing the same workbook (rows long enough that no
`IndexError` fires) is idempotent: the second run leaves the organization
list — and with it the organization count and every persisted scalar
field — exactly as the first run left it, leaves every organization's
metric, tax, asset, product and meta records exactly as the first run
left them, reports zero organizations created, and counts every
inn-bearing row as an update. -/
theorem C2_idempotent_reimport (db : DB) (rows : List (List Cell))
    (hlen : ∀ r ∈ rows, 167 ≤ r.length) (hinv : V2.DBInv db) :
    (V2.process_excel_file (V2.process_excel_file db rows).db rows).db.orgs
        = (V2.process_excel_file db rows).db.orgs ∧
    (∀ o ∈ (V2.process_excel_file db rows).db.orgs,
      metricsOf (V2.process_excel_file (V2.process_excel_file db rows).db rows).db o.id
          = metricsOf (V2.process_excel_file db rows).db o.id ∧
      taxesOf (V2.process_excel_file (V2.process_excel_file db rows).db rows).db o.id
          = taxesOf (V2.process_excel_file db rows).db o.id ∧
      assetsOf (V2.process_excel_file (V2.process_excel_file db rows).db rows).db o.id
          = assetsOf (V2.process_excel_file db rows).db o.id ∧
      productsOf (V2.process_excel_file (V2.process_excel_file db rows).db rows).db o.id
          = productsOf (V2.process_excel_file db rows).db o.id ∧
      metasOf (V2.process_excel_file (V2.process_excel_file db rows).db rows).db o.id
          = metasOf (V2.process_excel_file db rows).db o.id) ∧
    (V2.process_excel_file (V2.process_excel_file db rows).db rows).organizations_new = 0 ∧
    (V2.process_excel_file (V2.process_excel_file db rows).db rows).organizations_updated
        = (rows.filter (fun r => (V2.rowInn r).isSome)).length :=
  V2.reimport_spec db rows hlen hinv

/-- Witness for C2: one 167-cell row bearing inn `"7701"`, imported twice
into the empty store. -/
theorem C2_witness :
    ((∀ r ∈ [mkRow 167 [(1, Cell.str "7701")]], 167 ≤ r.length) ∧
      V2.DBInv DB.empty) ∧
    (V2.process_excel_file (V2.process_excel_file DB.empty [mkRow 167 [(1, Cell.str "7701")]]).db
        [mkRow 167 [(1, Cell.str "7701")]]).db.orgs
      = (V2.process_excel_file DB.empty [mkRow 167 [(1, Cell.str "7701")]]).db.orgs ∧
    (V2.process_excel_file (V2.process_excel_file DB.empty [mkRow 167 [(1, Cell.str "7701")]]).db
        [mkRow 167 [(1, Cell.str "7701")]]).organizations_new = 0 :=
  ⟨⟨by decide, by decide⟩,
    (C2_idempotent_reimport DB.empty [mkRow 167 [(1, Cell.str "7701")]]
      (by decide) (by decide)).1,
    (C2_idempotent_reimport DB.empty [mkRow 167 [(1, Cell.str "7701")]]
      (by decide) (by decide)).2.2.1⟩

/-! ## Export → re-import composition (C6)

The exporter renders a numeric child column as the raw number when it is
truthy and as the empty string otherwise; `safe_float`/`safe_int` read the
number back and turn the empty string into `None`.  `normQ`/`normZ` is
exactly that composition. -/

/-- Truthiness normalization of a nullable numeric: zero collapses to
absent. -/
def normQ (x : Option ℚ) : Option ℚ := if optQTruthy x then x else Option.none

/-- Truthiness normalization of a nullable integer. -/
def normZ (x : Option ℤ) : Option ℤ := if optZTruthy x then x else Option.none

theorem safe_float_ocellQ {α : Type} (rec : Option α) (f : α → Option ℚ) :
    safe_float (Exporter.ocellQ rec f) = normQ (rec.bind f) := by
  cases rec with
  | none => rfl
  | some r =>
    cases hf : f r with
    | none =>
      simp [Exporter.ocellQ, Exporter.cellQTruthy, hf, safe_float, normQ, optQTruthy]
    | some q =>
      by_cases hq : q = 0
      · subst hq
        simp [Exporter.ocellQ, Exporter.cellQTruthy, hf, safe_float, normQ, optQTruthy]
      · simp [Exporter.ocellQ, Exporter.cellQTruthy, hf, hq, safe_float, normQ,
          optQTruthy, pyFloat?, isBlankStr]

theorem safe_int_ocellZ {α : Type} (rec : Option α) (f : α → Option ℤ) :
    safe_int (Exporter.ocellZ rec f) = normZ (rec.bind f) := by
  cases rec with
  | none => rfl
  | some r =>
    cases hf : f r with
    | none =>
      simp [Exporter.ocellZ, hf, safe_int, normZ, optZTruthy]
    | some n =>
      by_cases hn : n = 0
      · subst hn
        simp [Exporter.ocellZ, hf, safe_int, normZ, optZTruthy]
      · simp [Exporter.ocellZ, hf, hn, safe_int, normZ, optZTruthy, pyFloat?,
          isBlankStr, ratTrunc]

/-- The metric record the re-import decodes for year `y` from an exported
row: each field is the truthiness normalization of the last stored record
of `(src, y)`, with investments present only for 2021-2023 and export
volume only for 2019-2023 (the positional layout has no other columns). -/
def roundMetric (db : DB) (src oid y : Nat) : MetricRec where
  organization_id := oid
  year := y
  revenue := normQ ((Exporter.metricForYear db src y).bind MetricRec.revenue)
  profit := normQ ((Exporter.metricForYear db src y).bind MetricRec.profit)
  total_employees := normZ ((Exporter.metricForYear db src y).bind MetricRec.total_employees)
  moscow_employees := normZ ((Exporter.metricForYear db src y).bind MetricRec.moscow_employees)
  total_fot := normQ ((Exporter.metricForYear db src y).bind MetricRec.total_fot)
  moscow_fot := normQ ((Exporter.metricForYear db src y).bind MetricRec.moscow_fot)
  avg_salary_total := normQ ((Exporter.metricForYear db src y).bind MetricRec.avg_salary_total)
  avg_salary_moscow := normQ ((Exporter.metricForYear db src y).bind MetricRec.avg_salary_moscow)
  investments :=
    if y = 2021 ∨ y = 2022 ∨ y = 2023
    then normQ ((Exporter.metricForYear db src y).bind MetricRec.investments)
    else Option.none
  export_volume :=
    if y = 2019 ∨ y = 2020 ∨ y = 2021 ∨ y = 2022 ∨ y = 2023
    then normQ ((Exporter.metricForYear db src y).bind MetricRec.export_volume)
    else Option.none

/-- The tax record the re-import decodes for year `y` from an exported
row. -/
def roundTax (db : DB) (src oid y : Nat) : TaxRec where
  organization_id := oid
  year := y
  total_taxes_moscow := normQ ((Exporter.taxForYear db src y).bind TaxRec.total_taxes_moscow)
  profit_tax := normQ ((Exporter.taxForYear db src y).bind TaxRec.profit_tax)
  property_tax := normQ ((Exporter.taxForYear db src y).bind TaxRec.property_tax)
  land_tax := normQ ((Exporter.taxForYear db src y).bind TaxRec.land_tax)
  ndfl := normQ ((Exporter.taxForYear db src y).bind TaxRec.ndfl)
  transport_tax := normQ ((Exporter.taxForYear db src y).bind TaxRec.transport_tax)
  other_taxes := normQ ((Exporter.taxForYear db src y).bind TaxRec.other_taxes)
  excise := normQ ((Exporter.taxForYear db src y).bind TaxRec.excise)

theorem exportHeaders_length : Exporter.exportHeaders.length = 209 := by decide

theorem buildExportRow_length (db : DB) (idx : Nat) (org : OrgRec) :
    (Exporter.buildExportRow db idx org).length = 209 := by
  simp [Exporter.buildExportRow, Exporter.years, Exporter.tax_years,
    Exporter.export_years]

/-- `buildExportRow` flattened to its 209 cells (the `let`s of the source
expanded), in the exact append order. -/
def exportRowCells (db : DB) (idx : Nat) (org : OrgRec) : List Cell :=
  [Cell.num (idx : ℚ),
   Cell.str org.inn,
   Exporter.cellStrOr org.fields.name,
   Exporter.cellStrOr org.fields.full_name,
   Exporter.cellStrOr org.fields.status_spark,
   Exporter.cellStrOr org.fields.status_internal,
   Exporter.cellStrOr org.fields.status_final,
   Exporter.cellDate org.fields.date_added,
   Exporter.cellStrOr org.fields.legal_address,
   Exporter.cellStrOr org.fields.production_address,
   Exporter.cellStrOr org.fields.additional_address,
   Exporter.cellStrOr org.fields.main_industry,
   Exporter.cellStrOr org.fields.main_subindustry,
   Exporter.cellStrOr org.fields.extra_industry,
   Exporter.cellStrOr org.fields.extra_subindustry,
   Exporter.ocellStr (metasOf db org.id).head? MetaRec.presentation_links,
   Exporter.cellStrOr org.fields.main_okved,
   Exporter.cellStrOr org.fields.main_okved_name,
   Exporter.cellStrOr org.fields.prod_okved,
   Exporter.cellStrOr org.fields.prod_okved_name,
   Exporter.cellStrOr org.fields.company_info,
   Exporter.cellStrOr org.fields.company_size,
   Exporter.cellStrOr org.fields.company_size_2022,
   Exporter.cellStrOr org.fields.size_by_employees,
   Exporter.cellStrOr org.fields.size_by_employees_2022,
   Exporter.cellStrOr org.fields.size_by_revenue,
   Exporter.cellStrOr org.fields.size_by_revenue_2022,
   Exporter.cellDate org.fields.registration_date,
   Exporter.cellStrOr org.fields.head_name,
   Exporter.cellStrOr org.fields.parent_org_name,
   Exporter.cellStrOr org.fields.parent_org_inn,
   Exporter.cellStrOr org.fields.parent_relation_type,
   Exporter.cellStrOr org.fields.head_contacts,
   Exporter.cellStrOr org.fields.head_email,
   Exporter.cellStrOr org.fields.employee_contact,
   Exporter.cellStrOr org.fields.phone,
   Exporter.cellStrOr org.fields.emergency_contact,
   Exporter.cellStrOr org.fields.website,
   Exporter.cellStrOr org.fields.email,
   Exporter.cellStrOr org.fields.support_data,
   Exporter.cellStrOr org.fields.special_status,
   Exporter.cellStrOr org.fields.site_final,
   (if org.fields.got_moscow_support then Cell.str "Да" else Cell.str "Нет"),
   (if org.fields.is_system_critical then Cell.str "Да" else Cell.str "Нет"),
   Exporter.cellStrOr org.fields.msp_status,
   Cell.str "",
   Cell.str "",
   Exporter.ocellQ (Exporter.metricForYear db org.id 2017) MetricRec.revenue,
   Exporter.ocellQ (Exporter.metricForYear db org.id 2018) MetricRec.revenue,
   Exporter.ocellQ (Exporter.metricForYear db org.id 2019) MetricRec.revenue,
   Exporter.ocellQ (Exporter.metricForYear db org.id 2020) MetricRec.revenue,
   Exporter.ocellQ (Exporter.metricForYear db org.id 2021) MetricRec.revenue,
   Exporter.ocellQ (Exporter.metricForYear db org.id 2022) MetricRec.revenue,
   Exporter.ocellQ (Exporter.metricForYear db org.id 2023) MetricRec.revenue,
   Exporter.ocellQ (Exporter.metricForYear db org.id 2017) MetricRec.profit,
   Exporter.ocellQ (Exporter.metricForYear db org.id 2018) MetricRec.profit,
   Exporter.ocellQ (Exporter.metricForYear db org.id 2019) MetricRec.profit,
   Exporter.ocellQ (Exporter.metricForYear db org.id 2020) MetricRec.profit,
   Exporter.ocellQ (Exporter.metricForYear db org.id 2021) MetricRec.profit,
   Exporter.ocellQ (Exporter.metricForYear db org.id 2022) MetricRec.profit,
   Exporter.ocellQ (Exporter.metricForYear db org.id 2023) MetricRec.profit,
   Exporter.ocellZ (Exporter.metricForYear db org.id 2017) MetricRec.total_employees,
   Exporter.ocellZ (Exporter.metricForYear db org.id 2018) MetricRec.total_employees,
   Exporter.ocellZ (Exporter.metricForYear db org.id 2019) MetricRec.total_employees,
   Exporter.ocellZ (Exporter.metricForYear db org.id 2020) MetricRec.total_employees,
   Exporter.ocellZ (Exporter.metricForYear db org.id 2021) MetricRec.total_employees,
   Exporter.ocellZ (Exporter.metricForYear db org.id 2022) MetricRec.total_employees,
   Exporter.ocellZ (Exporter.metricForYear db org.id 2023) MetricRec.total_employees,
   Exporter.ocellZ (Exporter.metricForYear db org.id 2017) MetricRec.moscow_employees,
   Exporter.ocellZ (Exporter.metricForYear db org.id 2018) MetricRec.moscow_employees,
   Exporter.ocellZ (Exporter.metricForYear db org.id 2019) MetricRec.moscow_employees,
   Exporter.ocellZ (Exporter.metricForYear db org.id 2020) MetricRec.moscow_employees,
   Exporter.ocellZ (Exporter.metricForYear db org.id 2021) MetricRec.moscow_employees,
   Exporter.ocellZ (Exporter.metricForYear db org.id 2022) MetricRec.moscow_employees,
   Exporter.ocellZ (Exporter.metricForYear db org.id 2023) MetricRec.moscow_employees,
   Exporter.ocellQ (Exporter.metricForYear db org.id 2017) MetricRec.total_fot,
   Exporter.ocellQ (Exporter.metricForYear db org.id 2018) MetricRec.total_fot,
   Exporter.ocellQ (Exporter.metricForYear db org.id 2019) MetricRec.total_fot,
   Exporter.ocellQ (Exporter.metricForYear db org.id 2020) MetricRec.total_fot,
   Exporter.ocellQ (Exporter.metricForYear db org.id 2021) MetricRec.total_fot,
   Exporter.ocellQ (Exporter.metricForYear db org.id 2022) MetricRec.total_fot,
   Exporter.ocellQ (Exporter.metricForYear db org.id 2023) MetricRec.total_fot,
   Exporter.ocellQ (Exporter.metricForYear db org.id 2017) MetricRec.moscow_fot,
   Exporter.ocellQ (Exporter.metricForYear db org.id 2018) MetricRec.moscow_fot,
   Exporter.ocellQ (Exporter.metricForYear db org.id 2019) MetricRec.moscow_fot,
   Exporter.ocellQ (Exporter.metricForYear db org.id 2020) MetricRec.moscow_fot,
   Exporter.ocellQ (Exporter.metricForYear db org.id 2021) MetricRec.moscow_fot,
   Exporter.ocellQ (Exporter.metricForYear db org.id 2022) MetricRec.moscow_fot,
   Exporter.ocellQ (Exporter.metricForYear db org.id 2023) MetricRec.moscow_fot,
   Exporter.ocellQ (Exporter.metricForYear db org.id 2017) MetricRec.avg_salary_total,
   Exporter.ocellQ (Exporter.metricForYear db org.id 2018) MetricRec.avg_salary_total,
   Exporter.ocellQ (Exporter.metricForYear db org.id 2019) MetricRec.avg_salary_total,
   Exporter.ocellQ (Exporter.metricForYear db org.id 2020) MetricRec.avg_salary_total,
   Exporter.ocellQ (Exporter.metricForYear db org.id 2021) MetricRec.avg_salary_total,
   Exporter.ocellQ (Exporter.metricForYear db org.id 2022) MetricRec.avg_salary_total,
   Exporter.ocellQ (Exporter.metricForYear db org.id 2023) MetricRec.avg_salary_total,
   Exporter.ocellQ (Exporter.metricForYear db org.id 2017) MetricRec.avg_salary_moscow,
   Exporter.ocellQ (Exporter.metricForYear db org.id 2018) MetricRec.avg_salary_moscow,
   Exporter.ocellQ (Exporter.metricForYear db org.id 2019) MetricRec.avg_salary_moscow,
   Exporter.ocellQ (Exporter.metricForYear db org.id 2020) MetricRec.avg_salary_moscow,
   Exporter.ocellQ (Exporter.metricForYear db org.id 2021) MetricRec.avg_salary_moscow,
   Exporter.ocellQ (Exporter.metricForYear db org.id 2022) MetricRec.avg_salary_moscow,
   Exporter.ocellQ (Exporter.metricForYear db org.id 2023) MetricRec.avg_salary_moscow,
   Exporter.ocellQ (Exporter.taxForYear db org.id 2017) TaxRec.total_taxes_moscow,
   Exporter.ocellQ (Exporter.taxForYear db org.id 2018) TaxRec.total_taxes_moscow,
   Exporter.ocellQ (Exporter.taxForYear db org.id 2019) TaxRec.total_taxes_moscow,
   Exporter.ocellQ (Exporter.taxForYear db org.id 2020) TaxRec.total_taxes_moscow,
   Exporter.ocellQ (Exporter.taxForYear db org.id 2021) TaxRec.total_taxes_moscow,
   Exporter.ocellQ (Exporter.taxForYear db org.id 2022) TaxRec.total_taxes_moscow,
   Exporter.ocellQ (Exporter.taxForYear db org.id 2023) TaxRec.total_taxes_moscow,
   Exporter.ocellQ (Exporter.taxForYear db org.id 2024) TaxRec.total_taxes_moscow,
   Exporter.ocellQ (Exporter.taxForYear db org.id 2017) TaxRec.profit_tax,
   Exporter.ocellQ (Exporter.taxForYear db org.id 2018) TaxRec.profit_tax,
   Exporter.ocellQ (Exporter.taxForYear db org.id 2019) TaxRec.profit_tax,
   Exporter.ocellQ (Exporter.taxForYear db org.id 2020) TaxRec.profit_tax,
   Exporter.ocellQ (Exporter.taxForYear db org.id 2021) TaxRec.profit_tax,
   Exporter.ocellQ (Exporter.taxForYear db org.id 2022) TaxRec.profit_tax,
   Exporter.ocellQ (Exporter.taxForYear db org.id 2023) TaxRec.profit_tax,
   Exporter.ocellQ (Exporter.taxForYear db org.id 2024) TaxRec.profit_tax,
   Exporter.ocellQ (Exporter.taxForYear db org.id 2017) TaxRec.property_tax,
   Exporter.ocellQ (Exporter.taxForYear db org.id 2018) TaxRec.property_tax,
   Exporter.ocellQ (Exporter.taxForYear db org.id 2019) TaxRec.property_tax,
   Exporter.ocellQ (Exporter.taxForYear db org.id 2020) TaxRec.property_tax,
   Exporter.ocellQ (Exporter.taxForYear db org.id 2021) TaxRec.property_tax,
   Exporter.ocellQ (Exporter.taxForYear db org.id 2022) TaxRec.property_tax,
   Exporter.ocellQ (Exporter.taxForYear db org.id 2023) TaxRec.property_tax,
   Exporter.ocellQ (Exporter.taxForYear db org.id 2024) TaxRec.property_tax,
   Exporter.ocellQ (Exporter.taxForYear db org.id 2017) TaxRec.land_tax,
   Exporter.ocellQ (Exporter.taxForYear db org.id 2018) TaxRec.land_tax,
   Exporter.ocellQ (Exporter.taxForYear db org.id 2019) TaxRec.land_tax,
   Exporter.ocellQ (Exporter.taxForYear db org.id 2020) TaxRec.land_tax,
   Exporter.ocellQ (Exporter.taxForYear db org.id 2021) TaxRec.land_tax,
   Exporter.ocellQ (Exporter.taxForYear db org.id 2022) TaxRec.land_tax,
   Exporter.ocellQ (Exporter.taxForYear db org.id 2023) TaxRec.land_tax,
   Exporter.ocellQ (Exporter.taxForYear db org.id 2024) TaxRec.land_tax,
   Exporter.ocellQ (Exporter.taxForYear db org.id 2017) TaxRec.ndfl,
   Exporter.ocellQ (Exporter.taxForYear db org.id 2018) TaxRec.ndfl,
   Exporter.ocellQ (Exporter.taxForYear db org.id 2019) TaxRec.ndfl,
   Exporter.ocellQ (Exporter.taxForYear db org.id 2020) TaxRec.ndfl,
   Exporter.ocellQ (Exporter.taxForYear db org.id 2021) TaxRec.ndfl,
   Exporter.ocellQ (Exporter.taxForYear db org.id 2022) TaxRec.ndfl,
   Exporter.ocellQ (Exporter.taxForYear db org.id 2023) TaxRec.ndfl,
   Exporter.ocellQ (Exporter.taxForYear db org.id 2024) TaxRec.ndfl,
   Exporter.ocellQ (Exporter.taxForYear db org.id 2017) TaxRec.transport_tax,
   Exporter.ocellQ (Exporter.taxForYear db org.id 2018) TaxRec.transport_tax,
   Exporter.ocellQ (Exporter.taxForYear db org.id 2019) TaxRec.transport_tax,
   Exporter.ocellQ (Exporter.taxForYear db org.id 2020) TaxRec.transport_tax,
   Exporter.ocellQ (Exporter.taxForYear db org.id 2021) TaxRec.transport_tax,
   Exporter.ocellQ (Exporter.taxForYear db org.id 2022) TaxRec.transport_tax,
   Exporter.ocellQ (Exporter.taxForYear db org.id 2023) TaxRec.transport_tax,
   Exporter.ocellQ (Exporter.taxForYear db org.id 2024) TaxRec.transport_tax,
   Exporter.ocellQ (Exporter.taxForYear db org.id 2017) TaxRec.other_taxes,
   Exporter.ocellQ (Exporter.taxForYear db org.id 2018) TaxRec.other_taxes,
   Exporter.ocellQ (Exporter.taxForYear db org.id 2019) TaxRec.other_taxes,
   Exporter.ocellQ (Exporter.taxForYear db org.id 2020) TaxRec.other_taxes,
   Exporter.ocellQ (Exporter.taxForYear db org.id 2021) TaxRec.other_taxes,
   Exporter.ocellQ (Exporter.taxForYear db org.id 2022) TaxRec.other_taxes,
   Exporter.ocellQ (Exporter.taxForYear db org.id 2023) TaxRec.other_taxes,
   Exporter.ocellQ (Exporter.taxForYear db org.id 2024) TaxRec.other_taxes,
   Exporter.ocellQ (Exporter.taxForYear db org.id 2017) TaxRec.excise,
   Exporter.ocellQ (Exporter.taxForYear db org.id 2018) TaxRec.excise,
   Exporter.ocellQ (Exporter.taxForYear db org.id 2019) TaxRec.excise,
   Exporter.ocellQ (Exporter.taxForYear db org.id 2020) TaxRec.excise,
   Exporter.ocellQ (Exporter.taxForYear db org.id 2021) TaxRec.excise,
   Exporter.ocellQ (Exporter.taxForYear db org.id 2022) TaxRec.excise,
   Exporter.ocellQ (Exporter.taxForYear db org.id 2023) TaxRec.excise,
   Exporter.ocellQ (Exporter.taxForYear db org.id 2024) TaxRec.excise,
   Exporter.ocellQ (Exporter.metricForYear db org.id 2021) MetricRec.investments,
   Exporter.ocellQ (Exporter.metricForYear db org.id 2022) MetricRec.investments,
   Exporter.ocellQ (Exporter.metricForYear db org.id 2023) MetricRec.investments,
   Exporter.ocellQ (Exporter.metricForYear db org.id 2019) MetricRec.export_volume,
   Exporter.ocellQ (Exporter.metricForYear db org.id 2020) MetricRec.export_volume,
   Exporter.ocellQ (Exporter.metricForYear db org.id 2021) MetricRec.export_volume,
   Exporter.ocellQ (Exporter.metricForYear db org.id 2022) MetricRec.export_volume,
   Exporter.ocellQ (Exporter.metricForYear db org.id 2023) MetricRec.export_volume,
   Exporter.ocellStr (assetsOf db org.id).head? AssetRec.property_summary,
   Exporter.ocellStr (assetsOf db org.id).head? AssetRec.cadastral_number_land,
   Exporter.ocellQ (assetsOf db org.id).head? AssetRec.land_area,
   Exporter.ocellStr (assetsOf db org.id).head? AssetRec.land_usage,
   Exporter.ocellStr (assetsOf db org.id).head? AssetRec.land_ownership_type,
   Exporter.ocellStr (assetsOf db org.id).head? AssetRec.land_owner,
   Exporter.ocellStr (assetsOf db org.id).head? AssetRec.cadastral_number_building,
   Exporter.ocellQ (assetsOf db org.id).head? AssetRec.building_area,
   Exporter.ocellStr (assetsOf db org.id).head? AssetRec.building_usage,
   Exporter.ocellStr (assetsOf db org.id).head? AssetRec.building_type,
   Exporter.ocellStr (assetsOf db org.id).head? AssetRec.building_ownership_type,
   Exporter.ocellStr (assetsOf db org.id).head? AssetRec.building_owner,
   Exporter.ocellQ (assetsOf db org.id).head? AssetRec.production_area,
   Cell.str "",
   Exporter.ocellStr (productsOf db org.id).head? ProductRec.standardized_product,
   Exporter.ocellStr (productsOf db org.id).head? ProductRec.product_name,
   Exporter.ocellStr (productsOf db org.id).head? ProductRec.okpd2_codes,
   Exporter.ocellStr (productsOf db org.id).head? ProductRec.product_types,
   Exporter.ocellStr (productsOf db org.id).head? ProductRec.product_catalog,
   Exporter.ocellBool (productsOf db org.id).head? ProductRec.has_government_orders,
   Exporter.ocellSTruthy (productsOf db org.id).head? ProductRec.capacity_usage,
   Exporter.ocellBool (productsOf db org.id).head? ProductRec.has_export,
   Exporter.ocellQ (productsOf db org.id).head? ProductRec.export_volume_last_year,
   Exporter.ocellStr (productsOf db org.id).head? ProductRec.export_countries,
   Exporter.ocellStr (productsOf db org.id).head? ProductRec.tnved_code,
   Exporter.ocellStr (metasOf db org.id).head? MetaRec.registry_development,
   (match (metasOf db org.id).head? with
    | some m => Cell.str ((m.industry_spark.getD "") ++ " / " ++ (m.industry_directory.getD ""))
    | Option.none => Cell.str ""),
   Exporter.cellStrOr org.fields.legal_address_coords,
   Exporter.cellStrOr org.fields.production_address_coords,
   Exporter.cellStrOr org.fields.additional_address_coords,
   Exporter.cellQTruthy org.fields.coordinates_lat,
   Exporter.cellQTruthy org.fields.coordinates_lon,
   Exporter.cellStrOr org.fields.district,
   Exporter.cellStrOr org.fields.region]

set_option maxHeartbeats 2000000 in
theorem buildExportRow_eq (db : DB) (idx : Nat) (org : OrgRec) :
    Exporter.buildExportRow db idx org = exportRowCells db idx org := by
  simp [Exporter.buildExportRow, exportRowCells, Exporter.years,
    Exporter.tax_years, Exporter.export_years, List.range']

/-- Decoding year index `i` of an exported row gives exactly the
normalized stored metric record of year `2017 + i`. -/
theorem v2MetricYear_export (db : DB) (idx : Nat) (org : OrgRec) (oid : Nat) :
    ∀ i < 7, V2.v2MetricYear (exportRowCells db idx org) oid i
      = roundMetric db org.id oid (2017 + i) := by
  intro i hi
  interval_cases i
  · simp only [V2.v2MetricYear, roundMetric, MetricRec.mk.injEq]
    exact ⟨trivial, trivial, safe_float_ocellQ _ _, safe_float_ocellQ _ _,
      safe_int_ocellZ _ _, safe_int_ocellZ _ _, safe_float_ocellQ _ _,
      safe_float_ocellQ _ _, safe_float_ocellQ _ _, safe_float_ocellQ _ _,
      rfl, rfl⟩
  · simp only [V2.v2MetricYear, roundMetric, MetricRec.mk.injEq]
    exact ⟨trivial, trivial, safe_float_ocellQ _ _, safe_float_ocellQ _ _,
      safe_int_ocellZ _ _, safe_int_ocellZ _ _, safe_float_ocellQ _ _,
      safe_float_ocellQ _ _, safe_float_ocellQ _ _, safe_float_ocellQ _ _,
      rfl, rfl⟩
  · simp only [V2.v2MetricYear, roundMetric, MetricRec.mk.injEq]
    exact ⟨trivial, trivial, safe_float_ocellQ _ _, safe_float_ocellQ _ _,
      safe_int_ocellZ _ _, safe_int_ocellZ _ _, safe_float_ocellQ _ _,
      safe_float_ocellQ _ _, safe_float_ocellQ _ _, safe_float_ocellQ _ _,
      rfl, safe_float_ocellQ _ _⟩
  · simp only [V2.v2MetricYear, roundMetric, MetricRec.mk.injEq]
    exact ⟨trivial, trivial, safe_float_ocellQ _ _, safe_float_ocellQ _ _,
      safe_int_ocellZ _ _, safe_int_ocellZ _ _, safe_float_ocellQ _ _,
      safe_float_ocellQ _ _, safe_float_ocellQ _ _, safe_float_ocellQ _ _,
      rfl, safe_float_ocellQ _ _⟩
  · simp only [V2.v2MetricYear, roundMetric, MetricRec.mk.injEq]
    exact ⟨trivial, trivial, safe_float_ocellQ _ _, safe_float_ocellQ _ _,
      safe_int_ocellZ _ _, safe_int_ocellZ _ _, safe_float_ocellQ _ _,
      safe_float_ocellQ _ _, safe_float_ocellQ _ _, safe_float_ocellQ _ _,
      safe_float_ocellQ _ _, safe_float_ocellQ _ _⟩
  · simp only [V2.v2MetricYear, roundMetric, MetricRec.mk.injEq]
    exact ⟨trivial, trivial, safe_float_ocellQ _ _, safe_float_ocellQ _ _,
      safe_int_ocellZ _ _, safe_int_ocellZ _ _, safe_float_ocellQ _ _,
      safe_float_ocellQ _ _, safe_float_ocellQ _ _, safe_float_ocellQ _ _,
      safe_float_ocellQ _ _, safe_float_ocellQ _ _⟩
  · simp only [V2.v2MetricYear, roundMetric, MetricRec.mk.injEq]
    exact ⟨trivial, trivial, safe_float_ocellQ _ _, safe_float_ocellQ _ _,
      safe_int_ocellZ _ _, safe_int_ocellZ _ _, safe_float_ocellQ _ _,
      safe_float_ocellQ _ _, safe_float_ocellQ _ _, safe_float_ocellQ _ _,
      safe_float_ocellQ _ _, safe_float_ocellQ _ _⟩

/-- An organization with an all-defaults scalar block, for the C6 store. -/
def c6org : OrgRec := ⟨1, "7701", V2.v2OrgFields (blankRow 209)⟩

/-- A metric record for year 2018 whose only value is an investment. -/
def c6metric : MetricRec :=
  ⟨1, 2018, Option.none, Option.none, Option.none, Option.none, Option.none,
    Option.none, Option.none, Option.none, some 1, Option.none⟩

/-- The C6 counterexample store: one organization, one 2018 metric record
carrying only an investment value. -/
def c6db : DB := ⟨[c6org], [c6metric], [], [], [], [], 2⟩

/-- The C6 witness store: one organization, one 2017 revenue record. -/
def c6wdb : DB :=
  ⟨[c6org],
    [⟨1, 2017, some 5, Option.none, Option.none, Option.none, Option.none,
      Option.none, Option.none, Option.none, Option.none, Option.none⟩],
    [], [], [], [], 2⟩

/-- Decoding tax year index `i` of an exported row gives exactly the
normalized stored tax record of year `2017 + i`. -/
theorem v2TaxYear_export (db : DB) (idx : Nat) (org : OrgRec) (oid : Nat) :
    ∀ i < 8, V2.v2TaxYear (exportRowCells db idx org) oid i
      = roundTax db org.id oid (2017 + i) := by
  intro i hi
  interval_cases i
  · simp only [V2.v2TaxYear, roundTax, TaxRec.mk.injEq]
    exact ⟨trivial, trivial, safe_float_ocellQ _ _, safe_float_ocellQ _ _,
      safe_float_ocellQ _ _, safe_float_ocellQ _ _, safe_float_ocellQ _ _,
      safe_float_ocellQ _ _, safe_float_ocellQ _ _, safe_float_ocellQ _ _⟩
  · simp only [V2.v2TaxYear, roundTax, TaxRec.mk.injEq]
    exact ⟨trivial, trivial, safe_float_ocellQ _ _, safe_float_ocellQ _ _,
      safe_float_ocellQ _ _, safe_float_ocellQ _ _, safe_float_ocellQ _ _,
      safe_float_ocellQ _ _, safe_float_ocellQ _ _, safe_float_ocellQ _ _⟩
  · simp only [V2.v2TaxYear, roundTax, TaxRec.mk.injEq]
    exact ⟨trivial, trivial, safe_float_ocellQ _ _, safe_float_ocellQ _ _,
      safe_float_ocellQ _ _, safe_float_ocellQ _ _, safe_float_ocellQ _ _,
      safe_float_ocellQ _ _, safe_float_ocellQ _ _, safe_float_ocellQ _ _⟩
  · simp only [V2.v2TaxYear, roundTax, TaxRec.mk.injEq]
    exact ⟨trivial, trivial, safe_float_ocellQ _ _, safe_float_ocellQ _ _,
      safe_float_ocellQ _ _, safe_float_ocellQ _ _, safe_float_ocellQ _ _,
      safe_float_ocellQ _ _, safe_float_ocellQ _ _, safe_float_ocellQ _ _⟩
  · simp only [V2.v2TaxYear, roundTax, TaxRec.mk.injEq]
    exact ⟨trivial, trivial, safe_float_ocellQ _ _, safe_float_ocellQ _ _,
      safe_float_ocellQ _ _, safe_float_ocellQ _ _, safe_float_ocellQ _ _,
      safe_float_ocellQ _ _, safe_float_ocellQ _ _, safe_float_ocellQ _ _⟩
  · simp only [V2.v2TaxYear, roundTax, TaxRec.mk.injEq]
    exact ⟨trivial, trivial, safe_float_ocellQ _ _, safe_float_ocellQ _ _,
      safe_float_ocellQ _ _, safe_float_ocellQ _ _, safe_float_ocellQ _ _,
      safe_float_ocellQ _ _, safe_float_ocellQ _ _, safe_float_ocellQ _ _⟩
  · simp only [V2.v2TaxYear, roundTax, TaxRec.mk.injEq]
    exact ⟨trivial, trivial, safe_float_ocellQ _ _, safe_float_ocellQ _ _,
      safe_float_ocellQ _ _, safe_float_ocellQ _ _, safe_float_ocellQ _ _,
      safe_float_ocellQ _ _, safe_float_ocellQ _ _, safe_float_ocellQ _ _⟩
  · simp only [V2.v2TaxYear, roundTax, TaxRec.mk.injEq]
    exact ⟨trivial, trivial, safe_float_ocellQ _ _, safe_float_ocellQ _ _,
      safe_float_ocellQ _ _, safe_float_ocellQ _ _, safe_float_ocellQ _ _,
      safe_float_ocellQ _ _, safe_float_ocellQ _ _, safe_float_ocellQ _ _⟩

/-- **C6, counterexample.**  The store holds a 2018 metric record whose
only value is a non-zero investment; the exported workbook has no column
for a 2018 investment (the layout carries investments only for
2021-2023), so re-importing the export silently erases the record: the
run reports no error, yet the organization's metric list ends empty
instead of reproducing the stored value. -/
theorem C6_counterexample :
    metricsOf c6db 1 = [c6metric] ∧
    c6metric.year = 2018 ∧ c6metric.investments = some 1 ∧
    (V2.process_excel_file c6db (Exporter.exportDataRows c6db.orgs c6db)).errors = [] ∧
    metricsOf (V2.process_excel_file c6db (Exporter.exportDataRows c6db.orgs c6db)).db 1
      = [] := by
  decide

/-- **C6, amended.**  The exported header row and every data row have
exactly the 209-column layout the positional import decodes, with no
columns skipped for organizations lacking child records.  Re-importing
the export reproduces, for the stored organization, exactly one metric
record per year 2017-2023 and one tax record per year 2017-2024 whose
fields are the truthiness normalization (zero and absent collapse to
absent) of the last stored record of that year — with investments kept
only for 2021-2023 and export volume only for 2019-2023, since the
layout has no other columns for them — and a year whose normalized
record has no truthy field yields no record at all.  Values outside
that in-layout fragment (out-of-range years, zero values, 2017-2018
investments) are not reproduced, as the counterexample shows. -/
theorem C6_export_roundtrip_amended (db : DB) (org : OrgRec)
    (horgs : db.orgs = [org])
    (hinn : safe_str (Cell.str org.inn) Option.none = some org.inn)
    (hinv : V2.DBInv db) :
    Exporter.exportHeaders.length = 209 ∧
    (∀ (db' : DB) (idx : Nat) (org' : OrgRec),
      (Exporter.buildExportRow db' idx org').length = 209) ∧
    (V2.process_excel_file db (Exporter.exportDataRows db.orgs db)).errors = [] ∧
    (V2.process_excel_file db (Exporter.exportDataRows db.orgs db)).db.orgs = [org] ∧
    metricsOf (V2.process_excel_file db (Exporter.exportDataRows db.orgs db)).db org.id
      = (List.range 7).filterMap (fun i =>
          if V2.metricAny (roundMetric db org.id org.id (2017 + i))
          then some (roundMetric db org.id org.id (2017 + i)) else Option.none) ∧
    taxesOf (V2.process_excel_file db (Exporter.exportDataRows db.orgs db)).db org.id
      = (List.range 8).filterMap (fun i =>
          if V2.taxAny (roundTax db org.id org.id (2017 + i))
          then some (roundTax db org.id org.id (2017 + i)) else Option.none) := by
  have hrows : Exporter.exportDataRows db.orgs db
      = [Exporter.buildExportRow db 1 org] := by
    rw [horgs]
    rfl
  have hlen : 167 ≤ (Exporter.buildExportRow db 1 org).length := by
    rw [buildExportRow_length]; omega
  have hrinn : V2.rowInn (Exporter.buildExportRow db 1 org) = some org.inn := by
    rw [buildExportRow_eq]
    exact hinn
  have hfind : findOrg db org.inn = some org := by
    unfold findOrg
    rw [horgs]
    simp [List.find?]
  obtain ⟨s1, s2, s3, s4, s5, s6, s7, s8, s9, s10, s11, s12, s13⟩ :=
    V2.step_update { V2.initState with db := db } 2 (Exporter.buildExportRow db 1 org)
      org.inn org hlen hrinn hfind hinv
  have hrun : V2.process_excel_file db (Exporter.exportDataRows db.orgs db)
      = V2.processRowV2 { V2.initState with db := db } 2
          (Exporter.buildExportRow db 1 org) := by
    unfold V2.process_excel_file
    rw [hrows]
    rfl
  rw [hrun]
  refine ⟨exportHeaders_length, buildExportRow_length, ?_, ?_, ?_, ?_⟩
  · rw [s3]; rfl
  · rw [s1]; exact horgs
  · rw [s9 org.id, if_pos rfl, buildExportRow_eq]
    unfold V2.v2DecodedMetrics
    apply List.filterMap_congr
    intro i hi
    have hi7 : i < 7 := List.mem_range.1 hi
    simp only [V2.mkMetric?, v2MetricYear_export db 1 org org.id i hi7]
  · rw [s10 org.id, if_pos rfl, buildExportRow_eq]
    unfold V2.v2DecodedTaxes
    apply List.filterMap_congr
    intro i hi
    have hi8 : i < 8 := List.mem_range.1 hi
    simp only [V2.mkTax?, v2TaxYear_export db 1 org org.id i hi8]

/-- Witness for the amended C6: a store with one organization and a 2017
revenue record, exported and re-imported. -/
theorem C6_witness :
    (c6wdb.orgs = [c6org] ∧
      safe_str (Cell.str c6org.inn) Option.none = some c6org.inn ∧
      V2.DBInv c6wdb) ∧
    metricsOf (V2.process_excel_file c6wdb (Exporter.exportDataRows c6wdb.orgs c6wdb)).db c6org.id
      = (List.range 7).filterMap (fun i =>
          if V2.metricAny (roundMetric c6wdb c6org.id c6org.id (2017 + i))
          then some (roundMetric c6wdb c6org.id c6org.id (2017 + i)) else Option.none) :=
  ⟨⟨rfl, by decide, by decide⟩,
    (C6_export_roundtrip_amended c6wdb c6org rfl (by decide) (by decide)).2.2.2.2.1⟩

end MoscowProm
